import Mathlib

/-!
Smart-Attendance-UET: ATmega16 terminal firmware (`main.c`)

A shallow embedding of the interrupt-driven control core of
`Code for ATmega16 Microchip/test_lcd_10_12_1hour_04min/main.c`.

Modelling conventions.

* A `char` / `uint8_t` / `uint16_t` value is a natural number; 16-bit arithmetic is
  reduced modulo `2^16` explicitly (on the AVR target `int` is 16 bits wide, so the
  operands of `tick_10ms - state_timer` stay `unsigned` and the difference wraps).
* `rx_buffer` is the list of its `BUFFER_SIZE` cells.  A store `a[i] = v` is `List.set`;
  a store at an index outside the array is outside the C semantics and is a no-op here.
* A C string held in memory is read up to, and excluding, its first NUL byte (`cstr`);
  the read stops at the end of the list when the list holds no NUL.
* The two sinks (the UART data register behind `UART_TxChar`, and the routines of
  `lcd_lib.h`) are recorded as a trace of calls, `Machine.out`, oldest call first.  The
  busy-wait of `UART_TxChar` on the `UDRE` bit is taken to complete.
* The interrupt handlers are atomic (interrupts are disabled while one runs).
  `state_timer`, a local of `main`, is a field of `Machine`.
* The main loop is given twice.  `main_loop` is one pass through the body of `while (1)`
  during which no interrupt is taken, as a function on `Machine`; `Step`/`run` interleave
  such whole passes with interrupts.  `stmt`/`pass`/`exec` execute the body one
  statement at a time and take interrupts between statements, wherever `main.c` has them
  enabled (everywhere but inside the two `cli() ... sei()` sections); `pass_uninterrupted`
  shows that the pass without interrupts is `main_loop`.
-/

namespace SmartAttendance

/-! ## Data model -/

/-- The macro `BUFFER_SIZE`. -/
abbrev BUFFER_SIZE : Nat := 32

/-- The enumeration `system_state_t`. -/
inductive system_state_t where
  | STATE_IDLE
  | STATE_CHECKING
  | STATE_RESULT_OK
  | STATE_RESULT_FAIL
deriving DecidableEq, Repr

open system_state_t

/-- One call into a sink: a byte stored to `UDR`, or a call of an `lcd_lib.h` routine
(`LCD4_write_string` carries the C string its argument points to). -/
inductive Event where
  | tx (ch : Nat)
  | lcd_clear
  | lcd_write_string (s : List Nat)
  | lcd_gotoxy (x y : Nat)
deriving DecidableEq, Repr

/-- The globals of `main.c`, the local `state_timer` of `main`, and the sink trace. -/
structure Machine where
  rx_buffer : List Nat
  rx_index : Nat
  string_ready : Nat
  sensor_flag : Nat
  tick_10ms : Nat
  state : system_state_t
  state_timer : Nat
  out : List Event
deriving DecidableEq, Repr

/-! ## C strings and string literals -/

/-- The C string stored at the start of `mem`: the bytes before the first NUL. -/
def cstr (mem : List Nat) : List Nat := mem.takeWhile (fun b => b != 0)

/-- `strcpy(dst, src)`: the bytes written to `dst`, the string and its terminator. -/
def strcpy (src : List Nat) : List Nat := cstr src ++ [0]

/-- The test `strcmp(a, b) == 0`. -/
def strcmp_zero (a b : List Nat) : Bool := cstr a == cstr b

/-- `memset(mem, v, n)` on an array `mem`. -/
def memset (mem : List Nat) (v n : Nat) : List Nat :=
  List.replicate (min n mem.length) v ++ mem.drop n

/-- The literal `"NG"`. -/
def str_NG : List Nat := [78, 71, 0]
/-- The literal `"CK"`. -/
def str_CK : List Nat := [67, 75, 0]
/-- The literal `"CF"`. -/
def str_CF : List Nat := [67, 70, 0]
/-- The literal `"RD"`. -/
def str_RD : List Nat := [82, 68, 0]
/-- The literal `"RUOK"`. -/
def str_RUOK : List Nat := [82, 85, 79, 75, 0]
/-- The literal `"F"`. -/
def str_F : List Nat := [70, 0]
/-- The literal `"Checking..."`. -/
def str_Checking : List Nat := [67, 104, 101, 99, 107, 105, 110, 103, 46, 46, 46, 0]
/-- The literal `"Welcome"`. -/
def str_Welcome : List Nat := [87, 101, 108, 99, 111, 109, 101, 0]
/-- The literal `"User not found"`. -/
def str_User_not_found : List Nat :=
  [85, 115, 101, 114, 32, 110, 111, 116, 32, 102, 111, 117, 110, 100, 0]
/-- The literal `"System Ready"`. -/
def str_System_Ready : List Nat :=
  [83, 121, 115, 116, 101, 109, 32, 82, 101, 97, 100, 121, 0]

/-- The bytes of a C string literal, terminator included. -/
def literal (s : String) : List Nat := s.toList.map Char.toNat ++ [0]

/-! ## Sinks -/

/-- `UART_TxChar`. -/
def UART_TxChar (ch : Nat) (m : Machine) : Machine :=
  { m with out := m.out ++ [Event.tx ch] }

/-- `UART_SendString`: the bytes of `s`, then `'\r'`, then `'\n'`. -/
def UART_SendString (s : List Nat) (m : Machine) : Machine :=
  UART_TxChar 10 (UART_TxChar 13 ((cstr s).foldl (fun acc ch => UART_TxChar ch acc) m))

/-- `LCD4_clear` of `lcd_lib.h`. -/
def LCD4_clear (m : Machine) : Machine :=
  { m with out := m.out ++ [Event.lcd_clear] }

/-- `LCD4_write_string` of `lcd_lib.h`. -/
def LCD4_write_string (s : List Nat) (m : Machine) : Machine :=
  { m with out := m.out ++ [Event.lcd_write_string (cstr s)] }

/-- `LCD4_gotoxy` of `lcd_lib.h`. -/
def LCD4_gotoxy (x y : Nat) (m : Machine) : Machine :=
  { m with out := m.out ++ [Event.lcd_gotoxy x y] }

/-! ## Interrupt handlers -/

/-- `ISR(USART_RXC_vect)`, with `c` the byte read from `UDR`. -/
def ISR_USART_RXC_vect (c : Nat) (m : Machine) : Machine :=
  if c = 13 then m
  else if c = 10 then
    { m with rx_buffer := m.rx_buffer.set m.rx_index 0, rx_index := 0, string_ready := 1 }
  else if m.rx_index < BUFFER_SIZE - 1 then
    { m with rx_buffer := m.rx_buffer.set m.rx_index c, rx_index := (m.rx_index + 1) % 256 }
  else m

/-- `ISR(INT0_vect)`. -/
def ISR_INT0_vect (m : Machine) : Machine :=
  if m.state = STATE_IDLE ∧ m.sensor_flag = 0 then { m with sensor_flag := 1 } else m

/-- `ISR(TIMER0_COMP_vect)`. -/
def ISR_TIMER0_COMP_vect (m : Machine) : Machine :=
  { m with tick_10ms := (m.tick_10ms + 1) % 65536 }

/-- The byte-received handler run once per byte of `bs`, in order. -/
def receive (bs : List Nat) (m : Machine) : Machine :=
  bs.foldl (fun acc c => ISR_USART_RXC_vect c acc) m

/-! ## The body of `while (1)` in `main` -/

/-- The difference `a - b` of two `uint16_t` values, as the target computes it. -/
def u16_sub (a b : Nat) : Nat := (a % 65536 + (65536 - b % 65536)) % 65536

/-- The block under `SENSOR` (lines 116-136), when no interrupt is taken during it. -/
def sensor_block (m : Machine) : Machine :=
  if m.sensor_flag ≠ 0 then
    let m1 := { m with sensor_flag := 0, state := STATE_CHECKING, state_timer := m.tick_10ms }
    let m2 := { m1 with string_ready := 0, rx_index := 0,
                        rx_buffer := memset m1.rx_buffer 0 BUFFER_SIZE }
    let m3 := UART_SendString str_NG m2
    let m4 := UART_SendString str_CK m3
    let m5 := LCD4_clear m4
    let m6 := LCD4_write_string str_Checking m5
    { m6 with state := STATE_CHECKING, state_timer := m6.tick_10ms }
  else m

/-- The block under `UART` (lines 139-170); `cmd` is the local copy of the command. -/
def uart_block (m : Machine) : Machine :=
  if m.string_ready ≠ 0 then
    let cmd := strcpy m.rx_buffer
    let m1 := { m with string_ready := 0, rx_buffer := m.rx_buffer.set 0 0 }
    if strcmp_zero cmd str_RUOK then
      UART_SendString str_CF m1
    else if m1.state = STATE_CHECKING ∧ cmd.getD 0 0 = 84 then
      let m2 := LCD4_clear m1
      let m3 := LCD4_write_string str_Welcome m2
      let m4 := LCD4_gotoxy 2 1 m3
      let m5 := LCD4_write_string (cmd.drop 1) m4
      { m5 with state := STATE_RESULT_OK, state_timer := m5.tick_10ms }
    else if m1.state = STATE_CHECKING ∧ strcmp_zero cmd str_F then
      let m2 := LCD4_clear m1
      let m3 := LCD4_write_string str_User_not_found m2
      { m3 with state := STATE_RESULT_FAIL, state_timer := m3.tick_10ms }
    else m1
  else m

/-- The first block under `TIMEOUTS` (lines 173-178). -/
def check_timeout_block (m : Machine) : Machine :=
  if m.state = STATE_CHECKING ∧ u16_sub m.tick_10ms m.state_timer > 1500 then
    let m1 := LCD4_clear m
    let m2 := LCD4_write_string str_User_not_found m1
    { m2 with state := STATE_RESULT_FAIL, state_timer := m2.tick_10ms }
  else m

/-- The second block under `TIMEOUTS` (lines 180-186). -/
def result_timeout_block (m : Machine) : Machine :=
  if (m.state = STATE_RESULT_OK ∨ m.state = STATE_RESULT_FAIL) ∧
      u16_sub m.tick_10ms m.state_timer > 500 then
    let m1 := LCD4_clear m
    let m2 := LCD4_write_string str_System_Ready m1
    let m3 := UART_SendString str_RD m2
    { m3 with state := STATE_IDLE }
  else m

/-- One pass through the body of `while (1)` during which no interrupt is taken: the
four blocks one after the other.  The pass with interrupts between its statements is
`pass` below. -/
def main_loop (m : Machine) : Machine :=
  result_timeout_block (check_timeout_block (uart_block (sensor_block m)))

/-- The globals as initialised at power-on, at the entry of `while (1)`, with an empty
trace (the trace records the sink calls made from then on). -/
def power_on : Machine :=
  { rx_buffer := List.replicate BUFFER_SIZE 0, rx_index := 0, string_ready := 0,
    sensor_flag := 0, tick_10ms := 0, state := STATE_IDLE, state_timer := 0, out := [] }

/-! ## Reading the trace -/

/-- The bytes transmitted on the serial line, in order. -/
def serial : List Event → List Nat
  | [] => []
  | Event.tx ch :: es => ch :: serial es
  | _ :: es => serial es

/-- The calls made to the display, in order. -/
def display : List Event → List Event
  | [] => []
  | Event.tx _ :: es => display es
  | e :: es => e :: display es

/-- The line `s` as `UART_SendString` puts it on the wire: `s`, `'\r'`, `'\n'`. -/
def line (s : List Nat) : List Nat := cstr s ++ [13, 10]

/-- The sink calls made during one pass through the body of `while (1)` started in `m`. -/
def main_loop_out (m : Machine) : List Event := (main_loop m).out.drop m.out.length

/-- Splits a byte stream into its complete lines, each ended by `'\r'` `'\n'`; `cur` is the
line being read. -/
def sent_lines_from : List Nat → List Nat → List (List Nat)
  | _, [] => []
  | cur, 13 :: 10 :: rest => cur :: sent_lines_from [] rest
  | cur, b :: rest => sent_lines_from (cur ++ [b]) rest

/-- The complete lines of a transmitted byte stream, without their terminators. -/
def sent_lines (bytes : List Nat) : List (List Nat) := sent_lines_from [] bytes

/-! ## Atomic steps -/

/-- One atomic step of the system: an interrupt handler run to completion (the
byte-received handler with the byte read from `UDR`, the sensor-edge handler, the timer
handler), or one pass through the body of `while (1)`. -/
inductive Step where
  | rx (c : Nat)
  | sensor
  | tick
  | loop
deriving DecidableEq, Repr

/-- The effect of one atomic step. -/
def step : Step → Machine → Machine
  | Step.rx c, m => ISR_USART_RXC_vect c m
  | Step.sensor, m => ISR_INT0_vect m
  | Step.tick, m => ISR_TIMER0_COMP_vect m
  | Step.loop, m => main_loop m

/-- The atomic steps of `l` taken in order. -/
def run (l : List Step) (m : Machine) : Machine :=
  l.foldl (fun acc s => step s acc) m

/-- One timer interrupt followed by one pass of the main loop. -/
def tick_then_loop (m : Machine) : Machine := main_loop (ISR_TIMER0_COMP_vect m)

/-- The same state seen `d` ticks later on the 16-bit counter: the tick count and the
time reference both advanced by `d`, modulo `2^16`. -/
def shift_ticks (d : Nat) (m : Machine) : Machine :=
  { m with tick_10ms := (m.tick_10ms + d) % 65536,
           state_timer := (m.state_timer + d) % 65536 }

/-- The bytes delivered by the byte-received steps of `l`, in order. -/
def rx_bytes : List Step → List Nat
  | [] => []
  | Step.rx c :: l => c :: rx_bytes l
  | _ :: l => rx_bytes l

/-- The number of timer steps in `l`. -/
def tick_count : List Step → Nat
  | [] => 0
  | Step.tick :: l => tick_count l + 1
  | _ :: l => tick_count l

/-- Whether a step is a byte-received or a timer interrupt. -/
def rx_or_tick : Step → Bool
  | Step.rx _ => true
  | Step.tick => true
  | _ => false

/-- A bound on the number of rounds (a timer interrupt, then a pass of the main loop)
after which the System State is Idle, read off the state: 0 when Idle; 2003 when a
trigger is pending; otherwise what is left of the check time-out plus a full display
hold, or what is left of the display hold. -/
def rounds_bound (m : Machine) : Nat :=
  if m.state = STATE_IDLE then 0
  else if m.sensor_flag ≠ 0 then 2003
  else if m.state = STATE_CHECKING then
    (if u16_sub m.tick_10ms m.state_timer ≤ 1500
      then 2002 - u16_sub m.tick_10ms m.state_timer else 2003)
  else
    (if u16_sub m.tick_10ms m.state_timer ≤ 500
      then 501 - u16_sub m.tick_10ms m.state_timer else 502)

/-- Whether two states agree on the receiver's variables. -/
def same_receiver (a b : Machine) : Prop :=
  a.rx_buffer = b.rx_buffer ∧ a.rx_index = b.rx_index ∧ a.string_ready = b.string_ready

/-- The bounds of the receiver: `rx_buffer` has its `BUFFER_SIZE` cells, `rx_index` is at
most `BUFFER_SIZE - 1`, and the last cell holds NUL. -/
def rx_bounds (m : Machine) : Prop :=
  m.rx_buffer.length = BUFFER_SIZE ∧ m.rx_index ≤ 31 ∧ m.rx_buffer[31]? = some 0

/-! ## The main loop statement by statement, with interrupts in between

The interrupt handlers run with interrupts disabled, so each is atomic.  The main loop is
not: outside its two `cli() ... sei()` sections an interrupt can be taken between any two
statements.  `stmt` executes one statement of the body of `while (1)`, a `cli() ... sei()`
section counting as one statement; interrupts are taken between statements.  An interrupt
taken during a blocking call (`UART_SendString`, the routines of `lcd_lib.h`) is taken
after the call here: the handlers do not write to the sinks and the calls read no shared
variable.  The three tests on `cmd` and `state` of lines 153, 156 and 164 are one
statement: `cmd` is local and no handler writes `state`.  The blocks
`sensor_block`, `uart_block`, `check_timeout_block`, `result_timeout_block` and their
composition `main_loop` above are the pass during which no interrupt is taken
(`pass_uninterrupted`). -/

/-- An interrupt: a byte received (with the byte read from `UDR`), a sensor edge, a timer
compare match. -/
inductive Irq where
  | rx (c : Nat)
  | sensor
  | tick
deriving DecidableEq, Repr

/-- The handler of an interrupt. -/
def irq : Irq → Machine → Machine
  | Irq.rx c, m => ISR_USART_RXC_vect c m
  | Irq.sensor, m => ISR_INT0_vect m
  | Irq.tick, m => ISR_TIMER0_COMP_vect m

/-- The handlers of the interrupts of `l`, taken in order. -/
def fire (l : List Irq) (m : Machine) : Machine :=
  l.foldl (fun acc i => irq i acc) m

/-- The statements of the body of `while (1)`, named by block and numbered by line. -/
inductive Pc where
  | top            -- line 116, `if (sensor_flag)`
  | s_clear        -- line 117
  | s_state        -- line 118
  | s_timer        -- line 119
  | s_reset        -- lines 122-126, `cli() ... sei()`
  | s_send_NG      -- line 129
  | s_send_CK      -- line 130
  | s_lcd_clear    -- line 131
  | s_lcd_write    -- line 132
  | s_state2       -- line 134
  | s_timer2       -- line 135
  | u_test         -- line 139, `if (string_ready)`
  | u_copy         -- lines 147-151, `cli() ... sei()`
  | u_dispatch     -- lines 153, 156, 164: the tests on `cmd` and `state`
  | u_send_CF      -- line 154
  | u_ok_clear     -- line 157
  | u_ok_welcome   -- line 158
  | u_ok_goto      -- line 159
  | u_ok_payload   -- line 160
  | u_ok_state     -- line 161
  | u_ok_timer     -- line 162
  | u_fail_clear   -- line 165
  | u_fail_write   -- line 166
  | u_fail_state   -- line 167
  | u_fail_timer   -- line 168
  | t_check_test   -- line 173
  | t_check_clear  -- line 174
  | t_check_write  -- line 175
  | t_check_state  -- line 176
  | t_check_timer  -- line 177
  | t_result_test  -- lines 180-181
  | t_result_clear -- line 182
  | t_result_write -- line 183
  | t_result_send  -- line 184
  | t_result_state -- line 185
deriving DecidableEq, Repr

/-- The processor between two statements of the main loop: the globals and `state_timer`,
the statement to execute next, and the local array `cmd`. -/
structure Cpu where
  m : Machine
  pc : Pc
  cmd : List Nat
deriving DecidableEq, Repr

/-- One statement of the body of `while (1)`. -/
def stmt (c : Cpu) : Cpu :=
  match c.pc with
  | Pc.top =>
    if c.m.sensor_flag ≠ 0 then { c with pc := Pc.s_clear } else { c with pc := Pc.u_test }
  | Pc.s_clear => { c with m := { c.m with sensor_flag := 0 }, pc := Pc.s_state }
  | Pc.s_state => { c with m := { c.m with state := STATE_CHECKING }, pc := Pc.s_timer }
  | Pc.s_timer => { c with m := { c.m with state_timer := c.m.tick_10ms }, pc := Pc.s_reset }
  | Pc.s_reset =>
    { c with m := { c.m with string_ready := 0, rx_index := 0,
                             rx_buffer := memset c.m.rx_buffer 0 BUFFER_SIZE },
             pc := Pc.s_send_NG }
  | Pc.s_send_NG => { c with m := UART_SendString str_NG c.m, pc := Pc.s_send_CK }
  | Pc.s_send_CK => { c with m := UART_SendString str_CK c.m, pc := Pc.s_lcd_clear }
  | Pc.s_lcd_clear => { c with m := LCD4_clear c.m, pc := Pc.s_lcd_write }
  | Pc.s_lcd_write => { c with m := LCD4_write_string str_Checking c.m, pc := Pc.s_state2 }
  | Pc.s_state2 => { c with m := { c.m with state := STATE_CHECKING }, pc := Pc.s_timer2 }
  | Pc.s_timer2 => { c with m := { c.m with state_timer := c.m.tick_10ms }, pc := Pc.u_test }
  | Pc.u_test =>
    if c.m.string_ready ≠ 0 then { c with pc := Pc.u_copy }
    else { c with pc := Pc.t_check_test }
  | Pc.u_copy =>
    { m := { c.m with string_ready := 0, rx_buffer := c.m.rx_buffer.set 0 0 },
      pc := Pc.u_dispatch, cmd := strcpy c.m.rx_buffer }
  | Pc.u_dispatch =>
    if strcmp_zero c.cmd str_RUOK then { c with pc := Pc.u_send_CF }
    else if c.m.state = STATE_CHECKING ∧ c.cmd.getD 0 0 = 84 then
      { c with pc := Pc.u_ok_clear }
    else if c.m.state = STATE_CHECKING ∧ strcmp_zero c.cmd str_F then
      { c with pc := Pc.u_fail_clear }
    else { c with pc := Pc.t_check_test }
  | Pc.u_send_CF => { c with m := UART_SendString str_CF c.m, pc := Pc.t_check_test }
  | Pc.u_ok_clear => { c with m := LCD4_clear c.m, pc := Pc.u_ok_welcome }
  | Pc.u_ok_welcome => { c with m := LCD4_write_string str_Welcome c.m, pc := Pc.u_ok_goto }
  | Pc.u_ok_goto => { c with m := LCD4_gotoxy 2 1 c.m, pc := Pc.u_ok_payload }
  | Pc.u_ok_payload =>
    { c with m := LCD4_write_string (c.cmd.drop 1) c.m, pc := Pc.u_ok_state }
  | Pc.u_ok_state => { c with m := { c.m with state := STATE_RESULT_OK }, pc := Pc.u_ok_timer }
  | Pc.u_ok_timer =>
    { c with m := { c.m with state_timer := c.m.tick_10ms }, pc := Pc.t_check_test }
  | Pc.u_fail_clear => { c with m := LCD4_clear c.m, pc := Pc.u_fail_write }
  | Pc.u_fail_write =>
    { c with m := LCD4_write_string str_User_not_found c.m, pc := Pc.u_fail_state }
  | Pc.u_fail_state =>
    { c with m := { c.m with state := STATE_RESULT_FAIL }, pc := Pc.u_fail_timer }
  | Pc.u_fail_timer =>
    { c with m := { c.m with state_timer := c.m.tick_10ms }, pc := Pc.t_check_test }
  | Pc.t_check_test =>
    if c.m.state = STATE_CHECKING ∧ u16_sub c.m.tick_10ms c.m.state_timer > 1500 then
      { c with pc := Pc.t_check_clear }
    else { c with pc := Pc.t_result_test }
  | Pc.t_check_clear => { c with m := LCD4_clear c.m, pc := Pc.t_check_write }
  | Pc.t_check_write =>
    { c with m := LCD4_write_string str_User_not_found c.m, pc := Pc.t_check_state }
  | Pc.t_check_state =>
    { c with m := { c.m with state := STATE_RESULT_FAIL }, pc := Pc.t_check_timer }
  | Pc.t_check_timer =>
    { c with m := { c.m with state_timer := c.m.tick_10ms }, pc := Pc.t_result_test }
  | Pc.t_result_test =>
    if (c.m.state = STATE_RESULT_OK ∨ c.m.state = STATE_RESULT_FAIL) ∧
        u16_sub c.m.tick_10ms c.m.state_timer > 500 then
      { c with pc := Pc.t_result_clear }
    else { c with pc := Pc.top }
  | Pc.t_result_clear => { c with m := LCD4_clear c.m, pc := Pc.t_result_write }
  | Pc.t_result_write =>
    { c with m := LCD4_write_string str_System_Ready c.m, pc := Pc.t_result_send }
  | Pc.t_result_send => { c with m := UART_SendString str_RD c.m, pc := Pc.t_result_state }
  | Pc.t_result_state => { c with m := { c.m with state := STATE_IDLE }, pc := Pc.top }

/-- The rest of a pass: before the statement number `k` of the pass the interrupts `q k`
are taken; the pass ends when control is back at line 116.  No pass has more than 40
statements (`fuel`). -/
def pass_from : Nat → Nat → (Nat → List Irq) → Cpu → Cpu
  | 0, _, _, c => c
  | fuel + 1, k, q, c =>
    if (stmt { c with m := fire (q k) c.m }).pc = Pc.top then
      stmt { c with m := fire (q k) c.m }
    else pass_from fuel (k + 1) q (stmt { c with m := fire (q k) c.m })

/-- One pass through the body of `while (1)` started in `m`, the interrupts `q k` being
taken just before its statement number `k` (counted from 0 as executed). -/
def pass (q : Nat → List Irq) (m : Machine) : Machine :=
  (pass_from 40 0 q { m := m, pc := Pc.top, cmd := [] }).m

/-- The schedule of a pass during which no interrupt is taken. -/
def no_irq : Nat → List Irq := fun _ => []

/-- One event of an execution: an interrupt, or the next statement of the main loop. -/
inductive Ev where
  | irq (i : Irq)
  | stmt
deriving DecidableEq, Repr

/-- The effect of one event. -/
def ev : Ev → Cpu → Cpu
  | Ev.irq i, c => { c with m := irq i c.m }
  | Ev.stmt, c => stmt c

/-- The events of `l` in order. -/
def exec (l : List Ev) (c : Cpu) : Cpu :=
  l.foldl (fun acc e => ev e acc) c

/-- The bytes delivered by the byte-received interrupts among the events of `l`. -/
def ev_bytes : List Ev → List Nat
  | [] => []
  | Ev.irq (Irq.rx c) :: l => c :: ev_bytes l
  | _ :: l => ev_bytes l

/-! ## Rounds, lines and events -/

/-- The rounds of a waiting phase: for each `g` of the list in turn, `g` timer interrupts
and then one pass of the main loop. -/
def rounds : List Nat → List Step
  | [] => []
  | g :: gs => List.replicate g Step.tick ++ Step.loop :: rounds gs

/-- The bytes of a line that the receiver keeps: the line without its carriage returns, cut
at the 31 bytes for which `rx_buffer` has room before the terminator. -/
def kept (w : List Nat) : List Nat := (w.filter (fun b => b != 13)).take 31

/-- Whether the line being received during the steps of `l`, taken from `m`, is left
alone by the main loop: every pass of the main loop among them starts either with
`rx_index = 0` (no byte of the line is in the buffer) or with the Sensor Flag and the Ready
Flag both clear (the pass neither starts a check nor consumes an earlier line). -/
def undisturbed : List Step → Machine → Bool
  | [], _ => true
  | Step.loop :: l, m =>
    (m.rx_index == 0 || (m.sensor_flag == 0 && m.string_ready == 0))
      && undisturbed l (main_loop m)
  | s :: l, m => undisturbed l (step s m)

/-- The interrupts of `l` as events. -/
def irqs (l : List Irq) : List Ev := l.map Ev.irq

/-- The events of a pass from line 116 up to and including the reset of the receiver
(lines 122-126), when the Sensor Flag is found set: the statements of lines 116, 117, 118,
119 and the `cli() ... sei()` section, with the interrupts `i0`, ..., `i4` taken before
each of them. -/
def to_reset (i0 i1 i2 i3 i4 : List Irq) : List Ev :=
  irqs i0 ++ Ev.stmt :: (irqs i1 ++ Ev.stmt :: (irqs i2 ++ Ev.stmt ::
    (irqs i3 ++ Ev.stmt :: (irqs i4 ++ [Ev.stmt]))))

/-- Whether control is outside lines 117-126, the part of the `SENSOR` block that ends
with the reset of the receiver. -/
def off_reset : Pc → Bool
  | Pc.s_clear => false
  | Pc.s_state => false
  | Pc.s_timer => false
  | Pc.s_reset => false
  | _ => true

/-- Whether no sensor interrupt among the events of `l`, taken from `c`, finds the System
State Idle: none of them can set the Sensor Flag. -/
def no_latch : List Ev → Cpu → Bool
  | [], _ => true
  | Ev.irq Irq.sensor :: l, c =>
    decide (c.m.state ≠ STATE_IDLE) && no_latch l (ev (Ev.irq Irq.sensor) c)
  | e :: l, c => no_latch l (ev e c)

/-- The command at hand: while the Ready Flag is set, the string the main loop will copy
from `rx_buffer`; once it is clear, the string in `cmd`. -/
def pending_command (c : Cpu) : List Nat :=
  if c.m.string_ready ≠ 0 then cstr (strcpy c.m.rx_buffer) else cstr c.cmd

/-! ## Example states and schedules -/

/-- The state reached from power-on when the line "RUOK" has been received and then the
first two bytes "AB" of a following line, the main loop not having run in between. -/
def ex_overwritten : Machine := receive ([82, 85, 79, 75, 13, 10] ++ [65, 66]) power_on

/-- The line "FF" pending during a check. -/
def ex_checking_FF : Machine :=
  { receive [70, 70, 13, 10] power_on with state := STATE_CHECKING, state_timer := 3,
                                           tick_10ms := 9 }

/-- The line "Tbob" pending while the terminal is idle. -/
def ex_idle_Tbob : Machine := receive [84, 98, 111, 98, 13, 10] power_on

/-- An empty line pending during a check. -/
def ex_checking_empty : Machine :=
  { receive [13, 10] power_on with state := STATE_CHECKING }

/-- A result entered at tick 65300 and shown for 501 ticks, the counter having wrapped. -/
def ex_result_wrapped : Machine :=
  { power_on with state := STATE_RESULT_FAIL, state_timer := 65300, tick_10ms := 265 }

/-- A receiver between lines whose buffer still holds 32 stale bytes 'Z'. -/
def ex_stale_receiver : Machine :=
  { power_on with rx_buffer := List.replicate 32 90, string_ready := 1 }

/-- A 36-byte line body with two carriage returns in it. -/
def ex_long_line : List Nat := List.replicate 17 65 ++ [13, 66, 13] ++ List.replicate 16 67

/-- A check in progress for 2000 ticks with the command "Talice" pending. -/
def ex_checking_Talice : Machine :=
  { power_on with state := STATE_CHECKING, string_ready := 1, tick_10ms := 2000,
                  rx_buffer := 84 :: [97, 108, 105, 99, 101] ++ 0 :: List.replicate 25 0 }

/-- The state reached from power-on when the line "RUOK" has been received and the sensor
has triggered before the main loop runs again. -/
def ex_triggered_with_RUOK : Machine :=
  ISR_INT0_vect (receive [82, 85, 79, 75, 13, 10] power_on)

/-- A check entered at tick 0 and still unanswered at tick 1500. -/
def ex_checking_1500 : Machine :=
  { power_on with state := STATE_CHECKING, tick_10ms := 1500 }

/-- A check entered at tick 65000 and still unanswered 1501 ticks later, the 16-bit tick
counter having wrapped to 965. -/
def ex_checking_1501 : Machine :=
  { power_on with state := STATE_CHECKING, state_timer := 65000, tick_10ms := 965 }

/-- A result shown since tick 100, at tick 601. -/
def ex_result_601 : Machine :=
  { power_on with state := STATE_RESULT_OK, state_timer := 100, tick_10ms := 601 }

/-- A result shown since tick 100, at tick 600. -/
def ex_result_600 : Machine :=
  { power_on with state := STATE_RESULT_FAIL, state_timer := 100, tick_10ms := 600 }

/-- The line "RUOK" pending while a result has been shown for 501 ticks. -/
def ex_result_RUOK : Machine :=
  { receive [82, 85, 79, 75, 13, 10] power_on with
      state := STATE_RESULT_OK, state_timer := 100, tick_10ms := 601 }

/-- The line "RUOK" pending during a check. -/
def ex_checking_RUOK : Machine :=
  { receive [82, 85, 79, 75, 13, 10] power_on with state := STATE_CHECKING, state_timer := 7 }

/-- A check in progress for 40 ticks with the command "F" pending, bytes of an earlier
line still in the buffer after the terminator. -/
def ex_checking_F : Machine :=
  { power_on with state := STATE_CHECKING, string_ready := 1, tick_10ms := 40,
                  rx_buffer := [70, 0, 79, 75] ++ List.replicate 28 0 }

/-- A pass during which the line "RUOK" is received while "NG" and "CK" are being sent:
its six bytes arrive before statement 6 of the pass (line 130). -/
def ex_q_RUOK_during_send : Nat → List Irq :=
  fun k => if k = 6 then [Irq.rx 82, Irq.rx 85, Irq.rx 79, Irq.rx 75, Irq.rx 13, Irq.rx 10]
    else []

/-- A pass during which the line "F" is received while the display is being written: its
bytes arrive before statement 8 of the pass (line 132). -/
def ex_q_F_during_display : Nat → List Irq :=
  fun k => if k = 8 then [Irq.rx 70, Irq.rx 10] else []

/-- A pass during which one timer interrupt is taken after the snapshot of line 135,
before the test of line 173. -/
def ex_q_tick_after_snapshot : Nat → List Irq :=
  fun k => if k = 12 then [Irq.tick] else []

/-- A pass during which a sensor interrupt is taken between line 117 and line 118. -/
def ex_q_sensor_race : Nat → List Irq :=
  fun k => if k = 2 then [Irq.sensor] else []

/-- A busy pass: a timer and a sensor interrupt before line 116, a line "A" completed
before the reset of lines 122-126, and during the sends and the display calls the byte 'T',
a carriage return, timer interrupts and a sensor edge. -/
def ex_q_busy : Nat → List Irq :=
  fun k => if k = 0 then [Irq.tick, Irq.sensor]
    else if k = 3 then [Irq.rx 65, Irq.tick]
    else if k = 4 then [Irq.rx 10]
    else if k = 7 then [Irq.rx 84, Irq.tick, Irq.sensor]
    else if k = 10 then [Irq.rx 13, Irq.tick]
    else []

/-- A pass during which the bytes "AB" are received while "NG" and "CK" are being sent. -/
def ex_q_AB_during_send : Nat → List Irq :=
  fun k => if k = 6 then [Irq.rx 65, Irq.rx 66] else []

/-- A pass during which the line "F" is received after the test of the Ready Flag
(line 139). -/
def ex_q_F_after_test : Nat → List Irq :=
  fun k => if k = 12 then [Irq.rx 70, Irq.rx 10] else []

/-! ## Lemmas on C strings and on the byte-received handler -/

/-- The byte lists used for the string literals of `main.c` are those literals. -/
theorem literals_agree :
    str_NG = literal "NG" ∧ str_CK = literal "CK" ∧ str_CF = literal "CF" ∧
    str_RD = literal "RD" ∧ str_RUOK = literal "RUOK" ∧ str_F = literal "F" ∧
    str_Checking = literal "Checking..." ∧ str_Welcome = literal "Welcome" ∧
    str_User_not_found = literal "User not found" ∧
    str_System_Ready = literal "System Ready" := by
  decide

theorem cstr_append_zero (p rest : List Nat) (hp : ∀ b ∈ p, b ≠ 0) :
    cstr (p ++ 0 :: rest) = p := by
  induction p with
  | nil => simp [cstr]
  | cons a p ih =>
    have ha : a ≠ 0 := hp a (by simp)
    have := ih (fun b hb => hp b (by simp [hb]))
    simp [cstr, List.takeWhile_cons, ha] at this ⊢
    exact this

theorem cstr_set_zero (l : List Nat) (k : Nat) (hk : k < l.length)
    (hnz : ∀ b ∈ l.take k, b ≠ 0) : cstr (l.set k 0) = l.take k := by
  induction l generalizing k with
  | nil => simp at hk
  | cons a l ih =>
    cases k with
    | zero => simp [cstr]
    | succ k =>
      have ha : a ≠ 0 := hnz a (by simp)
      have := ih k (by simpa using hk) (fun b hb => hnz b (by simp [hb]))
      simp [cstr, List.takeWhile_cons, ha] at this ⊢
      exact this

theorem receive_nil (m : Machine) : receive [] m = m := rfl

theorem receive_cons (c : Nat) (bs : List Nat) (m : Machine) :
    receive (c :: bs) m = receive bs (ISR_USART_RXC_vect c m) := rfl

theorem receive_append (a b : List Nat) (m : Machine) :
    receive (a ++ b) m = receive b (receive a m) := by
  simp [receive, List.foldl_append]

theorem ISR_USART_RXC_vect_lf (m : Machine) :
    ISR_USART_RXC_vect 10 m
      = { m with rx_buffer := m.rx_buffer.set m.rx_index 0, rx_index := 0, string_ready := 1 } := by
  simp [ISR_USART_RXC_vect]

/-- Carriage returns have no effect on the receiver. -/
theorem receive_filter_cr (w : List Nat) (m : Machine) :
    receive w m = receive (w.filter (fun b => b != 13)) m := by
  induction w generalizing m with
  | nil => rfl
  | cons c w ih =>
    by_cases hc : c = 13
    · subst hc
      simp [receive_cons, ISR_USART_RXC_vect, ih m]
    · simp [receive_cons, hc, ih]

/-- Once the index has reached `BUFFER_SIZE - 1`, further ordinary bytes have no effect. -/
theorem receive_take (v : List Nat) (hv : ∀ c ∈ v, c ≠ 10 ∧ c ≠ 13) (m : Machine) :
    receive v m = receive (v.take (31 - m.rx_index)) m := by
  induction v generalizing m with
  | nil => simp
  | cons c v ih =>
    obtain ⟨hc10, hc13⟩ := hv c (by simp)
    have hv2 : ∀ c ∈ v, c ≠ 10 ∧ c ≠ 13 := fun b hb => hv b (by simp [hb])
    by_cases hi : m.rx_index < 31
    · obtain ⟨n, hn⟩ : ∃ n, 31 - m.rx_index = n + 1 := ⟨30 - m.rx_index, by omega⟩
      have hstep : (ISR_USART_RXC_vect c m).rx_index = m.rx_index + 1 := by
        simp [ISR_USART_RXC_vect, hc10, hc13, hi]
        omega
      rw [hn, List.take_succ_cons, receive_cons, receive_cons, ih hv2, hstep]
      have : 31 - (m.rx_index + 1) = n := by omega
      rw [this]
    · have hz : 31 - m.rx_index = 0 := by omega
      have hstep : ISR_USART_RXC_vect c m = m := by
        simp [ISR_USART_RXC_vect, hc10, hc13, hi]
      rw [hz, receive_cons, hstep, ih hv2, hz]
      simp

/-- Ordinary bytes that fit are stored one after the other from `rx_index` on. -/
theorem receive_fits (v : List Nat) (hv : ∀ c ∈ v, c ≠ 10 ∧ c ≠ 13) (m : Machine)
    (hlen : m.rx_buffer.length = BUFFER_SIZE) (hfit : m.rx_index + v.length ≤ 31) :
    (receive v m).rx_buffer.length = BUFFER_SIZE ∧
    (receive v m).rx_index = m.rx_index + v.length ∧
    (receive v m).rx_buffer.take (m.rx_index + v.length)
      = m.rx_buffer.take m.rx_index ++ v := by
  induction v generalizing m with
  | nil => simp [receive_nil, hlen]
  | cons c v ih =>
    obtain ⟨hc10, hc13⟩ := hv c (by simp)
    have hv2 : ∀ c ∈ v, c ≠ 10 ∧ c ≠ 13 := fun b hb => hv b (by simp [hb])
    simp only [List.length_cons] at hfit
    have hi : m.rx_index < 31 := by omega
    have hidx : (ISR_USART_RXC_vect c m).rx_index = m.rx_index + 1 := by
      simp [ISR_USART_RXC_vect, hc10, hc13, hi]
      omega
    have hbuf : (ISR_USART_RXC_vect c m).rx_buffer = m.rx_buffer.set m.rx_index c := by
      simp [ISR_USART_RXC_vect, hc10, hc13, hi]
    obtain ⟨h1, h2, h3⟩ := ih hv2 (ISR_USART_RXC_vect c m) (by simp [hbuf, hlen])
      (by rw [hidx]; omega)
    rw [hidx] at h2 h3
    rw [hbuf] at h3
    have e : m.rx_index + (c :: v).length = m.rx_index + 1 + v.length := by
      simp only [List.length_cons]; omega
    rw [receive_cons, e]
    refine ⟨h1, h2, ?_⟩
    have hlen32 : m.rx_buffer.length = 32 := hlen
    have hlt : m.rx_index < m.rx_buffer.length := by omega
    rw [h3, List.set_eq_take_append_cons_drop, if_pos hlt, List.take_append_eq_append_take,
      List.take_take]
    simp [List.length_take, Nat.min_eq_left (Nat.le_of_lt hlt)]

/-- The byte-received handler touches only the receiver's three variables. -/
theorem receive_frame (bs : List Nat) (m : Machine) :
    (receive bs m).sensor_flag = m.sensor_flag ∧ (receive bs m).tick_10ms = m.tick_10ms ∧
    (receive bs m).state = m.state ∧ (receive bs m).state_timer = m.state_timer ∧
    (receive bs m).out = m.out := by
  induction bs generalizing m with
  | nil => simp [receive_nil]
  | cons c bs ih =>
    rw [receive_cons]
    obtain ⟨h1, h2, h3, h4, h5⟩ := ih (ISR_USART_RXC_vect c m)
    rw [h1, h2, h3, h4, h5]
    unfold ISR_USART_RXC_vect
    split_ifs <;> simp

/-- The byte-received handler never stores a carriage return or a line feed. -/
theorem receive_no_cr_lf (bs : List Nat) (m : Machine)
    (h : ∀ b ∈ m.rx_buffer, b ≠ 13 ∧ b ≠ 10) :
    ∀ b ∈ (receive bs m).rx_buffer, b ≠ 13 ∧ b ≠ 10 := by
  induction bs generalizing m with
  | nil => simpa [receive_nil] using h
  | cons c bs ih =>
    rw [receive_cons]
    apply ih
    intro b hb
    unfold ISR_USART_RXC_vect at hb
    split_ifs at hb with h13 h10 hi
    · exact h b hb
    · rcases List.mem_or_eq_of_mem_set hb with hm | he
      · exact h b hm
      · subst he; decide
    · rcases List.mem_or_eq_of_mem_set hb with hm | he
      · exact h b hm
      · subst he; exact ⟨h13, h10⟩
    · exact h b hb

theorem mem_cstr (mem : List Nat) (b : Nat) (hb : b ∈ cstr mem) : b ∈ mem :=
  (List.takeWhile_sublist _).subset hb

/-! ## Lemmas on the blocks of the main loop -/

theorem u16_sub_self (a : Nat) : u16_sub a a = 0 := by
  unfold u16_sub
  omega

theorem cstr_strcpy (src : List Nat) : cstr (strcpy src) = cstr src := by
  unfold strcpy
  apply cstr_append_zero
  intro b hb
  have := List.mem_takeWhile_imp hb
  simpa using this

theorem UART_SendString_out (s : List Nat) (m : Machine) :
    UART_SendString s m = { m with out := m.out ++ ((cstr s ++ [13, 10]).map Event.tx) } := by
  have h : ∀ (l : List Nat) (a : Machine),
      l.foldl (fun acc ch => UART_TxChar ch acc) a = { a with out := a.out ++ l.map Event.tx } := by
    intro l
    induction l with
    | nil => intro a; simp
    | cons c l ih => intro a; rw [List.foldl_cons, ih]; simp [UART_TxChar]
  rw [UART_SendString, h]
  simp [UART_TxChar]

theorem sensor_block_clear (m : Machine) (h : m.sensor_flag = 0) : sensor_block m = m := by
  simp [sensor_block, h]

theorem uart_block_clear (m : Machine) (h : m.string_ready = 0) : uart_block m = m := by
  simp [uart_block, h]

theorem check_timeout_block_skip (m : Machine)
    (h : m.state ≠ STATE_CHECKING ∨ u16_sub m.tick_10ms m.state_timer ≤ 1500) :
    check_timeout_block m = m := by
  unfold check_timeout_block
  rw [if_neg]
  rintro ⟨h1, h2⟩
  rcases h with h | h
  · exact h h1
  · omega

theorem result_timeout_block_skip (m : Machine)
    (h : m.state = STATE_IDLE ∨ m.state = STATE_CHECKING ∨
      u16_sub m.tick_10ms m.state_timer ≤ 500) :
    result_timeout_block m = m := by
  unfold result_timeout_block
  rw [if_neg]
  rintro ⟨h1, h2⟩
  rcases h with h | h | h
  · rw [h] at h1; simp at h1
  · rw [h] at h1; simp at h1
  · omega

/-- The effect of the `SENSOR` block when the Sensor Flag is set. -/
theorem sensor_block_set (m : Machine) (h : m.sensor_flag ≠ 0) :
    sensor_block m =
      { m with sensor_flag := 0, state := STATE_CHECKING, state_timer := m.tick_10ms,
               string_ready := 0, rx_index := 0, rx_buffer := memset m.rx_buffer 0 BUFFER_SIZE,
               out := m.out ++ ((cstr str_NG ++ [13, 10]).map Event.tx
                        ++ (cstr str_CK ++ [13, 10]).map Event.tx
                        ++ [Event.lcd_clear, Event.lcd_write_string (cstr str_Checking)]) } := by
  simp [sensor_block, h, UART_SendString_out, LCD4_clear, LCD4_write_string]

theorem cstr_ne_zero (mem : List Nat) : ∀ b ∈ cstr mem, b ≠ 0 := by
  intro b hb
  have := List.mem_takeWhile_imp hb
  simpa using this

theorem strcmp_zero_strcpy (src lit : List Nat) :
    strcmp_zero (strcpy src) lit = true ↔ cstr src = cstr lit := by
  simp [strcmp_zero, cstr_strcpy]

theorem getD_strcpy (src : List Nat) :
    (strcpy src).getD 0 0 = 84 ↔ (cstr src).head? = some 84 := by
  unfold strcpy
  cases cstr src with
  | nil => simp
  | cons a t => simp

theorem cstr_drop_strcpy (src : List Nat) :
    cstr ((strcpy src).drop 1) = (cstr src).tail := by
  unfold strcpy
  have hnz := cstr_ne_zero src
  cases h : cstr src with
  | nil => simp [cstr]
  | cons a t =>
    rw [h] at hnz
    have : cstr (t ++ [0]) = t := cstr_append_zero t [] (fun b hb => hnz b (by simp [hb]))
    simpa using this

/-- The effect of the `UART` block when the Ready Flag is set, in terms of the command
string held in `rx_buffer`. -/
theorem uart_block_set (m : Machine) (h : m.string_ready ≠ 0) :
    uart_block m =
      if cstr m.rx_buffer = cstr str_RUOK then
        { m with string_ready := 0, rx_buffer := m.rx_buffer.set 0 0,
                 out := m.out ++ (line str_CF).map Event.tx }
      else if m.state = STATE_CHECKING ∧ (cstr m.rx_buffer).head? = some 84 then
        { m with string_ready := 0, rx_buffer := m.rx_buffer.set 0 0,
                 state := STATE_RESULT_OK, state_timer := m.tick_10ms,
                 out := m.out ++ [Event.lcd_clear, Event.lcd_write_string (cstr str_Welcome),
                          Event.lcd_gotoxy 2 1, Event.lcd_write_string (cstr m.rx_buffer).tail] }
      else if m.state = STATE_CHECKING ∧ cstr m.rx_buffer = cstr str_F then
        { m with string_ready := 0, rx_buffer := m.rx_buffer.set 0 0,
                 state := STATE_RESULT_FAIL, state_timer := m.tick_10ms,
                 out := m.out ++ [Event.lcd_clear,
                          Event.lcd_write_string (cstr str_User_not_found)] }
      else { m with string_ready := 0, rx_buffer := m.rx_buffer.set 0 0 } := by
  unfold uart_block
  rw [if_pos h]
  simp only [strcmp_zero_strcpy, getD_strcpy, UART_SendString_out, LCD4_clear,
    LCD4_write_string, LCD4_gotoxy, cstr_drop_strcpy, line]
  split_ifs <;> simp

/-- The effect of the check time-out when it fires. -/
theorem check_timeout_block_fire (m : Machine) (hs : m.state = STATE_CHECKING)
    (ht : u16_sub m.tick_10ms m.state_timer > 1500) :
    check_timeout_block m =
      { m with state := STATE_RESULT_FAIL, state_timer := m.tick_10ms,
               out := m.out ++ [Event.lcd_clear,
                        Event.lcd_write_string (cstr str_User_not_found)] } := by
  unfold check_timeout_block
  rw [if_pos ⟨hs, ht⟩]
  simp [LCD4_clear, LCD4_write_string]

/-- The effect of the display-hold time-out when it fires. -/
theorem result_timeout_block_fire (m : Machine)
    (hs : m.state = STATE_RESULT_OK ∨ m.state = STATE_RESULT_FAIL)
    (ht : u16_sub m.tick_10ms m.state_timer > 500) :
    result_timeout_block m =
      { m with state := STATE_IDLE,
               out := m.out ++ ([Event.lcd_clear, Event.lcd_write_string (cstr str_System_Ready)]
                        ++ (line str_RD).map Event.tx) } := by
  unfold result_timeout_block
  rw [if_pos ⟨hs, ht⟩]
  simp [LCD4_clear, LCD4_write_string, UART_SendString_out, line]

theorem serial_append (a b : List Event) : serial (a ++ b) = serial a ++ serial b := by
  induction a with
  | nil => rfl
  | cons e a ih => cases e <;> simp [serial, ih]

theorem display_append (a b : List Event) : display (a ++ b) = display a ++ display b := by
  induction a with
  | nil => rfl
  | cons e a ih => cases e <;> simp [display, ih]

theorem serial_map_tx (l : List Nat) : serial (l.map Event.tx) = l := by
  induction l with
  | nil => rfl
  | cons c l ih => simp [serial, ih]

theorem display_map_tx (l : List Nat) : display (l.map Event.tx) = [] := by
  induction l with
  | nil => rfl
  | cons c l ih => simp [display, ih]

/-! ## The claims -/

/-- C1 (Line Receiver content). From any receiver state with `rx_index = 0`, feeding a
byte sequence `w` free of line feeds and NULs and then one line feed leaves in
`rx_buffer` the C string made of the first 31 bytes of `w` without its carriage returns,
leaves `rx_index = 0` and `string_ready = 1`; the bytes past the 31st have no effect at
all: the whole final state is the one reached by feeding only the kept bytes. -/
theorem line_receiver_content (m : Machine) (w : List Nat)
    (hlen : m.rx_buffer.length = BUFFER_SIZE) (hidx : m.rx_index = 0)
    (hLF : 10 ∉ w) (hNUL : 0 ∉ w) :
    cstr (receive (w ++ [10]) m).rx_buffer = (w.filter (fun b => b != 13)).take 31 ∧
    (receive (w ++ [10]) m).rx_index = 0 ∧
    (receive (w ++ [10]) m).string_ready = 1 ∧
    receive (w ++ [10]) m = receive ((w.filter (fun b => b != 13)).take 31 ++ [10]) m := by
  have hv : ∀ c ∈ w.filter (fun b => b != 13), c ≠ 10 ∧ c ≠ 13 := by
    intro c hc
    simp only [List.mem_filter, bne_iff_ne] at hc
    exact ⟨fun e => hLF (e ▸ hc.1), hc.2⟩
  have hkept : ∀ c ∈ (w.filter (fun b => b != 13)).take 31, c ≠ 10 ∧ c ≠ 13 :=
    fun c hc => hv c (List.mem_of_mem_take hc)
  have hnz : ∀ c ∈ (w.filter (fun b => b != 13)).take 31, c ≠ 0 := by
    intro c hc e
    have := List.mem_of_mem_filter (List.mem_of_mem_take hc)
    exact hNUL (e ▸ this)
  have hdrop : receive w m = receive ((w.filter (fun b => b != 13)).take 31) m := by
    rw [receive_filter_cr w m, receive_take _ hv m, hidx]
  have hk : ((w.filter (fun b => b != 13)).take 31).length ≤ 31 := by
    simp [List.length_take]
  obtain ⟨h1, h2, h3⟩ := receive_fits _ hkept m hlen (by rw [hidx]; omega)
  rw [hidx] at h2 h3
  simp only [Nat.zero_add, List.take_zero, List.nil_append] at h2 h3
  have h32 : (receive ((w.filter (fun b => b != 13)).take 31) m).rx_buffer.length = 32 := h1
  have hfin : receive (w ++ [10]) m
      = receive ((w.filter (fun b => b != 13)).take 31 ++ [10]) m := by
    rw [receive_append, receive_append, hdrop]
  have hlf : receive (w ++ [10]) m
      = ISR_USART_RXC_vect 10 (receive ((w.filter (fun b => b != 13)).take 31) m) := by
    rw [receive_append, hdrop]; rfl
  refine ⟨?_, ?_, ?_, hfin⟩
  · rw [hlf, ISR_USART_RXC_vect_lf]
    show cstr (List.set _ _ 0) = _
    rw [h2, cstr_set_zero _ _ (by omega) (by rw [h3]; exact hnz), h3]
  · rw [hlf, ISR_USART_RXC_vect_lf]
  · rw [hlf, ISR_USART_RXC_vect_lf]

/-- Witness for C1: a receiver holding stale bytes is fed a 36-byte line with two
carriage returns in it. -/
theorem line_receiver_content_witness :
    cstr (receive (ex_long_line ++ [10]) ex_stale_receiver).rx_buffer
      = (ex_long_line.filter (fun b => b != 13)).take 31 ∧
    receive (ex_long_line ++ [10]) ex_stale_receiver
      = receive ((ex_long_line.filter (fun b => b != 13)).take 31 ++ [10]) ex_stale_receiver :=
  have h := line_receiver_content ex_stale_receiver ex_long_line
    (by decide) (by decide) (by decide) (by decide)
  ⟨h.1, h.2.2.2⟩

/-- C2 (Line Receiver invariant). From the power-on state, for every byte sequence `bs`:
right after a line feed that follows `bs` the Ready Flag is set and the C string in
`rx_buffer` holds neither a line feed nor a carriage return; and after `bs` itself no
cell of `rx_buffer` holds a carriage return. -/
theorem line_receiver_invariant (bs : List Nat) :
    (receive (bs ++ [10]) power_on).string_ready = 1 ∧
    10 ∉ cstr (receive (bs ++ [10]) power_on).rx_buffer ∧
    13 ∉ cstr (receive (bs ++ [10]) power_on).rx_buffer ∧
    13 ∉ (receive bs power_on).rx_buffer := by
  have hinit : ∀ b ∈ power_on.rx_buffer, b ≠ 13 ∧ b ≠ 10 := by
    intro b hb
    have : b = 0 := List.eq_of_mem_replicate hb
    subst this; decide
  refine ⟨?_, ?_, ?_, ?_⟩
  · rw [receive_append]
    simp [receive, ISR_USART_RXC_vect]
  · intro h
    exact (receive_no_cr_lf _ _ hinit 10 (mem_cstr _ _ h)).2 rfl
  · intro h
    exact (receive_no_cr_lf _ _ hinit 13 (mem_cstr _ _ h)).1 rfl
  · intro h
    exact (receive_no_cr_lf _ _ hinit 13 h).1 rfl

/-- C3 (Sensor Latch). The sensor-edge handler leaves the Sensor Flag set exactly when it
was set already or the System State is Idle with the flag clear; it changes no other
field; and when the System State is not Idle the flag keeps its value. -/
theorem sensor_latch (m : Machine) :
    ((ISR_INT0_vect m).sensor_flag ≠ 0 ↔
      (m.sensor_flag ≠ 0 ∨ (m.state = STATE_IDLE ∧ m.sensor_flag = 0))) ∧
    ISR_INT0_vect m = { m with sensor_flag := (ISR_INT0_vect m).sensor_flag } ∧
    (m.state ≠ STATE_IDLE → (ISR_INT0_vect m).sensor_flag = m.sensor_flag) := by
  unfold ISR_INT0_vect
  by_cases h : m.state = STATE_IDLE ∧ m.sensor_flag = 0
  · simp [h]
  · simp [h]

/-- Witness for C3: a trigger while a check is in progress. -/
theorem sensor_latch_witness :
    (ISR_INT0_vect { power_on with state := STATE_CHECKING }).sensor_flag = 0 :=
  (sensor_latch { power_on with state := STATE_CHECKING }).2.2 (by decide)

/-- C5 (success command). From a state with System State Checking, the Sensor Flag clear,
the Ready Flag set and `rx_buffer` holding the byte 'T', a payload `p` of non-NUL bytes and
its terminator, whatever the tick count and `state_timer` are, one pass of the main loop
ends in ResultOk with the Ready Flag clear and `state_timer` equal to the tick count; it
transmits nothing, and its display calls are clear, "Welcome", `LCD4_gotoxy(2,1)` and
then exactly `p`. -/
theorem success_command (m : Machine) (p rest : List Nat)
    (hst : m.state = STATE_CHECKING) (hsf : m.sensor_flag = 0) (hrd : m.string_ready ≠ 0)
    (hbuf : m.rx_buffer = 84 :: p ++ 0 :: rest) (hp : ∀ b ∈ p, b ≠ 0) :
    (main_loop m).state = STATE_RESULT_OK ∧
    (main_loop m).string_ready = 0 ∧
    (main_loop m).state_timer = m.tick_10ms ∧
    (main_loop m).tick_10ms = m.tick_10ms ∧
    (main_loop m).out = m.out ++ [Event.lcd_clear, Event.lcd_write_string (cstr str_Welcome),
        Event.lcd_gotoxy 2 1, Event.lcd_write_string p] ∧
    serial (main_loop_out m) = [] ∧
    display (main_loop_out m) = [Event.lcd_clear, Event.lcd_write_string (cstr str_Welcome),
        Event.lcd_gotoxy 2 1, Event.lcd_write_string p] := by
  have hc : cstr m.rx_buffer = 84 :: p := by
    rw [hbuf]
    exact cstr_append_zero (84 :: p) rest (by
      intro b hb
      rcases List.mem_cons.mp hb with h | h
      · subst h; decide
      · exact hp b h)
  have hu : uart_block m =
      { m with string_ready := 0, rx_buffer := m.rx_buffer.set 0 0,
               state := STATE_RESULT_OK, state_timer := m.tick_10ms,
               out := m.out ++ [Event.lcd_clear, Event.lcd_write_string (cstr str_Welcome),
                        Event.lcd_gotoxy 2 1, Event.lcd_write_string p] } := by
    rw [uart_block_set m hrd, hc]
    simp [hst, cstr, str_RUOK]
  have hm : main_loop m = uart_block m := by
    unfold main_loop
    rw [sensor_block_clear m hsf, check_timeout_block_skip _ (Or.inl (by rw [hu]; simp)),
      result_timeout_block_skip _ (Or.inr (Or.inr (by rw [hu]; simp [u16_sub_self])))]
  have ho : main_loop_out m = [Event.lcd_clear, Event.lcd_write_string (cstr str_Welcome),
        Event.lcd_gotoxy 2 1, Event.lcd_write_string p] := by
    unfold main_loop_out
    rw [hm, hu]
    simp
  refine ⟨?_, ?_, ?_, ?_, ?_, ?_, ?_⟩
  · rw [hm, hu]
  · rw [hm, hu]
  · rw [hm, hu]
  · rw [hm, hu]
  · rw [hm, hu]
  · rw [ho]; rfl
  · rw [ho]; rfl

/-- Witness for C5: the command "Talice" arrives 2000 ticks into the check. -/
theorem success_command_witness :
    (main_loop ex_checking_Talice).state = STATE_RESULT_OK ∧
    display (main_loop_out ex_checking_Talice)
      = [Event.lcd_clear, Event.lcd_write_string (cstr str_Welcome),
        Event.lcd_gotoxy 2 1, Event.lcd_write_string [97, 108, 105, 99, 101]] :=
  have h := success_command ex_checking_Talice [97, 108, 105, 99, 101] (List.replicate 25 0)
    rfl rfl (by decide) rfl (by decide)
  ⟨h.1, h.2.2.2.2.2.2⟩

/-- C6 (failure command). From a state with System State Checking, the Sensor Flag clear,
the Ready Flag set and `rx_buffer` holding exactly the string "F", one pass of the main
loop ends in ResultFail with the Ready Flag clear and `state_timer` equal to the tick
count; it transmits nothing, and its display calls are clear and "User not found". -/
theorem failure_command (m : Machine)
    (hst : m.state = STATE_CHECKING) (hsf : m.sensor_flag = 0) (hrd : m.string_ready ≠ 0)
    (hbuf : cstr m.rx_buffer = cstr str_F) :
    (main_loop m).state = STATE_RESULT_FAIL ∧
    (main_loop m).string_ready = 0 ∧
    (main_loop m).state_timer = m.tick_10ms ∧
    (main_loop m).tick_10ms = m.tick_10ms ∧
    (main_loop m).out = m.out ++ [Event.lcd_clear,
        Event.lcd_write_string (cstr str_User_not_found)] ∧
    serial (main_loop_out m) = [] ∧
    display (main_loop_out m) = [Event.lcd_clear,
        Event.lcd_write_string (cstr str_User_not_found)] := by
  have hu : uart_block m =
      { m with string_ready := 0, rx_buffer := m.rx_buffer.set 0 0,
               state := STATE_RESULT_FAIL, state_timer := m.tick_10ms,
               out := m.out ++ [Event.lcd_clear,
                        Event.lcd_write_string (cstr str_User_not_found)] } := by
    rw [uart_block_set m hrd, hbuf]
    simp [hst, cstr, str_RUOK, str_F]
  have hm : main_loop m = uart_block m := by
    unfold main_loop
    rw [sensor_block_clear m hsf, check_timeout_block_skip _ (Or.inl (by rw [hu]; simp)),
      result_timeout_block_skip _ (Or.inr (Or.inr (by rw [hu]; simp [u16_sub_self])))]
  have ho : main_loop_out m = [Event.lcd_clear,
        Event.lcd_write_string (cstr str_User_not_found)] := by
    unfold main_loop_out
    rw [hm, hu]
    simp
  refine ⟨?_, ?_, ?_, ?_, ?_, ?_, ?_⟩
  · rw [hm, hu]
  · rw [hm, hu]
  · rw [hm, hu]
  · rw [hm, hu]
  · rw [hm, hu]
  · rw [ho]; rfl
  · rw [ho]; rfl

/-- Witness for C6: the command "F" arrives 40 ticks into the check. -/
theorem failure_command_witness :
    (main_loop ex_checking_F).state = STATE_RESULT_FAIL :=
  (failure_command ex_checking_F rfl rfl (by decide) (by decide)).1

/-- C7, as stated, fails at an elapsed time of exactly 1500 ticks: the state is Checking
with both flags clear and `tick_10ms - state_timer = 1500`, and the pass of the main loop
changes nothing, so the System State is still Checking. -/
theorem check_timeout_not_at_1500 :
    ex_checking_1500.state = STATE_CHECKING ∧ ex_checking_1500.sensor_flag = 0 ∧
    ex_checking_1500.string_ready = 0 ∧
    u16_sub ex_checking_1500.tick_10ms ex_checking_1500.state_timer ≥ 1500 ∧
    (main_loop ex_checking_1500).state ≠ STATE_RESULT_FAIL ∧
    main_loop ex_checking_1500 = ex_checking_1500 := by
  decide

/-- C7, amended (check time-out). From a state with System State Checking and both flags
clear in which the tick count minus `state_timer`, modulo 2^16, is more than 1500, one
pass of the main loop ends in ResultFail with `state_timer` equal to the tick count, after
a display clear and "User not found". -/
theorem check_timeout (m : Machine)
    (hst : m.state = STATE_CHECKING) (hsf : m.sensor_flag = 0) (hrd : m.string_ready = 0)
    (ht : u16_sub m.tick_10ms m.state_timer > 1500) :
    (main_loop m).state = STATE_RESULT_FAIL ∧
    (main_loop m).state_timer = m.tick_10ms ∧
    (main_loop m).tick_10ms = m.tick_10ms ∧
    (main_loop m).out = m.out ++ [Event.lcd_clear,
        Event.lcd_write_string (cstr str_User_not_found)] := by
  have hc := check_timeout_block_fire m hst ht
  have hm : main_loop m = check_timeout_block m := by
    unfold main_loop
    rw [sensor_block_clear m hsf, uart_block_clear m hrd,
      result_timeout_block_skip _ (Or.inr (Or.inr (by rw [hc]; simp [u16_sub_self])))]
  refine ⟨?_, ?_, ?_, ?_⟩ <;> rw [hm, hc]

/-- Witness for the amended C7: 1501 ticks elapsed across a wrap of the tick counter. -/
theorem check_timeout_witness :
    (main_loop ex_checking_1501).state = STATE_RESULT_FAIL ∧
    (main_loop ex_checking_1501).state_timer = 965 :=
  have h := check_timeout ex_checking_1501 rfl rfl rfl (by decide)
  ⟨h.1, h.2.1⟩

/-- C8 (display hold). From a state with System State ResultOk or ResultFail and both
flags clear: when the tick count minus `state_timer`, modulo 2^16, exceeds 500, one pass
of the main loop ends in Idle, its display calls are clear and "System Ready", and the
lines it transmits are the single line "RD"; otherwise the pass changes nothing at all. -/
theorem display_hold (m : Machine)
    (hst : m.state = STATE_RESULT_OK ∨ m.state = STATE_RESULT_FAIL)
    (hsf : m.sensor_flag = 0) (hrd : m.string_ready = 0) :
    (u16_sub m.tick_10ms m.state_timer > 500 →
      (main_loop m).state = STATE_IDLE ∧
      (main_loop m).out = m.out ++ ([Event.lcd_clear,
          Event.lcd_write_string (cstr str_System_Ready)] ++ (line str_RD).map Event.tx) ∧
      display (main_loop_out m)
        = [Event.lcd_clear, Event.lcd_write_string (cstr str_System_Ready)] ∧
      serial (main_loop_out m) = line str_RD ∧
      sent_lines (serial (main_loop_out m)) = [cstr str_RD]) ∧
    (u16_sub m.tick_10ms m.state_timer ≤ 500 → main_loop m = m) := by
  have hne : m.state ≠ STATE_CHECKING := by
    rcases hst with h | h <;> rw [h] <;> decide
  have hm : main_loop m = result_timeout_block m := by
    unfold main_loop
    rw [sensor_block_clear m hsf, uart_block_clear m hrd,
      check_timeout_block_skip m (Or.inl hne)]
  constructor
  · intro ht
    have hr := result_timeout_block_fire m hst ht
    have ho : main_loop_out m = [Event.lcd_clear,
          Event.lcd_write_string (cstr str_System_Ready)] ++ (line str_RD).map Event.tx := by
      unfold main_loop_out
      rw [hm, hr]
      simp
    refine ⟨?_, ?_, ?_, ?_, ?_⟩
    · rw [hm, hr]
    · rw [hm, hr]
    · rw [ho]; rfl
    · rw [ho]; rfl
    · rw [ho]; rfl
  · intro ht
    rw [hm, result_timeout_block_skip m (Or.inr (Or.inr ht))]

/-- Witness for C8: a result shown for 501 ticks, and one shown for 500 ticks. -/
theorem display_hold_witness :
    (main_loop ex_result_601).state = STATE_IDLE ∧
    sent_lines (serial (main_loop_out ex_result_601)) = [cstr str_RD] ∧
    main_loop ex_result_600 = ex_result_600 :=
  have h := (display_hold ex_result_601 (Or.inl rfl) rfl rfl).1 (by decide)
  ⟨h.1, h.2.2.2.2, (display_hold ex_result_600 (Or.inr rfl) rfl rfl).2 (by decide)⟩

/-- C9, as stated, fails when the Sensor Flag is set: in the state reached from power-on
by receiving the line "RUOK" and then a sensor trigger, the Ready Flag is set and
`rx_buffer` holds "RUOK", yet the pass of the main loop transmits the lines "NG" and "CK"
and no line "CF" (the `SENSOR` block discards the pending command). -/
theorem heartbeat_discarded_by_trigger :
    ex_triggered_with_RUOK.string_ready ≠ 0 ∧
    cstr ex_triggered_with_RUOK.rx_buffer = cstr str_RUOK ∧
    ex_triggered_with_RUOK.state = STATE_IDLE ∧
    sent_lines (serial (main_loop_out ex_triggered_with_RUOK)) = [cstr str_NG, cstr str_CK] ∧
    (sent_lines (serial (main_loop_out ex_triggered_with_RUOK))).count (cstr str_CF) = 0 := by
  decide

/-- C9, amended (heartbeat acknowledgement). From a state with the Sensor Flag clear, in any
of the four System States and with any tick count and `state_timer`, in which the Ready
Flag is set and `rx_buffer` holds "RUOK", one pass of the main loop transmits the line
"CF" exactly once: its serial output is the line "CF", followed by the line "RD" when the
display hold of a result state expires in the same pass. -/
theorem heartbeat_ack (m : Machine) (hsf : m.sensor_flag = 0) (hrd : m.string_ready ≠ 0)
    (hbuf : cstr m.rx_buffer = cstr str_RUOK) :
    (sent_lines (serial (main_loop_out m))).count (cstr str_CF) = 1 ∧
    serial (main_loop_out m) = line str_CF ++
      (if (m.state = STATE_RESULT_OK ∨ m.state = STATE_RESULT_FAIL) ∧
          u16_sub m.tick_10ms m.state_timer > 500 then line str_RD else []) := by
  have hu : uart_block m =
      { m with string_ready := 0, rx_buffer := m.rx_buffer.set 0 0,
               out := m.out ++ (line str_CF).map Event.tx } := by
    rw [uart_block_set m hrd, if_pos hbuf]
  have hm : main_loop m = result_timeout_block (check_timeout_block (uart_block m)) := by
    unfold main_loop
    rw [sensor_block_clear m hsf]
  have key : serial (main_loop_out m) = line str_CF ++
      (if (m.state = STATE_RESULT_OK ∨ m.state = STATE_RESULT_FAIL) ∧
          u16_sub m.tick_10ms m.state_timer > 500 then line str_RD else []) := by
    unfold main_loop_out
    by_cases hchk : m.state = STATE_CHECKING ∧ u16_sub m.tick_10ms m.state_timer > 1500
    · have hc := check_timeout_block_fire (uart_block m) (by rw [hu]; exact hchk.1)
        (by rw [hu]; exact hchk.2)
      have hr := result_timeout_block_skip (check_timeout_block (uart_block m))
        (Or.inr (Or.inr (by rw [hc]; simp [u16_sub_self])))
      have hif : ¬ ((m.state = STATE_RESULT_OK ∨ m.state = STATE_RESULT_FAIL) ∧
          u16_sub m.tick_10ms m.state_timer > 500) := by
        rw [hchk.1]; simp
      rw [hm, hr, hc, hu, if_neg hif]
      simp only [List.append_assoc, List.drop_left, serial_append, serial_map_tx]
      rfl
    · have hc := check_timeout_block_skip (uart_block m) (by
        rw [hu]
        by_cases h1 : m.state = STATE_CHECKING
        · exact Or.inr (Nat.le_of_not_lt (fun h2 => hchk ⟨h1, h2⟩))
        · exact Or.inl h1)
      by_cases hres : (m.state = STATE_RESULT_OK ∨ m.state = STATE_RESULT_FAIL) ∧
          u16_sub m.tick_10ms m.state_timer > 500
      · have hr := result_timeout_block_fire (uart_block m) (by rw [hu]; exact hres.1)
          (by rw [hu]; exact hres.2)
        rw [hm, hc, hr, hu, if_pos hres]
        simp only [List.append_assoc, List.drop_left, serial_append, serial_map_tx]
        rfl
      · have hr := result_timeout_block_skip (uart_block m) (by
          rw [hu]
          by_cases h1 : m.state = STATE_RESULT_OK ∨ m.state = STATE_RESULT_FAIL
          · exact Or.inr (Or.inr (Nat.le_of_not_lt (fun h2 => hres ⟨h1, h2⟩)))
          · cases hs : m.state <;> simp_all)
        rw [hm, hc, hr, hu, if_neg hres]
        simp only [List.drop_left, serial_map_tx, List.append_nil]
  refine ⟨?_, key⟩
  rw [key]
  split_ifs <;> decide

/-- Witness for the amended C9: "RUOK" pending while a result has been shown for 501
ticks; the pass sends "CF" and then "RD". -/
theorem heartbeat_ack_witness :
    (sent_lines (serial (main_loop_out ex_result_RUOK))).count (cstr str_CF) = 1 ∧
    serial (main_loop_out ex_result_RUOK) = line str_CF ++ line str_RD :=
  have h := heartbeat_ack ex_result_RUOK (by decide) (by decide) (by decide)
  ⟨h.1, h.2.trans (by decide)⟩

/-- C10 (heartbeat leaves the state unchanged). In any System State and with any
`state_timer`, the `UART` block applied to a pending "RUOK" command leaves the System
State, `state_timer`, the Sensor Flag and the tick count unchanged, clears the Ready Flag,
transmits the one line "CF" and nothing else, and makes no display call. -/
theorem heartbeat_frame (m : Machine) (hrd : m.string_ready ≠ 0)
    (hbuf : cstr m.rx_buffer = cstr str_RUOK) :
    (uart_block m).state = m.state ∧
    (uart_block m).state_timer = m.state_timer ∧
    (uart_block m).sensor_flag = m.sensor_flag ∧
    (uart_block m).tick_10ms = m.tick_10ms ∧
    (uart_block m).string_ready = 0 ∧
    (uart_block m).out = m.out ++ (line str_CF).map Event.tx ∧
    serial (uart_block m).out = serial m.out ++ line str_CF ∧
    display (uart_block m).out = display m.out := by
  have hu : uart_block m =
      { m with string_ready := 0, rx_buffer := m.rx_buffer.set 0 0,
               out := m.out ++ (line str_CF).map Event.tx } := by
    rw [uart_block_set m hrd, if_pos hbuf]
  rw [hu]
  simp [serial_append, serial_map_tx, display_append, display_map_tx]

/-- Witness for C10: "RUOK" arrives during a check. -/
theorem heartbeat_frame_witness :
    (uart_block ex_checking_RUOK).state = STATE_CHECKING ∧
    (uart_block ex_checking_RUOK).state_timer = 7 ∧
    (uart_block ex_checking_RUOK).out = (line str_CF).map Event.tx :=
  have h := heartbeat_frame ex_checking_RUOK (by decide) (by decide)
  ⟨h.1, h.2.1, h.2.2.2.2.2.1⟩

/-! ## Further lemmas -/

theorem u16_sub_shift (a b d : Nat) :
    u16_sub ((a + d) % 65536) ((b + d) % 65536) = u16_sub a b := by
  unfold u16_sub
  omega

theorem u16_sub_lt (a b : Nat) : u16_sub a b < 65536 := by
  unfold u16_sub
  omega

theorem run_nil (m : Machine) : run [] m = m := rfl

theorem run_cons (s : Step) (l : List Step) (m : Machine) :
    run (s :: l) m = run l (step s m) := rfl

theorem run_append (a b : List Step) (m : Machine) : run (a ++ b) m = run b (run a m) := by
  simp [run, List.foldl_append]

/-- What the `UART` block leaves alone, and what it does to the receiver. -/
theorem uart_block_frame (m : Machine) :
    (uart_block m).sensor_flag = m.sensor_flag ∧
    (uart_block m).tick_10ms = m.tick_10ms ∧
    (uart_block m).rx_index = m.rx_index ∧
    (uart_block m).string_ready = 0 ∧
    ((uart_block m).rx_buffer = m.rx_buffer ∨
      (uart_block m).rx_buffer = m.rx_buffer.set 0 0) := by
  by_cases h : m.string_ready = 0
  · rw [uart_block_clear m h]
    simp [h]
  · rw [uart_block_set m h]
    split_ifs <;> simp

/-- The check time-out touches only the state, the time reference and the trace. -/
theorem check_timeout_block_frame (m : Machine) :
    (check_timeout_block m).sensor_flag = m.sensor_flag ∧
    (check_timeout_block m).tick_10ms = m.tick_10ms ∧
    (check_timeout_block m).rx_index = m.rx_index ∧
    (check_timeout_block m).string_ready = m.string_ready ∧
    (check_timeout_block m).rx_buffer = m.rx_buffer := by
  unfold check_timeout_block
  split_ifs <;> simp [LCD4_clear, LCD4_write_string]

/-- The display hold touches only the state and the trace. -/
theorem result_timeout_block_frame (m : Machine) :
    (result_timeout_block m).sensor_flag = m.sensor_flag ∧
    (result_timeout_block m).tick_10ms = m.tick_10ms ∧
    (result_timeout_block m).rx_index = m.rx_index ∧
    (result_timeout_block m).string_ready = m.string_ready ∧
    (result_timeout_block m).rx_buffer = m.rx_buffer ∧
    (result_timeout_block m).state_timer = m.state_timer := by
  unfold result_timeout_block
  split_ifs <;> simp [LCD4_clear, LCD4_write_string, UART_SendString_out]

/-- What the `SENSOR` block does to the flags and the receiver. -/
theorem sensor_block_frame (m : Machine) :
    (sensor_block m).sensor_flag = 0 ∧
    (sensor_block m).tick_10ms = m.tick_10ms ∧
    (sensor_block m = m ∨
      ((sensor_block m).rx_index = 0 ∧ (sensor_block m).string_ready = 0 ∧
        (sensor_block m).rx_buffer = memset m.rx_buffer 0 BUFFER_SIZE)) := by
  by_cases h : m.sensor_flag = 0
  · rw [sensor_block_clear m h]
    simp [h]
  · rw [sensor_block_set m h]
    simp

/-- After a pass of the main loop both flags are clear. -/
theorem main_loop_flags (m : Machine) :
    (main_loop m).sensor_flag = 0 ∧ (main_loop m).string_ready = 0 ∧
    (main_loop m).tick_10ms = m.tick_10ms := by
  unfold main_loop
  obtain ⟨r1, r2, _, r4, _, _⟩ := result_timeout_block_frame
    (check_timeout_block (uart_block (sensor_block m)))
  obtain ⟨c1, c2, _, c4, _⟩ := check_timeout_block_frame (uart_block (sensor_block m))
  obtain ⟨u1, u2, _, u4, _⟩ := uart_block_frame (sensor_block m)
  obtain ⟨s1, s2, _⟩ := sensor_block_frame m
  refine ⟨?_, ?_, ?_⟩
  · rw [r1, c1, u1, s1]
  · rw [r4, c4, u4]
  · rw [r2, c2, u2, s2]

theorem cstr_length_le (l : List Nat) (k : Nat) (h : l[k]? = some 0) :
    (cstr l).length ≤ k := by
  induction l generalizing k with
  | nil => simp at h
  | cons a l ih =>
    cases k with
    | zero =>
      simp at h
      subst h
      simp [cstr]
    | succ k =>
      simp at h
      have := ih k h
      unfold cstr at this ⊢
      rw [List.takeWhile_cons]
      split
      · simp; omega
      · simp

theorem memset_zero (buf : List Nat) (h : buf.length = 32) :
    memset buf 0 BUFFER_SIZE = List.replicate 32 0 := by
  have hd : List.drop 32 buf = [] := List.drop_eq_nil_of_le (by omega)
  show List.replicate (min 32 buf.length) 0 ++ List.drop 32 buf = _
  rw [hd, h]
  rfl

theorem rx_bounds_power_on : rx_bounds power_on := by
  unfold rx_bounds power_on
  decide

theorem rx_bounds_set (m : Machine) (h : rx_bounds m) (i v : Nat)
    (hv : v = 0 ∨ i < 31) :
    (m.rx_buffer.set i v).length = BUFFER_SIZE ∧ (m.rx_buffer.set i v)[31]? = some 0 := by
  obtain ⟨h1, _, h3⟩ := h
  refine ⟨by simp [h1], ?_⟩
  rw [List.getElem?_set]
  split_ifs with hi hlt
  · subst hi
    rcases hv with hv | hv
    · rw [hv]
    · omega
  · subst hi
    have h32 : m.rx_buffer.length = 32 := h1
    omega
  · exact h3

/-- Every atomic step keeps the receiver within its bounds. -/
theorem rx_bounds_step (s : Step) (m : Machine) (h : rx_bounds m) : rx_bounds (step s m) := by
  have h32 : m.rx_buffer.length = 32 := h.1
  cases s with
  | rx c =>
    show rx_bounds (ISR_USART_RXC_vect c m)
    unfold ISR_USART_RXC_vect
    split_ifs with h13 h10 hi
    · exact h
    · obtain ⟨a, b⟩ := rx_bounds_set m h m.rx_index 0 (Or.inl rfl)
      exact ⟨a, by simp, b⟩
    · obtain ⟨a, b⟩ := rx_bounds_set m h m.rx_index c (Or.inr (by simpa using hi))
      refine ⟨a, ?_, b⟩
      show (m.rx_index + 1) % 256 ≤ 31
      have : m.rx_index < 31 := by simpa using hi
      omega
    · exact h
  | sensor =>
    show rx_bounds (ISR_INT0_vect m)
    unfold ISR_INT0_vect
    split_ifs
    · exact h
    · exact h
  | tick => exact h
  | loop =>
    show rx_bounds (main_loop m)
    have hs : rx_bounds (sensor_block m) := by
      obtain ⟨_, _, hs | ⟨i0, _, hb⟩⟩ := sensor_block_frame m
      · rw [hs]; exact h
      · refine ⟨?_, ?_, ?_⟩
        · rw [hb]; simp [memset, h32]
        · rw [i0]; omega
        · rw [hb]
          rw [memset_zero m.rx_buffer h32]
          decide
    have hu : rx_bounds (uart_block (sensor_block m)) := by
      obtain ⟨_, _, ui, _, ub | ub⟩ := uart_block_frame (sensor_block m)
      · exact ⟨by rw [ub]; exact hs.1, by rw [ui]; exact hs.2.1, by rw [ub]; exact hs.2.2⟩
      · obtain ⟨a, b⟩ := rx_bounds_set _ hs 0 0 (Or.inl rfl)
        exact ⟨by rw [ub]; exact a, by rw [ui]; exact hs.2.1, by rw [ub]; exact b⟩
    obtain ⟨_, _, ci, _, cb⟩ := check_timeout_block_frame (uart_block (sensor_block m))
    obtain ⟨_, _, ri, _, rb, _⟩ := result_timeout_block_frame
      (check_timeout_block (uart_block (sensor_block m)))
    unfold main_loop
    exact ⟨by rw [rb, cb]; exact hu.1, by rw [ri, ci]; exact hu.2.1,
      by rw [rb, cb]; exact hu.2.2⟩

theorem rx_bounds_run (l : List Step) (m : Machine) (h : rx_bounds m) :
    rx_bounds (run l m) := by
  induction l generalizing m with
  | nil => exact h
  | cons s l ih => exact ih _ (rx_bounds_step s m h)

/-- With the Sensor Flag set, a pass of the main loop is its `SENSOR` block alone. -/
theorem main_loop_sensor (m : Machine) (hsf : m.sensor_flag ≠ 0) :
    main_loop m = sensor_block m := by
  have hs := sensor_block_set m hsf
  unfold main_loop
  rw [uart_block_clear _ (by rw [hs]),
    check_timeout_block_skip _ (Or.inr (by rw [hs]; simp [u16_sub_self])),
    result_timeout_block_skip _ (Or.inr (Or.inl (by rw [hs])))]

theorem take_set_succ (buf : List Nat) (i c : Nat) (h : i < buf.length) :
    List.take (i + 1) (buf.set i c) = List.take i buf ++ [c] := by
  rw [List.set_eq_take_append_cons_drop, if_pos h, List.take_append_eq_append_take,
    List.take_take]
  simp [List.length_take, Nat.min_eq_left (Nat.le_of_lt h)]

theorem drop_set_succ (buf : List Nat) (i k c : Nat) :
    List.drop (i + 1 + k) (buf.set i c) = List.drop (i + 1 + k) buf := by
  rw [List.drop_set, if_pos (by omega)]

/-- Ordinary bytes that fit: the whole state after they are received. -/
theorem receive_fits_state (v : List Nat) (hv : ∀ c ∈ v, c ≠ 10 ∧ c ≠ 13) (m : Machine)
    (hlen : m.rx_buffer.length = BUFFER_SIZE) (hfit : m.rx_index + v.length ≤ 31) :
    receive v m =
      { m with rx_buffer := m.rx_buffer.take m.rx_index ++ v
                              ++ m.rx_buffer.drop (m.rx_index + v.length),
               rx_index := m.rx_index + v.length } := by
  induction v generalizing m with
  | nil => simp [receive_nil]
  | cons c v ih =>
    obtain ⟨hc10, hc13⟩ := hv c (by simp)
    have hv2 : ∀ c ∈ v, c ≠ 10 ∧ c ≠ 13 := fun b hb => hv b (by simp [hb])
    simp only [List.length_cons] at hfit
    have hlen32 : m.rx_buffer.length = 32 := hlen
    have hi : m.rx_index < 31 := by omega
    have hlt : m.rx_index < m.rx_buffer.length := by omega
    have hstep : ISR_USART_RXC_vect c m =
        { m with rx_buffer := m.rx_buffer.set m.rx_index c, rx_index := m.rx_index + 1 } := by
      have : (m.rx_index + 1) % 256 = m.rx_index + 1 := by omega
      simp [ISR_USART_RXC_vect, hc10, hc13, hi, this]
    rw [receive_cons, hstep, ih hv2 _ (by simp [hlen]) (by simp only []; omega)]
    simp only [take_set_succ _ _ _ hlt, drop_set_succ, List.length_cons, List.append_assoc,
      List.singleton_append]
    have e : m.rx_index + (v.length + 1) = m.rx_index + 1 + v.length := by omega
    rw [e]

/-- A whole line received from index 0: the state after its line feed. -/
theorem receive_line (m : Machine) (w : List Nat)
    (hlen : m.rx_buffer.length = BUFFER_SIZE) (hidx : m.rx_index = 0) (hLF : 10 ∉ w) :
    receive (w ++ [10]) m =
      { m with rx_buffer := (w.filter (fun b => b != 13)).take 31
                              ++ 0 :: m.rx_buffer.drop
                                  (((w.filter (fun b => b != 13)).take 31).length + 1),
               rx_index := 0, string_ready := 1 } := by
  have hv : ∀ c ∈ w.filter (fun b => b != 13), c ≠ 10 ∧ c ≠ 13 := by
    intro c hc
    simp only [List.mem_filter, bne_iff_ne] at hc
    exact ⟨fun e => hLF (e ▸ hc.1), hc.2⟩
  have hkept : ∀ c ∈ (w.filter (fun b => b != 13)).take 31, c ≠ 10 ∧ c ≠ 13 :=
    fun c hc => hv c (List.mem_of_mem_take hc)
  have hk : ((w.filter (fun b => b != 13)).take 31).length ≤ 31 := by
    simp [List.length_take]
  have hlen32 : m.rx_buffer.length = 32 := hlen
  rw [receive_append, receive_filter_cr w m, receive_take _ hv m, hidx,
    receive_fits_state _ hkept m hlen (by rw [hidx]; omega), hidx]
  show ISR_USART_RXC_vect 10 _ = _
  rw [ISR_USART_RXC_vect_lf]
  simp only [Nat.zero_add, List.take_zero, List.nil_append, Nat.sub_zero]
  rw [List.set_append_right _ _ (le_refl _), Nat.sub_self]
  have hne : List.drop ((w.filter (fun b => b != 13)).take 31).length m.rx_buffer ≠ [] := by
    intro h
    have := List.drop_eq_nil_iff.mp h
    omega
  obtain ⟨a, t, hat⟩ := List.exists_cons_of_ne_nil hne
  have ht : List.drop (((w.filter (fun b => b != 13)).take 31).length + 1) m.rx_buffer = t := by
    rw [← List.drop_drop, hat]
    rfl
  rw [hat, ht]
  rfl

theorem cstr_append_zero_gen (a r : List Nat) : cstr (a ++ 0 :: r) = cstr a := by
  induction a with
  | nil => simp [cstr]
  | cons x a ih =>
    unfold cstr at ih ⊢
    rw [List.cons_append, List.takeWhile_cons, List.takeWhile_cons]
    split
    · rw [ih]
    · rfl

theorem cstr_of_no_zero (a : List Nat) (h : 0 ∉ a) : cstr a = a := by
  have h1 := cstr_append_zero a [] (fun b hb e => h (e ▸ hb))
  rw [cstr_append_zero_gen] at h1
  exact h1

theorem receive_length (bs : List Nat) (m : Machine) :
    (receive bs m).rx_buffer.length = m.rx_buffer.length := by
  induction bs generalizing m with
  | nil => rfl
  | cons c bs ih =>
    rw [receive_cons, ih]
    unfold ISR_USART_RXC_vect
    split_ifs <;> simp

/-- The byte-received handler reads and writes the receiver's variables only. -/
theorem receive_congr (bs : List Nat) (a b : Machine) (h : same_receiver a b) :
    same_receiver (receive bs a) (receive bs b) := by
  induction bs generalizing a b with
  | nil => exact h
  | cons c bs ih =>
    rw [receive_cons, receive_cons]
    apply ih
    obtain ⟨h1, h2, h3⟩ := h
    unfold same_receiver ISR_USART_RXC_vect
    rw [h2]
    split_ifs <;> simp [h1, h2, h3]

/-- Interrupt handlers alone: the receiver ends as if only the bytes had been received. -/
theorem run_no_loop (mid : List Step) (hmid : ∀ s ∈ mid, s ≠ Step.loop) (m : Machine) :
    same_receiver (run mid m) (receive (rx_bytes mid) m) := by
  induction mid generalizing m with
  | nil => exact ⟨rfl, rfl, rfl⟩
  | cons s mid ih =>
    have ih2 := ih (fun t ht => hmid t (by simp [ht])) (step s m)
    rw [run_cons]
    cases s with
    | rx c => exact ih2
    | sensor =>
      obtain ⟨a1, a2, a3⟩ := ih2
      obtain ⟨b1, b2, b3⟩ := receive_congr (rx_bytes mid) (step Step.sensor m) m (by
        show same_receiver (ISR_INT0_vect m) m
        unfold same_receiver ISR_INT0_vect
        split_ifs <;> simp)
      exact ⟨a1.trans b1, a2.trans b2, a3.trans b3⟩
    | tick =>
      obtain ⟨a1, a2, a3⟩ := ih2
      obtain ⟨b1, b2, b3⟩ := receive_congr (rx_bytes mid) (step Step.tick m) m
        ⟨rfl, rfl, rfl⟩
      exact ⟨a1.trans b1, a2.trans b2, a3.trans b3⟩
    | loop => exact absurd rfl (hmid Step.loop (by simp))

/-- Byte-received and timer interrupts leave the state machine and the trace alone. -/
theorem run_rx_tick_frame (mid : List Step) (hmid : ∀ s ∈ mid, rx_or_tick s = true)
    (m : Machine) :
    (run mid m).state = m.state ∧ (run mid m).sensor_flag = m.sensor_flag ∧
    (run mid m).state_timer = m.state_timer ∧ (run mid m).out = m.out := by
  induction mid generalizing m with
  | nil => exact ⟨rfl, rfl, rfl, rfl⟩
  | cons s mid ih =>
    obtain ⟨h1, h2, h3, h4⟩ := ih (fun t ht => hmid t (by simp [ht])) (step s m)
    rw [run_cons, h1, h2, h3, h4]
    cases s with
    | rx c =>
      obtain ⟨f1, _, f3, f4, f5⟩ := receive_frame [c] m
      exact ⟨f3, f1, f4, f5⟩
    | sensor => exact absurd (hmid Step.sensor (by simp)) (by decide)
    | tick => exact ⟨rfl, rfl, rfl, rfl⟩
    | loop => exact absurd (hmid Step.loop (by simp)) (by decide)

/-- The state after `n` timer interrupts in a row. -/
theorem run_ticks (n : Nat) (m : Machine) :
    run (List.replicate n Step.tick) m =
      { m with tick_10ms := if n = 0 then m.tick_10ms else (m.tick_10ms + n) % 65536 } := by
  induction n generalizing m with
  | zero => simp [run_nil]
  | succ n ih =>
    rw [List.replicate_succ, run_cons, ih]
    show _ = { m with tick_10ms := _ }
    simp only [step, ISR_TIMER0_COMP_vect]
    congr 1
    rw [if_neg (Nat.succ_ne_zero n)]
    by_cases h : n = 0
    · subst h; simp
    · rw [if_neg h]
      omega

theorem u16_sub_after_ticks (t n : Nat) (hn : n % 65536 > 500) :
    u16_sub (if n = 0 then t else (t + n) % 65536) t = n % 65536 := by
  have h0 : n ≠ 0 := by
    intro h
    subst h
    simp at hn
  rw [if_neg h0]
  unfold u16_sub
  omega

/-- A pass of the main loop that takes a success command. -/
theorem main_loop_success (m : Machine) (p : List Nat)
    (hst : m.state = STATE_CHECKING) (hsf : m.sensor_flag = 0) (hrd : m.string_ready ≠ 0)
    (hc : cstr m.rx_buffer = 84 :: p) :
    main_loop m =
      { m with string_ready := 0, rx_buffer := m.rx_buffer.set 0 0,
               state := STATE_RESULT_OK, state_timer := m.tick_10ms,
               out := m.out ++ [Event.lcd_clear, Event.lcd_write_string (cstr str_Welcome),
                        Event.lcd_gotoxy 2 1, Event.lcd_write_string p] } := by
  have hu : uart_block m =
      { m with string_ready := 0, rx_buffer := m.rx_buffer.set 0 0,
               state := STATE_RESULT_OK, state_timer := m.tick_10ms,
               out := m.out ++ [Event.lcd_clear, Event.lcd_write_string (cstr str_Welcome),
                        Event.lcd_gotoxy 2 1, Event.lcd_write_string p] } := by
    rw [uart_block_set m hrd, hc]
    simp [hst, cstr, str_RUOK]
  unfold main_loop
  rw [sensor_block_clear m hsf, check_timeout_block_skip _ (Or.inl (by rw [hu]; simp)),
    result_timeout_block_skip _ (Or.inr (Or.inr (by rw [hu]; simp [u16_sub_self]))), hu]

/-- A pass of the main loop that ends the display hold. -/
theorem main_loop_hold (m : Machine)
    (hst : m.state = STATE_RESULT_OK ∨ m.state = STATE_RESULT_FAIL)
    (hsf : m.sensor_flag = 0) (hrd : m.string_ready = 0)
    (ht : u16_sub m.tick_10ms m.state_timer > 500) :
    main_loop m =
      { m with state := STATE_IDLE,
               out := m.out ++ ([Event.lcd_clear, Event.lcd_write_string (cstr str_System_Ready)]
                        ++ (line str_RD).map Event.tx) } := by
  have hne : m.state ≠ STATE_CHECKING := by
    rcases hst with h | h <;> rw [h] <;> decide
  unfold main_loop
  rw [sensor_block_clear m hsf, uart_block_clear m hrd,
    check_timeout_block_skip m (Or.inl hne), result_timeout_block_fire m hst ht]

/-- The line 'T', `p`, CR, LF received from index 0 leaves the command "T" ++ `p`. -/
theorem receive_T_line (m : Machine) (p : List Nat)
    (hlen : m.rx_buffer.length = BUFFER_SIZE) (hidx : m.rx_index = 0)
    (hp : p.length ≤ 30) (hclean : ∀ b ∈ p, b ≠ 0 ∧ b ≠ 13 ∧ b ≠ 10) :
    (receive (84 :: p ++ [13, 10]) m).string_ready = 1 ∧
    cstr (receive (84 :: p ++ [13, 10]) m).rx_buffer = 84 :: p := by
  have hw : (84 :: p ++ [13, 10] : List Nat) = (84 :: p ++ [13]) ++ [10] := by simp
  have hLF : 10 ∉ (84 :: p ++ [13] : List Nat) := by
    simp only [List.cons_append, List.mem_cons, List.mem_append, List.mem_singleton,
      List.not_mem_nil, or_false, not_or]
    exact ⟨by decide, fun h => (hclean 10 h).2.2 rfl, by decide⟩
  have hf : (84 :: p ++ [13] : List Nat).filter (fun b => b != 13) = 84 :: p := by
    have hpf : p.filter (fun b => b != 13) = p :=
      List.filter_eq_self.mpr (fun b hb => by simpa using (hclean b hb).2.1)
    simp [List.filter_cons, hpf]
  have hk : (84 :: p).take 31 = 84 :: p := List.take_of_length_le (by simp; omega)
  rw [hw, receive_line m _ hlen hidx hLF, hf, hk]
  refine ⟨rfl, ?_⟩
  exact cstr_append_zero (84 :: p) _ (by
    intro b hb
    rcases List.mem_cons.mp hb with h | h
    · subst h; decide
    · exact (hclean b h).1)

/-! ## The claims, continued -/

/-- C11 (protocol mismatch is ignored). With the Ready Flag set and a pending command
other than "RUOK", when the System State is not Checking, or it is Checking and the command
neither begins with 'T' nor equals "F", the `UART` block only consumes the command: it
clears the Ready Flag and the first cell of `rx_buffer` and changes nothing else, so it
transmits nothing, makes no display call, and leaves the System State and `state_timer`
as they were. -/
theorem protocol_mismatch_ignored (m : Machine) (hrd : m.string_ready ≠ 0)
    (hne : cstr m.rx_buffer ≠ cstr str_RUOK)
    (hmis : m.state ≠ STATE_CHECKING ∨
      ((cstr m.rx_buffer).head? ≠ some 84 ∧ cstr m.rx_buffer ≠ cstr str_F)) :
    uart_block m = { m with string_ready := 0, rx_buffer := m.rx_buffer.set 0 0 } ∧
    (uart_block m).out = m.out ∧
    (uart_block m).state = m.state ∧
    (uart_block m).state_timer = m.state_timer ∧
    (uart_block m).string_ready = 0 := by
  have hu : uart_block m = { m with string_ready := 0, rx_buffer := m.rx_buffer.set 0 0 } := by
    rw [uart_block_set m hrd, if_neg hne, if_neg, if_neg]
    · rintro ⟨h1, h2⟩
      rcases hmis with h | h
      · exact h h1
      · exact h.2 h2
    · rintro ⟨h1, h2⟩
      rcases hmis with h | h
      · exact h h1
      · exact h.1 h2
  refine ⟨hu, ?_, ?_, ?_, ?_⟩ <;> rw [hu]

/-- Witness for C11: "FF" and the empty line during a check, and "Tbob" while idle. -/
theorem protocol_mismatch_ignored_witness :
    (uart_block ex_checking_FF).out = [] ∧
    (uart_block ex_checking_FF).state = STATE_CHECKING ∧
    (uart_block ex_checking_empty).state = STATE_CHECKING ∧
    (uart_block ex_idle_Tbob).out = [] ∧
    (uart_block ex_idle_Tbob).state = STATE_IDLE :=
  have h1 := protocol_mismatch_ignored ex_checking_FF (by decide) (by decide)
    (Or.inr (by decide))
  have h2 := protocol_mismatch_ignored ex_checking_empty (by decide) (by decide)
    (Or.inr (by decide))
  have h3 := protocol_mismatch_ignored ex_idle_Tbob (by decide) (by decide)
    (Or.inl (by decide))
  ⟨h1.2.1, h1.2.2.1, h2.2.2.1, h3.2.1, h3.2.2.1⟩

/-- C12 (wraparound transparency). Advancing the tick count and the time reference by the
same offset `d` on the 16-bit counter leaves their difference unchanged, and both
time-out blocks commute with that shift, so they take the same decision before and after
it. The check time-out changes the state exactly when the System State is Checking and
the difference exceeds 1500, the display hold exactly when the System State is ResultOk
or ResultFail and the difference exceeds 500; and when the counter has wrapped, so that
the tick count is below the reference, the difference is still the number of ticks
elapsed. -/
theorem wraparound_transparency (m : Machine) (d : Nat) :
    u16_sub ((m.tick_10ms + d) % 65536) ((m.state_timer + d) % 65536)
      = u16_sub m.tick_10ms m.state_timer ∧
    check_timeout_block (shift_ticks d m) = shift_ticks d (check_timeout_block m) ∧
    result_timeout_block (shift_ticks d m) = shift_ticks d (result_timeout_block m) ∧
    (check_timeout_block m ≠ m ↔
      m.state = STATE_CHECKING ∧ u16_sub m.tick_10ms m.state_timer > 1500) ∧
    (result_timeout_block m ≠ m ↔
      (m.state = STATE_RESULT_OK ∨ m.state = STATE_RESULT_FAIL) ∧
        u16_sub m.tick_10ms m.state_timer > 500) ∧
    (m.tick_10ms < m.state_timer → m.state_timer < 65536 →
      u16_sub m.tick_10ms m.state_timer = m.tick_10ms + 65536 - m.state_timer) := by
  have hsh := u16_sub_shift m.tick_10ms m.state_timer d
  refine ⟨hsh, ?_, ?_, ?_, ?_, ?_⟩
  · by_cases h : m.state = STATE_CHECKING ∧ u16_sub m.tick_10ms m.state_timer > 1500
    · rw [check_timeout_block_fire m h.1 h.2,
        check_timeout_block_fire (shift_ticks d m) h.1 (by
          show u16_sub ((m.tick_10ms + d) % 65536) ((m.state_timer + d) % 65536) > 1500
          rw [hsh]; exact h.2)]
      simp [shift_ticks]
    · have hs : m.state ≠ STATE_CHECKING ∨ u16_sub m.tick_10ms m.state_timer ≤ 1500 := by
        by_cases h1 : m.state = STATE_CHECKING
        · exact Or.inr (Nat.le_of_not_lt (fun h2 => h ⟨h1, h2⟩))
        · exact Or.inl h1
      rw [check_timeout_block_skip m hs, check_timeout_block_skip (shift_ticks d m) (by
        show m.state ≠ STATE_CHECKING ∨
          u16_sub ((m.tick_10ms + d) % 65536) ((m.state_timer + d) % 65536) ≤ 1500
        rw [hsh]; exact hs)]
  · by_cases h : (m.state = STATE_RESULT_OK ∨ m.state = STATE_RESULT_FAIL) ∧
        u16_sub m.tick_10ms m.state_timer > 500
    · rw [result_timeout_block_fire m h.1 h.2,
        result_timeout_block_fire (shift_ticks d m) h.1 (by
          show u16_sub ((m.tick_10ms + d) % 65536) ((m.state_timer + d) % 65536) > 500
          rw [hsh]; exact h.2)]
      simp [shift_ticks]
    · have hs : m.state = STATE_IDLE ∨ m.state = STATE_CHECKING ∨
          u16_sub m.tick_10ms m.state_timer ≤ 500 := by
        by_cases h1 : m.state = STATE_RESULT_OK ∨ m.state = STATE_RESULT_FAIL
        · exact Or.inr (Or.inr (Nat.le_of_not_lt (fun h2 => h ⟨h1, h2⟩)))
        · cases hst : m.state <;> simp_all
      rw [result_timeout_block_skip m hs, result_timeout_block_skip (shift_ticks d m) (by
        show m.state = STATE_IDLE ∨ m.state = STATE_CHECKING ∨
          u16_sub ((m.tick_10ms + d) % 65536) ((m.state_timer + d) % 65536) ≤ 500
        rw [hsh]; exact hs)]
  · constructor
    · intro hne
      by_contra h
      apply hne
      apply check_timeout_block_skip
      by_cases h1 : m.state = STATE_CHECKING
      · exact Or.inr (Nat.le_of_not_lt (fun h2 => h ⟨h1, h2⟩))
      · exact Or.inl h1
    · rintro ⟨h1, h2⟩ heq
      have := congrArg Machine.state heq
      rw [check_timeout_block_fire m h1 h2, h1] at this
      simp at this
  · constructor
    · intro hne
      by_contra h
      apply hne
      apply result_timeout_block_skip
      by_cases h1 : m.state = STATE_RESULT_OK ∨ m.state = STATE_RESULT_FAIL
      · exact Or.inr (Or.inr (Nat.le_of_not_lt (fun h2 => h ⟨h1, h2⟩)))
      · cases hst : m.state <;> simp_all
    · rintro ⟨h1, h2⟩ heq
      have := congrArg Machine.state heq
      rw [result_timeout_block_fire m h1 h2] at this
      rcases h1 with h1 | h1 <;> rw [h1] at this <;> simp at this
  · intro h1 h2
    unfold u16_sub
    omega

/-- Witness for C12: a result entered at tick 65300 and read at tick 265, after the
counter has wrapped; 501 ticks have elapsed and the display hold fires. -/
theorem wraparound_transparency_witness :
    u16_sub ex_result_wrapped.tick_10ms ex_result_wrapped.state_timer = 501 ∧
    result_timeout_block ex_result_wrapped ≠ ex_result_wrapped :=
  have h := wraparound_transparency ex_result_wrapped 0
  ⟨(h.2.2.2.2.2 (by decide) (by decide)).trans (by decide), h.2.2.2.2.1.mpr (by decide)⟩

/-- C17 (buffer bounds). In every state reached from power-on by atomic steps (interrupt
handlers and passes of the main loop, in any order), `rx_index` is at most 31, `rx_buffer`
has its 32 cells and its last cell holds NUL; so the index the receiver writes at lies
inside the buffer, the command string in the buffer has at most 31 bytes, and its copy
with the terminator fits the 32 bytes of `cmd`. -/
theorem buffer_bounds (l : List Step) :
    (run l power_on).rx_index ≤ 31 ∧
    (run l power_on).rx_buffer.length = BUFFER_SIZE ∧
    (run l power_on).rx_buffer[31]? = some 0 ∧
    (run l power_on).rx_index < (run l power_on).rx_buffer.length ∧
    (cstr (run l power_on).rx_buffer).length ≤ 31 ∧
    (strcpy (run l power_on).rx_buffer).length ≤ BUFFER_SIZE := by
  obtain ⟨h1, h2, h3⟩ := rx_bounds_run l power_on rx_bounds_power_on
  have h32 : (run l power_on).rx_buffer.length = 32 := h1
  have hc := cstr_length_le _ 31 h3
  refine ⟨h2, h1, h3, by omega, hc, ?_⟩
  show (cstr _ ++ [0]).length ≤ 32
  simp only [List.length_append, List.length_singleton]
  omega

/-- When every pass of the main loop is uninterrupted, a set Sensor Flag implies Idle:
the property is kept by every interrupt handler and by `main_loop`.  It is not kept by a
pass during which a sensor interrupt is taken between lines 117 and 118. -/
theorem latch_step (s : Step) (m : Machine) (h : m.sensor_flag ≠ 0 → m.state = STATE_IDLE) :
    (step s m).sensor_flag ≠ 0 → (step s m).state = STATE_IDLE := by
  cases s with
  | rx c =>
    have hf := receive_frame [c] m
    show (receive [c] m).sensor_flag ≠ 0 → (receive [c] m).state = STATE_IDLE
    rw [hf.1, hf.2.2.1]
    exact h
  | sensor =>
    show (ISR_INT0_vect m).sensor_flag ≠ 0 → (ISR_INT0_vect m).state = STATE_IDLE
    unfold ISR_INT0_vect
    split_ifs with hc
    · intro _; exact hc.1
    · exact h
  | tick => exact h
  | loop =>
    intro hne
    exact absurd (main_loop_flags m).1 hne

theorem latch_run (l : List Step) (m : Machine)
    (h : m.sensor_flag ≠ 0 → m.state = STATE_IDLE) :
    (run l m).sensor_flag ≠ 0 → (run l m).state = STATE_IDLE := by
  induction l generalizing m with
  | nil => exact h
  | cons s l ih => exact ih _ (latch_step s m h)

/-- What the `UART` block can do to the state machine. -/
theorem uart_block_view (m : Machine) :
    ((uart_block m).state = m.state ∧ (uart_block m).state_timer = m.state_timer) ∨
    (m.state = STATE_CHECKING ∧
      ((uart_block m).state = STATE_RESULT_OK ∨ (uart_block m).state = STATE_RESULT_FAIL) ∧
      (uart_block m).state_timer = m.tick_10ms) := by
  by_cases h : m.string_ready = 0
  · rw [uart_block_clear m h]
    exact Or.inl ⟨rfl, rfl⟩
  · rw [uart_block_set m h]
    split_ifs with h1 h2 h3
    · exact Or.inl ⟨rfl, rfl⟩
    · exact Or.inr ⟨h2.1, Or.inl rfl, rfl⟩
    · exact Or.inr ⟨h3.1, Or.inr rfl, rfl⟩
    · exact Or.inl ⟨rfl, rfl⟩

/-- What a pass of the main loop can do to the state machine when no trigger is pending:
nothing (and then no time-out was due), or leave Checking for a result state entered at
the current tick, or leave a result state for Idle. -/
theorem main_loop_view (m : Machine) (hsf : m.sensor_flag = 0) :
    ((main_loop m).state = m.state ∧ (main_loop m).state_timer = m.state_timer ∧
      (m.state = STATE_CHECKING → u16_sub m.tick_10ms m.state_timer ≤ 1500) ∧
      (m.state = STATE_RESULT_OK ∨ m.state = STATE_RESULT_FAIL →
        u16_sub m.tick_10ms m.state_timer ≤ 500)) ∨
    (m.state = STATE_CHECKING ∧
      ((main_loop m).state = STATE_RESULT_OK ∨ (main_loop m).state = STATE_RESULT_FAIL) ∧
      (main_loop m).state_timer = m.tick_10ms) ∨
    ((m.state = STATE_RESULT_OK ∨ m.state = STATE_RESULT_FAIL) ∧
      (main_loop m).state = STATE_IDLE) := by
  obtain ⟨_, ut, _, _, _⟩ := uart_block_frame m
  have hv := uart_block_view m
  unfold main_loop
  rw [sensor_block_clear m hsf]
  by_cases hf1 : (uart_block m).state = STATE_CHECKING ∧
      u16_sub (uart_block m).tick_10ms (uart_block m).state_timer > 1500
  · have hc := check_timeout_block_fire (uart_block m) hf1.1 hf1.2
    have hr := result_timeout_block_skip (check_timeout_block (uart_block m))
      (Or.inr (Or.inr (by rw [hc]; simp [u16_sub_self])))
    rw [hr, hc]
    rcases hv with ⟨a, _⟩ | ⟨_, b, _⟩
    · exact Or.inr (Or.inl ⟨by rw [← a]; exact hf1.1, Or.inr rfl, ut⟩)
    · rcases b with b | b <;> rw [b] at hf1 <;> exact absurd hf1.1 (by decide)
  · have hc := check_timeout_block_skip (uart_block m) (by
      by_cases h1 : (uart_block m).state = STATE_CHECKING
      · exact Or.inr (Nat.le_of_not_lt (fun h2 => hf1 ⟨h1, h2⟩))
      · exact Or.inl h1)
    rw [hc]
    by_cases hf2 : ((uart_block m).state = STATE_RESULT_OK ∨
        (uart_block m).state = STATE_RESULT_FAIL) ∧
        u16_sub (uart_block m).tick_10ms (uart_block m).state_timer > 500
    · have hr := result_timeout_block_fire (uart_block m) hf2.1 hf2.2
      rw [hr]
      rcases hv with ⟨a, _⟩ | ⟨_, _, c⟩
      · exact Or.inr (Or.inr ⟨by rw [← a]; exact hf2.1, rfl⟩)
      · have h2 := hf2.2
        rw [c, ut, u16_sub_self] at h2
        exact absurd h2 (by decide)
    · have hr := result_timeout_block_skip (uart_block m) (by
        by_cases h1 : (uart_block m).state = STATE_RESULT_OK ∨
            (uart_block m).state = STATE_RESULT_FAIL
        · exact Or.inr (Or.inr (Nat.le_of_not_lt (fun h2 => hf2 ⟨h1, h2⟩)))
        · cases hst : (uart_block m).state <;> simp_all)
      rw [hr]
      rcases hv with ⟨a, b⟩ | ⟨a, b, c⟩
      · refine Or.inl ⟨a, b, ?_, ?_⟩
        · intro hs
          rw [← ut, ← b]
          exact Nat.le_of_not_lt (fun h2 => hf1 ⟨a.trans hs, h2⟩)
        · intro hs
          rw [← ut, ← b]
          exact Nat.le_of_not_lt (fun h2 => hf2 ⟨by rw [a]; exact hs, h2⟩)
      · exact Or.inr (Or.inl ⟨a, b, c⟩)

theorem u16_sub_succ (t r : Nat) :
    u16_sub ((t + 1) % 65536) r = (u16_sub t r + 1) % 65536 := by
  unfold u16_sub
  omega

/-- Each round brings the bound down while the System State is not Idle. -/
theorem rounds_bound_decreases (m : Machine) (h : m.state ≠ STATE_IDLE) :
    rounds_bound (tick_then_loop m) < rounds_bound m := by
  have he := u16_sub_succ m.tick_10ms m.state_timer
  have hlt := u16_sub_lt m.tick_10ms m.state_timer
  obtain ⟨f1, _, f3⟩ := main_loop_flags (ISR_TIMER0_COMP_vect m)
  by_cases hsf : m.sensor_flag = 0
  · have hv := main_loop_view (ISR_TIMER0_COMP_vect m) hsf
    simp only [show (ISR_TIMER0_COMP_vect m).state = m.state from rfl,
      show (ISR_TIMER0_COMP_vect m).state_timer = m.state_timer from rfl,
      show (ISR_TIMER0_COMP_vect m).tick_10ms = (m.tick_10ms + 1) % 65536 from rfl,
      he] at hv f3
    unfold rounds_bound tick_then_loop
    rw [f1, f3]
    rcases hv with ⟨a, b, c, d⟩ | ⟨a, b, c⟩ | ⟨a, b⟩
    · rw [a, b, he]
      simp only [h, hsf, if_false, ne_eq, not_true_eq_false]
      by_cases hc : m.state = STATE_CHECKING
      · have := c hc
        simp only [hc, if_true]
        split_ifs <;> omega
      · have hres : m.state = STATE_RESULT_OK ∨ m.state = STATE_RESULT_FAIL := by
          cases hst : m.state <;> simp_all
        have := d hres
        simp only [hc, if_false]
        split_ifs <;> omega
    · rw [c, u16_sub_self]
      simp only [h, hsf, a, if_false, if_true, ne_eq, not_true_eq_false]
      rcases b with b | b <;> rw [b] <;> simp <;> split_ifs <;> omega
    · rw [b]
      simp only [h, hsf, if_false, if_true, ne_eq, not_true_eq_false]
      rcases a with a | a <;> rw [a] <;> simp <;> split_ifs <;> omega
  · have hm := main_loop_sensor (ISR_TIMER0_COMP_vect m) hsf
    have hs := sensor_block_set (ISR_TIMER0_COMP_vect m) hsf
    unfold rounds_bound tick_then_loop
    rw [hm, hs]
    simp [h, hsf, u16_sub_self]

theorem rounds_bound_le (m : Machine) : rounds_bound m ≤ 2003 := by
  unfold rounds_bound
  split_ifs <;> omega

/-- Within `rounds_bound` rounds the System State is Idle. -/
theorem idle_within (k : Nat) (m : Machine) (h : rounds_bound m ≤ k) :
    ∃ n, n ≤ k ∧ (Nat.iterate tick_then_loop n m).state = STATE_IDLE := by
  induction k generalizing m with
  | zero =>
    by_cases hs : m.state = STATE_IDLE
    · exact ⟨0, le_refl _, hs⟩
    · have := rounds_bound_decreases m hs
      omega
  | succ k ih =>
    by_cases hs : m.state = STATE_IDLE
    · exact ⟨0, Nat.zero_le _, hs⟩
    · have := rounds_bound_decreases m hs
      obtain ⟨n, hn, hst⟩ := ih (tick_then_loop m) (by omega)
      exact ⟨n + 1, by omega, by rw [Function.iterate_succ_apply]; exact hst⟩

/-- C14 (time-out recovery). From any state whose System State is not Idle, whatever the
flags, the pending command, the tick count and `state_timer` are, when only timer
interrupts occur and the main loop makes one pass after each, the System State is Idle
after some number `n` of them with `n` at most 2003; and the System State after any number
of them is one of Idle, Checking, ResultOk, ResultFail. -/
theorem timeout_recovery (m : Machine) (h : m.state ≠ STATE_IDLE) :
    (∃ n, n ≤ 2003 ∧ (Nat.iterate tick_then_loop n m).state = STATE_IDLE) ∧
    (∀ k, (Nat.iterate tick_then_loop k m).state = STATE_IDLE ∨
      (Nat.iterate tick_then_loop k m).state = STATE_CHECKING ∨
      (Nat.iterate tick_then_loop k m).state = STATE_RESULT_OK ∨
      (Nat.iterate tick_then_loop k m).state = STATE_RESULT_FAIL) := by
  have _hne := h
  refine ⟨idle_within 2003 m (rounds_bound_le m), fun k => ?_⟩
  cases (Nat.iterate tick_then_loop k m).state <;> simp

/-- Witness for C14: a check that has gone unanswered for 1500 ticks. -/
theorem timeout_recovery_witness :
    ∃ n, n ≤ 2003 ∧ (Nat.iterate tick_then_loop n ex_checking_1500).state = STATE_IDLE :=
  (timeout_recovery ex_checking_1500 (by decide)).1

/-! ## The statements one by one -/

theorem fire_nil (m : Machine) : fire [] m = m := rfl

theorem pass_from_succ (f k : Nat) (q : Nat → List Irq) (c : Cpu) :
    pass_from (f + 1) k q c =
      if (stmt { c with m := fire (q k) c.m }).pc = Pc.top then
        stmt { c with m := fire (q k) c.m }
      else pass_from f (k + 1) q (stmt { c with m := fire (q k) c.m }) := rfl

theorem stmt_top (m : Machine) (cmd : List Nat) :
    stmt { m := m, pc := Pc.top, cmd := cmd } =
      if m.sensor_flag ≠ 0 then { m := m, pc := Pc.s_clear, cmd := cmd }
      else { m := m, pc := Pc.u_test, cmd := cmd } := rfl

theorem stmt_u_test (m : Machine) (cmd : List Nat) :
    stmt { m := m, pc := Pc.u_test, cmd := cmd } =
      if m.string_ready ≠ 0 then { m := m, pc := Pc.u_copy, cmd := cmd }
      else { m := m, pc := Pc.t_check_test, cmd := cmd } := rfl

theorem stmt_u_copy (m : Machine) (cmd : List Nat) :
    stmt { m := m, pc := Pc.u_copy, cmd := cmd } =
      { m := { m with string_ready := 0, rx_buffer := m.rx_buffer.set 0 0 },
        pc := Pc.u_dispatch, cmd := strcpy m.rx_buffer } := rfl

theorem stmt_u_dispatch (m : Machine) (cmd : List Nat) :
    stmt { m := m, pc := Pc.u_dispatch, cmd := cmd } =
      if strcmp_zero cmd str_RUOK then { m := m, pc := Pc.u_send_CF, cmd := cmd }
      else if m.state = STATE_CHECKING ∧ cmd.getD 0 0 = 84 then
        { m := m, pc := Pc.u_ok_clear, cmd := cmd }
      else if m.state = STATE_CHECKING ∧ strcmp_zero cmd str_F then
        { m := m, pc := Pc.u_fail_clear, cmd := cmd }
      else { m := m, pc := Pc.t_check_test, cmd := cmd } := rfl

theorem stmt_t_check_test (m : Machine) (cmd : List Nat) :
    stmt { m := m, pc := Pc.t_check_test, cmd := cmd } =
      if m.state = STATE_CHECKING ∧ u16_sub m.tick_10ms m.state_timer > 1500 then
        { m := m, pc := Pc.t_check_clear, cmd := cmd }
      else { m := m, pc := Pc.t_result_test, cmd := cmd } := rfl

theorem stmt_t_result_test (m : Machine) (cmd : List Nat) :
    stmt { m := m, pc := Pc.t_result_test, cmd := cmd } =
      if (m.state = STATE_RESULT_OK ∨ m.state = STATE_RESULT_FAIL) ∧
          u16_sub m.tick_10ms m.state_timer > 500 then
        { m := m, pc := Pc.t_result_clear, cmd := cmd }
      else { m := m, pc := Pc.top, cmd := cmd } := rfl

theorem stmt_s_clear (m : Machine) (cmd : List Nat) :
    stmt { m := m, pc := Pc.s_clear, cmd := cmd } =
      { m := { m with sensor_flag := 0 }, pc := Pc.s_state, cmd := cmd } := rfl

theorem stmt_s_state (m : Machine) (cmd : List Nat) :
    stmt { m := m, pc := Pc.s_state, cmd := cmd } =
      { m := { m with state := STATE_CHECKING }, pc := Pc.s_timer, cmd := cmd } := rfl

theorem stmt_s_timer (m : Machine) (cmd : List Nat) :
    stmt { m := m, pc := Pc.s_timer, cmd := cmd } =
      { m := { m with state_timer := m.tick_10ms }, pc := Pc.s_reset, cmd := cmd } := rfl

theorem stmt_s_reset (m : Machine) (cmd : List Nat) :
    stmt { m := m, pc := Pc.s_reset, cmd := cmd } =
      { m := { m with string_ready := 0, rx_index := 0,
                        rx_buffer := memset m.rx_buffer 0 BUFFER_SIZE },
        pc := Pc.s_send_NG, cmd := cmd } := rfl

theorem stmt_s_send_NG (m : Machine) (cmd : List Nat) :
    stmt { m := m, pc := Pc.s_send_NG, cmd := cmd } =
      { m := UART_SendString str_NG m, pc := Pc.s_send_CK, cmd := cmd } := rfl

theorem stmt_s_send_CK (m : Machine) (cmd : List Nat) :
    stmt { m := m, pc := Pc.s_send_CK, cmd := cmd } =
      { m := UART_SendString str_CK m, pc := Pc.s_lcd_clear, cmd := cmd } := rfl

theorem stmt_s_lcd_clear (m : Machine) (cmd : List Nat) :
    stmt { m := m, pc := Pc.s_lcd_clear, cmd := cmd } =
      { m := LCD4_clear m, pc := Pc.s_lcd_write, cmd := cmd } := rfl

theorem stmt_s_lcd_write (m : Machine) (cmd : List Nat) :
    stmt { m := m, pc := Pc.s_lcd_write, cmd := cmd } =
      { m := LCD4_write_string str_Checking m, pc := Pc.s_state2, cmd := cmd } := rfl

theorem stmt_s_state2 (m : Machine) (cmd : List Nat) :
    stmt { m := m, pc := Pc.s_state2, cmd := cmd } =
      { m := { m with state := STATE_CHECKING }, pc := Pc.s_timer2, cmd := cmd } := rfl

theorem stmt_s_timer2 (m : Machine) (cmd : List Nat) :
    stmt { m := m, pc := Pc.s_timer2, cmd := cmd } =
      { m := { m with state_timer := m.tick_10ms }, pc := Pc.u_test, cmd := cmd } := rfl

theorem stmt_u_send_CF (m : Machine) (cmd : List Nat) :
    stmt { m := m, pc := Pc.u_send_CF, cmd := cmd } =
      { m := UART_SendString str_CF m, pc := Pc.t_check_test, cmd := cmd } := rfl

theorem stmt_u_ok_clear (m : Machine) (cmd : List Nat) :
    stmt { m := m, pc := Pc.u_ok_clear, cmd := cmd } =
      { m := LCD4_clear m, pc := Pc.u_ok_welcome, cmd := cmd } := rfl

theorem stmt_u_ok_welcome (m : Machine) (cmd : List Nat) :
    stmt { m := m, pc := Pc.u_ok_welcome, cmd := cmd } =
      { m := LCD4_write_string str_Welcome m, pc := Pc.u_ok_goto, cmd := cmd } := rfl

theorem stmt_u_ok_goto (m : Machine) (cmd : List Nat) :
    stmt { m := m, pc := Pc.u_ok_goto, cmd := cmd } =
      { m := LCD4_gotoxy 2 1 m, pc := Pc.u_ok_payload, cmd := cmd } := rfl

theorem stmt_u_ok_payload (m : Machine) (cmd : List Nat) :
    stmt { m := m, pc := Pc.u_ok_payload, cmd := cmd } =
      { m := LCD4_write_string (cmd.drop 1) m, pc := Pc.u_ok_state, cmd := cmd } := rfl

theorem stmt_u_ok_state (m : Machine) (cmd : List Nat) :
    stmt { m := m, pc := Pc.u_ok_state, cmd := cmd } =
      { m := { m with state := STATE_RESULT_OK }, pc := Pc.u_ok_timer, cmd := cmd } := rfl

theorem stmt_u_ok_timer (m : Machine) (cmd : List Nat) :
    stmt { m := m, pc := Pc.u_ok_timer, cmd := cmd } =
      { m := { m with state_timer := m.tick_10ms }, pc := Pc.t_check_test, cmd := cmd } := rfl

theorem stmt_u_fail_clear (m : Machine) (cmd : List Nat) :
    stmt { m := m, pc := Pc.u_fail_clear, cmd := cmd } =
      { m := LCD4_clear m, pc := Pc.u_fail_write, cmd := cmd } := rfl

theorem stmt_u_fail_write (m : Machine) (cmd : List Nat) :
    stmt { m := m, pc := Pc.u_fail_write, cmd := cmd } =
      { m := LCD4_write_string str_User_not_found m, pc := Pc.u_fail_state, cmd := cmd } := rfl

theorem stmt_u_fail_state (m : Machine) (cmd : List Nat) :
    stmt { m := m, pc := Pc.u_fail_state, cmd := cmd } =
      { m := { m with state := STATE_RESULT_FAIL }, pc := Pc.u_fail_timer, cmd := cmd } := rfl

theorem stmt_u_fail_timer (m : Machine) (cmd : List Nat) :
    stmt { m := m, pc := Pc.u_fail_timer, cmd := cmd } =
      { m := { m with state_timer := m.tick_10ms }, pc := Pc.t_check_test, cmd := cmd } := rfl

theorem stmt_t_check_clear (m : Machine) (cmd : List Nat) :
    stmt { m := m, pc := Pc.t_check_clear, cmd := cmd } =
      { m := LCD4_clear m, pc := Pc.t_check_write, cmd := cmd } := rfl

theorem stmt_t_check_write (m : Machine) (cmd : List Nat) :
    stmt { m := m, pc := Pc.t_check_write, cmd := cmd } =
      { m := LCD4_write_string str_User_not_found m, pc := Pc.t_check_state, cmd := cmd } := rfl

theorem stmt_t_check_state (m : Machine) (cmd : List Nat) :
    stmt { m := m, pc := Pc.t_check_state, cmd := cmd } =
      { m := { m with state := STATE_RESULT_FAIL }, pc := Pc.t_check_timer, cmd := cmd } := rfl

theorem stmt_t_check_timer (m : Machine) (cmd : List Nat) :
    stmt { m := m, pc := Pc.t_check_timer, cmd := cmd } =
      { m := { m with state_timer := m.tick_10ms }, pc := Pc.t_result_test, cmd := cmd } := rfl

theorem stmt_t_result_clear (m : Machine) (cmd : List Nat) :
    stmt { m := m, pc := Pc.t_result_clear, cmd := cmd } =
      { m := LCD4_clear m, pc := Pc.t_result_write, cmd := cmd } := rfl

theorem stmt_t_result_write (m : Machine) (cmd : List Nat) :
    stmt { m := m, pc := Pc.t_result_write, cmd := cmd } =
      { m := LCD4_write_string str_System_Ready m, pc := Pc.t_result_send, cmd := cmd } := rfl

theorem stmt_t_result_send (m : Machine) (cmd : List Nat) :
    stmt { m := m, pc := Pc.t_result_send, cmd := cmd } =
      { m := UART_SendString str_RD m, pc := Pc.t_result_state, cmd := cmd } := rfl

theorem stmt_t_result_state (m : Machine) (cmd : List Nat) :
    stmt { m := m, pc := Pc.t_result_state, cmd := cmd } =
      { m := { m with state := STATE_IDLE }, pc := Pc.top, cmd := cmd } := rfl

/-! ## The pass without interrupts is `main_loop` -/

theorem pass_from_result (f k : Nat) (m : Machine) (cmd : List Nat) :
    (pass_from (f + 5) k no_irq { m := m, pc := Pc.t_result_test, cmd := cmd }).m
      = result_timeout_block m := by
  rw [pass_from_succ]
  simp only [no_irq, fire_nil, stmt_t_result_test]
  by_cases h : (m.state = STATE_RESULT_OK ∨ m.state = STATE_RESULT_FAIL) ∧
      u16_sub m.tick_10ms m.state_timer > 500
  · rw [if_pos h]
    simp only [reduceCtorEq, if_false]
    rw [pass_from_succ]
    simp only [no_irq, fire_nil, stmt_t_result_clear, reduceCtorEq, if_false, if_true]
    rw [pass_from_succ]
    simp only [no_irq, fire_nil, stmt_t_result_write, reduceCtorEq, if_false, if_true]
    rw [pass_from_succ]
    simp only [no_irq, fire_nil, stmt_t_result_send, reduceCtorEq, if_false, if_true]
    rw [pass_from_succ]
    simp only [no_irq, fire_nil, stmt_t_result_state, reduceCtorEq, if_false, if_true]
    unfold result_timeout_block
    rw [if_pos h]
  · rw [if_neg h]
    simp only [if_true]
    unfold result_timeout_block
    rw [if_neg h]

theorem pass_from_check (f k : Nat) (m : Machine) (cmd : List Nat) :
    (pass_from (f + 10) k no_irq { m := m, pc := Pc.t_check_test, cmd := cmd }).m
      = result_timeout_block (check_timeout_block m) := by
  rw [pass_from_succ]
  simp only [no_irq, fire_nil, stmt_t_check_test]
  by_cases h : m.state = STATE_CHECKING ∧ u16_sub m.tick_10ms m.state_timer > 1500
  · rw [if_pos h]
    simp only [reduceCtorEq, if_false]
    rw [pass_from_succ]
    simp only [no_irq, fire_nil, stmt_t_check_clear, reduceCtorEq, if_false, if_true]
    rw [pass_from_succ]
    simp only [no_irq, fire_nil, stmt_t_check_write, reduceCtorEq, if_false, if_true]
    rw [pass_from_succ]
    simp only [no_irq, fire_nil, stmt_t_check_state, reduceCtorEq, if_false, if_true]
    rw [pass_from_succ]
    simp only [no_irq, fire_nil, stmt_t_check_timer, reduceCtorEq, if_false, if_true]
    rw [pass_from_result]
    unfold check_timeout_block
    rw [if_pos h]
  · rw [if_neg h]
    simp only [reduceCtorEq, if_false]
    rw [pass_from_result]
    unfold check_timeout_block
    rw [if_neg h]

theorem pass_from_uart (f k : Nat) (m : Machine) (cmd : List Nat) :
    (pass_from (f + 19) k no_irq { m := m, pc := Pc.u_test, cmd := cmd }).m
      = result_timeout_block (check_timeout_block (uart_block m)) := by
  rw [pass_from_succ]
  simp only [no_irq, fire_nil, stmt_u_test]
  by_cases h : m.string_ready ≠ 0
  · simp only [h, ne_eq, if_true, not_false_eq_true, reduceCtorEq, if_false]
    rw [pass_from_succ]
    simp only [no_irq, fire_nil, stmt_u_copy, reduceCtorEq, if_false, if_true]
    rw [pass_from_succ]
    simp only [no_irq, fire_nil, stmt_u_dispatch]
    by_cases h1 : strcmp_zero (strcpy m.rx_buffer) str_RUOK = true
    · simp only [h1, if_true, reduceCtorEq, if_false]
      rw [pass_from_succ]
      simp only [no_irq, fire_nil, stmt_u_send_CF, reduceCtorEq, if_false, if_true]
      rw [pass_from_check]
      unfold uart_block
      rw [if_pos h]
      dsimp only
      rw [if_pos h1]
    · simp only [h1, if_false]
      by_cases h2 : m.state = STATE_CHECKING ∧ (strcpy m.rx_buffer).getD 0 0 = 84
      · rw [if_pos h2]
        simp only [reduceCtorEq, if_false]
        rw [pass_from_succ]
        simp only [no_irq, fire_nil, stmt_u_ok_clear, reduceCtorEq, if_false, if_true]
        rw [pass_from_succ]
        simp only [no_irq, fire_nil, stmt_u_ok_welcome, reduceCtorEq, if_false, if_true]
        rw [pass_from_succ]
        simp only [no_irq, fire_nil, stmt_u_ok_goto, reduceCtorEq, if_false, if_true]
        rw [pass_from_succ]
        simp only [no_irq, fire_nil, stmt_u_ok_payload, reduceCtorEq, if_false, if_true]
        rw [pass_from_succ]
        simp only [no_irq, fire_nil, stmt_u_ok_state, reduceCtorEq, if_false, if_true]
        rw [pass_from_succ]
        simp only [no_irq, fire_nil, stmt_u_ok_timer, reduceCtorEq, if_false, if_true]
        rw [pass_from_check]
        unfold uart_block
        rw [if_pos h]
        dsimp only
        rw [if_neg h1, if_pos h2]
      · rw [if_neg h2]
        by_cases h3 : m.state = STATE_CHECKING ∧ strcmp_zero (strcpy m.rx_buffer) str_F = true
        · rw [if_pos h3]
          simp only [reduceCtorEq, if_false]
          rw [pass_from_succ]
          simp only [no_irq, fire_nil, stmt_u_fail_clear, reduceCtorEq, if_false, if_true]
          rw [pass_from_succ]
          simp only [no_irq, fire_nil, stmt_u_fail_write, reduceCtorEq, if_false, if_true]
          rw [pass_from_succ]
          simp only [no_irq, fire_nil, stmt_u_fail_state, reduceCtorEq, if_false, if_true]
          rw [pass_from_succ]
          simp only [no_irq, fire_nil, stmt_u_fail_timer, reduceCtorEq, if_false, if_true]
          rw [pass_from_check]
          unfold uart_block
          rw [if_pos h]
          dsimp only
          rw [if_neg h1, if_neg h2, if_pos h3]
        · rw [if_neg h3]
          simp only [reduceCtorEq, if_false]
          rw [pass_from_check]
          unfold uart_block
          rw [if_pos h]
          dsimp only
          rw [if_neg h1, if_neg h2, if_neg h3]
  · simp only [h, ne_eq, not_not, if_false, reduceCtorEq]
    rw [pass_from_check]
    simp [uart_block, h]

/-- The pass during which no interrupt is taken is the composition of the four blocks. -/
theorem pass_uninterrupted (m : Machine) : pass no_irq m = main_loop m := by
  unfold pass main_loop
  rw [pass_from_succ]
  simp only [no_irq, fire_nil, stmt_top]
  by_cases h : m.sensor_flag ≠ 0
  · simp only [h, ne_eq, if_true, not_false_eq_true, reduceCtorEq, if_false]
    rw [pass_from_succ]
    simp only [no_irq, fire_nil, stmt_s_clear, reduceCtorEq, if_false, if_true]
    rw [pass_from_succ]
    simp only [no_irq, fire_nil, stmt_s_state, reduceCtorEq, if_false, if_true]
    rw [pass_from_succ]
    simp only [no_irq, fire_nil, stmt_s_timer, reduceCtorEq, if_false, if_true]
    rw [pass_from_succ]
    simp only [no_irq, fire_nil, stmt_s_reset, reduceCtorEq, if_false, if_true]
    rw [pass_from_succ]
    simp only [no_irq, fire_nil, stmt_s_send_NG, reduceCtorEq, if_false, if_true]
    rw [pass_from_succ]
    simp only [no_irq, fire_nil, stmt_s_send_CK, reduceCtorEq, if_false, if_true]
    rw [pass_from_succ]
    simp only [no_irq, fire_nil, stmt_s_lcd_clear, reduceCtorEq, if_false, if_true]
    rw [pass_from_succ]
    simp only [no_irq, fire_nil, stmt_s_lcd_write, reduceCtorEq, if_false, if_true]
    rw [pass_from_succ]
    simp only [no_irq, fire_nil, stmt_s_state2, reduceCtorEq, if_false, if_true]
    rw [pass_from_succ]
    simp only [no_irq, fire_nil, stmt_s_timer2, reduceCtorEq, if_false, if_true]
    rw [pass_from_uart]
    simp [sensor_block, h, LCD4_clear, LCD4_write_string, UART_SendString_out]
  · simp only [h, ne_eq, not_not, if_false, reduceCtorEq]
    rw [pass_from_uart]
    simp [sensor_block, h]

/-! ## Interrupts between statements -/

theorem fire_cons (i : Irq) (l : List Irq) (m : Machine) :
    fire (i :: l) m = fire l (irq i m) := rfl

/-- What interrupt handlers leave alone, and under which conditions. -/
theorem fire_facts (l : List Irq) (m : Machine) :
    (fire l m).state = m.state ∧ (fire l m).state_timer = m.state_timer ∧
    (fire l m).out = m.out ∧
    (m.sensor_flag ≠ 0 → (fire l m).sensor_flag = m.sensor_flag) ∧
    (m.state ≠ STATE_IDLE → (fire l m).sensor_flag = m.sensor_flag) ∧
    (Irq.sensor ∉ l → (fire l m).sensor_flag = m.sensor_flag) ∧
    (Irq.rx 10 ∉ l → (fire l m).string_ready = m.string_ready) ∧
    (Irq.tick ∉ l → (fire l m).tick_10ms = m.tick_10ms) := by
  induction l generalizing m with
  | nil => simp [fire_nil]
  | cons i l ih =>
    obtain ⟨h1, h2, h3, h4, h5, h6, h7, h8⟩ := ih (irq i m)
    rw [fire_cons]
    cases i with
    | rx c =>
      obtain ⟨f1, f2, f3, f4, f5⟩ := receive_frame [c] m
      have e : irq (Irq.rx c) m = receive [c] m := rfl
      rw [e] at h1 h2 h3 h4 h5 h6 h7 h8 ⊢
      rw [f1] at h4
      rw [f3, f1] at h5
      rw [f1] at h6
      rw [f2] at h8
      refine ⟨h1.trans f3, h2.trans f4, h3.trans f5, h4, h5, ?_, ?_, ?_⟩
      · intro hn
        exact h6 (fun hm => hn (List.mem_cons_of_mem _ hm))
      · intro hn
        have hc : c ≠ 10 := fun hc => hn (by rw [hc]; exact List.mem_cons_self _ _)
        rw [h7 (fun hm => hn (List.mem_cons_of_mem _ hm))]
        show (ISR_USART_RXC_vect c m).string_ready = m.string_ready
        unfold ISR_USART_RXC_vect
        split_ifs <;> simp_all
      · intro hn
        exact h8 (fun hm => hn (List.mem_cons_of_mem _ hm))
    | sensor =>
      have e : irq Irq.sensor m = ISR_INT0_vect m := rfl
      rw [e] at h1 h2 h3 h4 h5 h6 h7 h8 ⊢
      have hs : (ISR_INT0_vect m).state = m.state := by
        unfold ISR_INT0_vect; split_ifs <;> rfl
      have ht : (ISR_INT0_vect m).state_timer = m.state_timer := by
        unfold ISR_INT0_vect; split_ifs <;> rfl
      have ho : (ISR_INT0_vect m).out = m.out := by
        unfold ISR_INT0_vect; split_ifs <;> rfl
      have hr : (ISR_INT0_vect m).string_ready = m.string_ready := by
        unfold ISR_INT0_vect; split_ifs <;> rfl
      have hk : (ISR_INT0_vect m).tick_10ms = m.tick_10ms := by
        unfold ISR_INT0_vect; split_ifs <;> rfl
      refine ⟨h1.trans hs, h2.trans ht, h3.trans ho, ?_, ?_, ?_, ?_, ?_⟩
      · intro hn
        have hf : ISR_INT0_vect m = m := by
          unfold ISR_INT0_vect
          rw [if_neg (fun hc => hn hc.2)]
        rw [hf] at h4 ⊢
        exact h4 hn
      · intro hn
        have hf : ISR_INT0_vect m = m := by
          unfold ISR_INT0_vect
          rw [if_neg (fun hc => hn hc.1)]
        rw [hf] at h5 ⊢
        exact h5 hn
      · intro hn
        exact absurd (List.mem_cons_self _ _) hn
      · intro hn
        rw [h7 (fun hm => hn (List.mem_cons_of_mem _ hm)), hr]
      · intro hn
        rw [h8 (fun hm => hn (List.mem_cons_of_mem _ hm)), hk]
    | tick =>
      have e : irq Irq.tick m = ISR_TIMER0_COMP_vect m := rfl
      rw [e] at h1 h2 h3 h4 h5 h6 h7 h8 ⊢
      refine ⟨h1, h2, h3, h4, h5, ?_, ?_, ?_⟩
      · intro hn
        exact h6 (fun hm => hn (List.mem_cons_of_mem _ hm))
      · intro hn
        exact h7 (fun hm => hn (List.mem_cons_of_mem _ hm))
      · intro hn
        exact absurd (List.mem_cons_self _ _) hn

/-- Interrupt handlers during a check: the state and the Sensor Flag stay as they are. -/
theorem fire_checking (l : List Irq) (y : Machine) (hs : y.state = STATE_CHECKING) :
    (fire l y).state = STATE_CHECKING ∧ (fire l y).sensor_flag = y.sensor_flag ∧
    (fire l y).out = y.out ∧ (fire l y).state_timer = y.state_timer ∧
    (Irq.rx 10 ∉ l → (fire l y).string_ready = y.string_ready) ∧
    (Irq.tick ∉ l → (fire l y).tick_10ms = y.tick_10ms) := by
  obtain ⟨h1, h2, h3, _, h5, _, h7, h8⟩ := fire_facts l y
  exact ⟨h1.trans hs, h5 (by rw [hs]; decide), h3, h2, h7, h8⟩

/-- The pass that handles a trigger, with interrupts between its statements: when no line
feed is received after the reset and before the test of the Ready Flag, no timer interrupt
is taken after the second snapshot, and no sensor interrupt between lines 117 and 118, the
pass runs the `SENSOR` block and nothing else. -/
theorem pass_trigger (q : Nat → List Irq) (m : Machine) (hsf : m.sensor_flag ≠ 0)
    (hlf : ∀ k, 5 ≤ k → k ≤ 11 → Irq.rx 10 ∉ q k)
    (htick : ∀ k, 11 ≤ k → k ≤ 13 → Irq.tick ∉ q k)
    (hrace : Irq.sensor ∉ q 2) :
    ∃ x : Machine, pass q m = x ∧ x.state = STATE_CHECKING ∧ x.sensor_flag = 0 ∧
      x.state_timer = x.tick_10ms ∧
      x.out = m.out ++ ((line str_NG ++ line str_CK).map Event.tx
        ++ [Event.lcd_clear, Event.lcd_write_string (cstr str_Checking)]) := by
  unfold pass
  -- line 116
  rw [pass_from_succ]
  dsimp only
  obtain ⟨-, -, O0, F, -, -, -, -⟩ := fire_facts (q 0) m
  have F := F hsf
  generalize fire (q 0) m = x0 at O0 F ⊢
  have hx0 : x0.sensor_flag ≠ 0 := by rw [F]; exact hsf
  rw [stmt_top, if_pos hx0]
  simp only [reduceCtorEq, if_false]
  clear F hx0
  -- line 117
  rw [pass_from_succ]
  dsimp only
  obtain ⟨-, -, O1, -, -, -, -, -⟩ := fire_facts (q (0 + 1)) x0
  generalize fire (q (0 + 1)) x0 = x1 at O1 ⊢
  rw [O0] at O1
  clear O0
  rw [stmt_s_clear]
  simp only [reduceCtorEq, if_false]
  -- line 118
  rw [pass_from_succ]
  dsimp only
  have h := fire_facts (q (0 + 1 + 1)) { x1 with sensor_flag := 0 }
  dsimp only at h
  obtain ⟨-, -, O2, -, -, F2, -, -⟩ := h
  have F2 := F2 hrace
  generalize fire (q (0 + 1 + 1)) { x1 with sensor_flag := 0 } = x2 at O2 F2 ⊢
  rw [O1] at O2
  clear O1
  rw [stmt_s_state]
  simp only [reduceCtorEq, if_false]
  -- statement 3
  rw [pass_from_succ]
  dsimp only
  have h := fire_checking (q (0 + 1 + 1 + 1))
    { x2 with state := STATE_CHECKING } rfl
  dsimp only at h
  obtain ⟨S3, Fr, Or, -, Rr, -⟩ := h
  generalize fire (q (0 + 1 + 1 + 1))
    { x2 with state := STATE_CHECKING } = x3 at S3 Fr Or Rr ⊢
  have F3 : x3.sensor_flag = 0 := Fr.trans F2
  have O3 := Or
  rw [O2] at O3
  clear Fr Or Rr F2 O2
  rw [stmt_s_timer]
  simp only [reduceCtorEq, if_false, UART_SendString_out, LCD4_clear, LCD4_write_string]
  -- statement 4
  rw [pass_from_succ]
  dsimp only
  have h := fire_checking (q (0 + 1 + 1 + 1 + 1))
    { x3 with state_timer := x3.tick_10ms } S3
  dsimp only at h
  obtain ⟨S4, Fr, Or, -, Rr, -⟩ := h
  generalize fire (q (0 + 1 + 1 + 1 + 1))
    { x3 with state_timer := x3.tick_10ms } = x4 at S4 Fr Or Rr ⊢
  have F4 : x4.sensor_flag = 0 := Fr.trans F3
  have O4 := Or
  rw [O3] at O4
  clear Fr Or Rr F3 O3
  rw [stmt_s_reset]
  simp only [reduceCtorEq, if_false, UART_SendString_out, LCD4_clear, LCD4_write_string]
  -- statement 5
  rw [pass_from_succ]
  dsimp only
  have h := fire_checking (q (0 + 1 + 1 + 1 + 1 + 1))
    { x4 with string_ready := 0, rx_index := 0,
                rx_buffer := memset x4.rx_buffer 0 BUFFER_SIZE } S4
  dsimp only at h
  obtain ⟨S5, Fr, Or, -, Rr, -⟩ := h
  generalize fire (q (0 + 1 + 1 + 1 + 1 + 1))
    { x4 with string_ready := 0, rx_index := 0,
                rx_buffer := memset x4.rx_buffer 0 BUFFER_SIZE } = x5 at S5 Fr Or Rr ⊢
  have F5 : x5.sensor_flag = 0 := Fr.trans F4
  have O5 := Or
  rw [O4] at O5
  have R5 : x5.string_ready = 0 := Rr (hlf 5 (by omega) (by omega))
  clear Fr Or Rr F4 O4
  rw [stmt_s_send_NG]
  simp only [reduceCtorEq, if_false, UART_SendString_out, LCD4_clear, LCD4_write_string]
  -- statement 6
  rw [pass_from_succ]
  dsimp only
  have h := fire_checking (q (0 + 1 + 1 + 1 + 1 + 1 + 1))
    { x5 with out := x5.out ++ List.map Event.tx (cstr str_NG ++ [13, 10]) } S5
  dsimp only at h
  obtain ⟨S6, Fr, Or, -, Rr, -⟩ := h
  generalize fire (q (0 + 1 + 1 + 1 + 1 + 1 + 1))
    { x5 with out := x5.out ++ List.map Event.tx (cstr str_NG ++ [13, 10]) } = x6 at S6 Fr Or Rr ⊢
  have F6 : x6.sensor_flag = 0 := Fr.trans F5
  have O6 := Or
  rw [O5] at O6
  have R6 : x6.string_ready = 0 := (Rr (hlf 6 (by omega) (by omega))).trans R5
  clear Fr Or Rr F5 O5
  rw [stmt_s_send_CK]
  simp only [reduceCtorEq, if_false, UART_SendString_out, LCD4_clear, LCD4_write_string]
  -- statement 7
  rw [pass_from_succ]
  dsimp only
  have h := fire_checking (q (0 + 1 + 1 + 1 + 1 + 1 + 1 + 1))
    { x6 with out := x6.out ++ List.map Event.tx (cstr str_CK ++ [13, 10]) } S6
  dsimp only at h
  obtain ⟨S7, Fr, Or, -, Rr, -⟩ := h
  generalize fire (q (0 + 1 + 1 + 1 + 1 + 1 + 1 + 1))
    { x6 with out := x6.out ++ List.map Event.tx (cstr str_CK ++ [13, 10]) } = x7 at S7 Fr Or Rr ⊢
  have F7 : x7.sensor_flag = 0 := Fr.trans F6
  have O7 := Or
  rw [O6] at O7
  have R7 : x7.string_ready = 0 := (Rr (hlf 7 (by omega) (by omega))).trans R6
  clear Fr Or Rr F6 O6
  rw [stmt_s_lcd_clear]
  simp only [reduceCtorEq, if_false, UART_SendString_out, LCD4_clear, LCD4_write_string]
  -- statement 8
  rw [pass_from_succ]
  dsimp only
  have h := fire_checking (q (0 + 1 + 1 + 1 + 1 + 1 + 1 + 1 + 1))
    { x7 with out := x7.out ++ [Event.lcd_clear] } S7
  dsimp only at h
  obtain ⟨S8, Fr, Or, -, Rr, -⟩ := h
  generalize fire (q (0 + 1 + 1 + 1 + 1 + 1 + 1 + 1 + 1))
    { x7 with out := x7.out ++ [Event.lcd_clear] } = x8 at S8 Fr Or Rr ⊢
  have F8 : x8.sensor_flag = 0 := Fr.trans F7
  have O8 := Or
  rw [O7] at O8
  have R8 : x8.string_ready = 0 := (Rr (hlf 8 (by omega) (by omega))).trans R7
  clear Fr Or Rr F7 O7
  rw [stmt_s_lcd_write]
  simp only [reduceCtorEq, if_false, UART_SendString_out, LCD4_clear, LCD4_write_string]
  -- statement 9
  rw [pass_from_succ]
  dsimp only
  have h := fire_checking (q (0 + 1 + 1 + 1 + 1 + 1 + 1 + 1 + 1 + 1))
    { x8 with out := x8.out ++ [Event.lcd_write_string (cstr str_Checking)] } S8
  dsimp only at h
  obtain ⟨S9, Fr, Or, -, Rr, -⟩ := h
  generalize fire (q (0 + 1 + 1 + 1 + 1 + 1 + 1 + 1 + 1 + 1))
    { x8 with out := x8.out ++ [Event.lcd_write_string (cstr str_Checking)] } = x9 at S9 Fr Or Rr ⊢
  have F9 : x9.sensor_flag = 0 := Fr.trans F8
  have O9 := Or
  rw [O8] at O9
  have R9 : x9.string_ready = 0 := (Rr (hlf 9 (by omega) (by omega))).trans R8
  clear Fr Or Rr F8 O8
  rw [stmt_s_state2]
  simp only [reduceCtorEq, if_false, UART_SendString_out, LCD4_clear, LCD4_write_string]
  -- statement 10
  rw [pass_from_succ]
  dsimp only
  have h := fire_checking (q (0 + 1 + 1 + 1 + 1 + 1 + 1 + 1 + 1 + 1 + 1))
    { x9 with state := STATE_CHECKING } rfl
  dsimp only at h
  obtain ⟨S10, Fr, Or, -, Rr, -⟩ := h
  generalize fire (q (0 + 1 + 1 + 1 + 1 + 1 + 1 + 1 + 1 + 1 + 1))
    { x9 with state := STATE_CHECKING } = x10 at S10 Fr Or Rr ⊢
  have F10 : x10.sensor_flag = 0 := Fr.trans F9
  have O10 := Or
  rw [O9] at O10
  have R10 : x10.string_ready = 0 := (Rr (hlf 10 (by omega) (by omega))).trans R9
  clear Fr Or Rr F9 O9
  rw [stmt_s_timer2]
  simp only [reduceCtorEq, if_false, UART_SendString_out, LCD4_clear, LCD4_write_string]
  -- line 139
  rw [pass_from_succ]
  dsimp only
  have h := fire_checking (q (0 + 1 + 1 + 1 + 1 + 1 + 1 + 1 + 1 + 1 + 1 + 1))
    { x10 with state_timer := x10.tick_10ms } S10
  dsimp only at h
  obtain ⟨S11, Fr, Or, Tr, Rr, Kr⟩ := h
  have K11 := Kr (htick 11 (by omega) (by omega))
  generalize fire (q (0 + 1 + 1 + 1 + 1 + 1 + 1 + 1 + 1 + 1 + 1 + 1))
    { x10 with state_timer := x10.tick_10ms } = x11 at S11 Fr Or Tr Rr K11 ⊢
  have F11 : x11.sensor_flag = 0 := Fr.trans F10
  have O11 := Or
  rw [O10] at O11
  have R11 : x11.string_ready = 0 := (Rr (hlf 11 (by omega) (by omega))).trans R10
  have T11 : x11.state_timer = x11.tick_10ms := by rw [Tr, K11]
  clear Fr Or Rr Tr Kr K11 F10 O10 R10
  have hu : ¬ (x11.string_ready ≠ 0) := by rw [R11]; exact fun h => h rfl
  rw [stmt_u_test, if_neg hu]
  simp only [reduceCtorEq, if_false]
  -- line 173
  rw [pass_from_succ]
  dsimp only
  obtain ⟨S12, Fr, Or, Tr, -, Kr⟩ := fire_checking
    (q (0 + 1 + 1 + 1 + 1 + 1 + 1 + 1 + 1 + 1 + 1 + 1 + 1)) x11 S11
  have K12 := Kr (htick 12 (by omega) (by omega))
  generalize fire (q (0 + 1 + 1 + 1 + 1 + 1 + 1 + 1 + 1 + 1 + 1 + 1 + 1)) x11 = x12
    at S12 Fr Or Tr K12 ⊢
  have F12 : x12.sensor_flag = 0 := Fr.trans F11
  have O12 := Or
  rw [O11] at O12
  have T12 : x12.state_timer = x12.tick_10ms := by rw [Tr, K12, T11]
  clear Fr Or Tr Kr K12 F11 O11 T11
  have hc : ¬ (x12.state = STATE_CHECKING ∧ u16_sub x12.tick_10ms x12.state_timer > 1500) := by
    rw [T12, u16_sub_self]
    exact fun h => absurd h.2 (by decide)
  rw [stmt_t_check_test, if_neg hc]
  simp only [reduceCtorEq, if_false]
  -- lines 180-181
  rw [pass_from_succ]
  dsimp only
  obtain ⟨S13, Fr, Or, Tr, -, Kr⟩ := fire_checking
    (q (0 + 1 + 1 + 1 + 1 + 1 + 1 + 1 + 1 + 1 + 1 + 1 + 1 + 1)) x12 S12
  have K13 := Kr (htick 13 (by omega) (by omega))
  generalize fire (q (0 + 1 + 1 + 1 + 1 + 1 + 1 + 1 + 1 + 1 + 1 + 1 + 1 + 1)) x12 = x13
    at S13 Fr Or Tr K13 ⊢
  have F13 : x13.sensor_flag = 0 := Fr.trans F12
  have O13 := Or
  rw [O12] at O13
  have T13 : x13.state_timer = x13.tick_10ms := by rw [Tr, K13, T12]
  have hr : ¬ ((x13.state = STATE_RESULT_OK ∨ x13.state = STATE_RESULT_FAIL) ∧
      u16_sub x13.tick_10ms x13.state_timer > 500) := by
    rw [S13]
    exact fun h => h.1.elim (fun e => absurd e (by decide)) (fun e => absurd e (by decide))
  rw [stmt_t_result_test, if_neg hr]
  simp only [if_true]
  refine ⟨x13, rfl, S13, F13, T13, ?_⟩
  rw [O13]
  simp [line]

/-- C4, as stated, fails for a pass during which interrupts are taken.  From the Idle state
with the Sensor Flag set that a sensor interrupt leaves after power-on: when the line
"RUOK" is received while "NG" and "CK" are being sent, the same pass also sends "CF"; when
the line "F" is received while the display is written, the same pass ends in ResultFail;
when a timer interrupt is taken after the snapshot of line 135, `state_timer` is not the
tick count at the end of the pass; and when a sensor interrupt is taken between lines 117
and 118, the Sensor Flag is set at the end of the pass. -/
theorem trigger_pass_acts_on_command :
    (ISR_INT0_vect power_on).state = STATE_IDLE ∧
    (ISR_INT0_vect power_on).sensor_flag ≠ 0 ∧
    sent_lines (serial (pass ex_q_RUOK_during_send (ISR_INT0_vect power_on)).out)
      = [cstr str_NG, cstr str_CK, cstr str_CF] ∧
    (pass ex_q_F_during_display (ISR_INT0_vect power_on)).state = STATE_RESULT_FAIL ∧
    (pass ex_q_tick_after_snapshot (ISR_INT0_vect power_on)).state_timer
      ≠ (pass ex_q_tick_after_snapshot (ISR_INT0_vect power_on)).tick_10ms ∧
    (pass ex_q_sensor_race (ISR_INT0_vect power_on)).sensor_flag ≠ 0 := by
  decide

/-- C4, amended (sensor trigger starts a check). From a state with System State Idle and
the Sensor Flag set, take one pass of the main loop with any interrupts between its
statements, provided that no line feed is received after the protected reset of lines
122-126 and before the test of the Ready Flag at line 139, that no timer interrupt is taken
after the snapshot of line 135, and that no sensor interrupt is taken between lines 117 and
118.  The pass ends in Checking with the Sensor Flag clear and `state_timer` equal to the
tick count; what it sends to the sinks is the line "NG", the line "CK", a display clear and
"Checking...", in that order and nothing else.  When no interrupt at all is taken the pass
is the `SENSOR` block alone. -/
theorem sensor_trigger_starts_check (q : Nat → List Irq) (m : Machine)
    (_hidle : m.state = STATE_IDLE) (hsf : m.sensor_flag ≠ 0)
    (hlf : ∀ k, 5 ≤ k → k ≤ 11 → Irq.rx 10 ∉ q k)
    (htick : ∀ k, 11 ≤ k → k ≤ 13 → Irq.tick ∉ q k)
    (hrace : Irq.sensor ∉ q 2) :
    (pass q m).state = STATE_CHECKING ∧
    (pass q m).sensor_flag = 0 ∧
    (pass q m).state_timer = (pass q m).tick_10ms ∧
    (pass q m).out = m.out ++ ((line str_NG ++ line str_CK).map Event.tx
        ++ [Event.lcd_clear, Event.lcd_write_string (cstr str_Checking)]) ∧
    serial (pass q m).out = serial m.out ++ (line str_NG ++ line str_CK) ∧
    display (pass q m).out
      = display m.out ++ [Event.lcd_clear, Event.lcd_write_string (cstr str_Checking)] ∧
    pass no_irq m = sensor_block m := by
  obtain ⟨x, hx, h1, h2, h3, h4⟩ := pass_trigger q m hsf hlf htick hrace
  rw [hx]
  refine ⟨h1, h2, h3, h4, ?_, ?_, ?_⟩
  · rw [h4, serial_append, serial_append, serial_map_tx]
    simp [serial]
  · rw [h4, display_append, display_append, display_map_tx]
    simp [display]
  · rw [pass_uninterrupted, main_loop_sensor m hsf]

/-- Witness for the amended C4: the sensor triggers while a received "RUOK" line is
pending, and the pass is interrupted by timer, sensor and byte-received interrupts. -/
theorem sensor_trigger_starts_check_witness :
    (pass ex_q_busy ex_triggered_with_RUOK).state = STATE_CHECKING ∧
    serial (pass ex_q_busy ex_triggered_with_RUOK).out
      = serial ex_triggered_with_RUOK.out ++ (line str_NG ++ line str_CK) :=
  have h := sensor_trigger_starts_check ex_q_busy ex_triggered_with_RUOK (by decide)
    (by decide)
    (fun k h1 h2 => by interval_cases k <;> decide)
    (fun k h1 h2 => by interval_cases k <;> decide)
    (by decide)
  ⟨h.1, h.2.2.2.2.1⟩

/-- C18 fails in the program: a sensor interrupt taken between line 117 (`sensor_flag = 0`)
and line 118 (`state = STATE_CHECKING`) of the pass that handles a trigger still finds the
System State Idle and the Sensor Flag clear, so it sets the flag again.  After that pass
the Sensor Flag is set while the System State is Checking, the `SENSOR` block is not the
identity there, and the next pass, with no interrupt at all, restarts the check and sends
"NG" and "CK" a second time. -/
theorem sensor_race_restarts_check :
    (ISR_INT0_vect power_on).state = STATE_IDLE ∧
    (ISR_INT0_vect power_on).sensor_flag ≠ 0 ∧
    (pass ex_q_sensor_race (ISR_INT0_vect power_on)).sensor_flag ≠ 0 ∧
    (pass ex_q_sensor_race (ISR_INT0_vect power_on)).state = STATE_CHECKING ∧
    sensor_block (pass ex_q_sensor_race (ISR_INT0_vect power_on))
      ≠ pass ex_q_sensor_race (ISR_INT0_vect power_on) ∧
    sent_lines (serial (pass ex_q_sensor_race (ISR_INT0_vect power_on)).out)
      = [cstr str_NG, cstr str_CK] ∧
    sent_lines (serial
      (pass no_irq (pass ex_q_sensor_race (ISR_INT0_vect power_on))).out)
      = [cstr str_NG, cstr str_CK, cstr str_NG, cstr str_CK] := by
  decide

/-! ## The end-to-end scenario -/

/-- A pass of the main loop with both flags clear and no time-out due changes nothing. -/
theorem main_loop_quiet (m : Machine) (hsf : m.sensor_flag = 0) (hrd : m.string_ready = 0)
    (hc : m.state ≠ STATE_CHECKING ∨ u16_sub m.tick_10ms m.state_timer ≤ 1500)
    (hr : m.state = STATE_IDLE ∨ m.state = STATE_CHECKING ∨
      u16_sub m.tick_10ms m.state_timer ≤ 500) :
    main_loop m = m := by
  unfold main_loop
  rw [sensor_block_clear m hsf, uart_block_clear m hrd, check_timeout_block_skip m hc,
    result_timeout_block_skip m hr]

/-- The byte-received handler sets the Ready Flag on a line feed only. -/
theorem ISR_USART_RXC_vect_ready (c : Nat) (m : Machine) (hc : c ≠ 10) :
    (ISR_USART_RXC_vect c m).string_ready = m.string_ready := by
  unfold ISR_USART_RXC_vect
  split_ifs <;> rfl

theorem same_receiver_trans (a b c : Machine) (h1 : same_receiver a b)
    (h2 : same_receiver b c) : same_receiver a c :=
  ⟨h1.1.trans h2.1, h1.2.1.trans h2.2.1, h1.2.2.trans h2.2.2⟩

/-- The elapsed time after `g` more timer interrupts. -/
theorem u16_sub_add_ticks (t r g : Nat) :
    u16_sub (if g = 0 then t else (t + g) % 65536) r = (u16_sub t r + g) % 65536 := by
  unfold u16_sub
  split_ifs with h
  · subst h
    simp
  · omega

/-- While a check waits for its answer: interrupts other than the sensor's and passes of
the main loop, with no line feed received and the time-out not yet due, leave the System
State at Checking and the flags clear, send nothing, and the receiver sees the bytes as
if no pass had run. -/
theorem run_checking_quiet (a : List Step) (m : Machine)
    (hst : m.state = STATE_CHECKING) (hsf : m.sensor_flag = 0) (hrd : m.string_ready = 0)
    (ha : ∀ s ∈ a, s ≠ Step.sensor) (hlf : 10 ∉ rx_bytes a)
    (ht : u16_sub m.tick_10ms m.state_timer + tick_count a ≤ 1500) :
    (run a m).state = STATE_CHECKING ∧ (run a m).sensor_flag = 0 ∧
    (run a m).string_ready = 0 ∧ (run a m).out = m.out ∧
    u16_sub (run a m).tick_10ms (run a m).state_timer
      = u16_sub m.tick_10ms m.state_timer + tick_count a ∧
    same_receiver (run a m) (receive (rx_bytes a) m) := by
  induction a generalizing m with
  | nil => exact ⟨hst, hsf, hrd, rfl, rfl, rfl, rfl, rfl⟩
  | cons s a ih =>
    have ha2 : ∀ s ∈ a, s ≠ Step.sensor := fun s hs => ha s (List.mem_cons_of_mem _ hs)
    cases s with
    | rx c =>
      have hc : c ≠ 10 := fun h => hlf (by rw [h]; exact List.mem_cons_self _ _)
      have hlf2 : 10 ∉ rx_bytes a := fun h => hlf (List.mem_cons_of_mem _ h)
      obtain ⟨f1, f2, f3, f4, f5⟩ := receive_frame [c] m
      have hstep : step (Step.rx c) m = receive [c] m := rfl
      have hr2 : (receive [c] m).string_ready = 0 :=
        (ISR_USART_RXC_vect_ready c m hc).trans hrd
      have h := ih (step (Step.rx c) m) (by rw [hstep, f3]; exact hst)
        (by rw [hstep, f1]; exact hsf) (by rw [hstep]; exact hr2) ha2 hlf2
        (by rw [hstep, f2, f4]; exact ht)
      rw [hstep, f2, f4, f5] at h
      exact h
    | sensor => exact absurd rfl (ha Step.sensor (List.mem_cons_self _ _))
    | tick =>
      have ht2 : u16_sub m.tick_10ms m.state_timer + (tick_count a + 1) ≤ 1500 := ht
      have he : u16_sub ((m.tick_10ms + 1) % 65536) m.state_timer
          = u16_sub m.tick_10ms m.state_timer + 1 := by
        rw [u16_sub_succ]
        exact Nat.mod_eq_of_lt (by omega)
      have h := ih (step Step.tick m) hst hsf hrd ha2 hlf
        (by
          show u16_sub ((m.tick_10ms + 1) % 65536) m.state_timer + tick_count a ≤ 1500
          rw [he]; omega)
      obtain ⟨h1, h2, h3, h4, h5, h6⟩ := h
      refine ⟨h1, h2, h3, h4, ?_, ?_⟩
      · rw [run_cons, h5]
        show u16_sub ((m.tick_10ms + 1) % 65536) m.state_timer + tick_count a
          = u16_sub m.tick_10ms m.state_timer + (tick_count a + 1)
        rw [he]; omega
      · exact same_receiver_trans _ _ _ h6
          (receive_congr (rx_bytes a) (step Step.tick m) m ⟨rfl, rfl, rfl⟩)
    | loop =>
      have hq : step Step.loop m = m :=
        main_loop_quiet m hsf hrd (Or.inr (by omega)) (Or.inr (Or.inl hst))
      rw [run_cons, hq]
      exact ih m hst hsf hrd ha2 hlf ht

/-- While the terminal is idle with both flags clear, timer interrupts and passes of the
main loop change neither the System State nor the output. -/
theorem run_rounds_idle (gaps : List Nat) (m : Machine)
    (hst : m.state = STATE_IDLE) (hsf : m.sensor_flag = 0) (hrd : m.string_ready = 0) :
    (run (rounds gaps) m).state = STATE_IDLE ∧ (run (rounds gaps) m).out = m.out := by
  induction gaps generalizing m with
  | nil => exact ⟨hst, rfl⟩
  | cons g gs ih =>
    show (run (List.replicate g Step.tick ++ Step.loop :: rounds gs) m).state = _ ∧
      (run (List.replicate g Step.tick ++ Step.loop :: rounds gs) m).out = _
    rw [run_append, run_cons, run_ticks]
    have hq : step Step.loop
        { m with tick_10ms := if g = 0 then m.tick_10ms else (m.tick_10ms + g) % 65536 }
        = { m with tick_10ms := if g = 0 then m.tick_10ms else (m.tick_10ms + g) % 65536 } :=
      main_loop_quiet _ hsf hrd (Or.inl (by rw [hst]; decide)) (Or.inl hst)
    rw [hq]
    exact ih _ hst hsf hrd

/-- The display hold, the main loop running between the timer interrupts: when a pass of
the main loop runs at least once every 65035 timer interrupts, the first pass at which more
than 500 ticks have elapsed returns to Idle, showing "System Ready" and sending "RD"; the
passes before it and after it change nothing. -/
theorem run_rounds_hold (gaps : List Nat) (m : Machine)
    (hst : m.state = STATE_RESULT_OK ∨ m.state = STATE_RESULT_FAIL)
    (hsf : m.sensor_flag = 0) (hrd : m.string_ready = 0)
    (he : u16_sub m.tick_10ms m.state_timer ≤ 500)
    (hgap : ∀ g ∈ gaps, g ≤ 65035)
    (hsum : u16_sub m.tick_10ms m.state_timer + gaps.sum > 500) :
    (run (rounds gaps) m).state = STATE_IDLE ∧
    (run (rounds gaps) m).out
      = m.out ++ ([Event.lcd_clear, Event.lcd_write_string (cstr str_System_Ready)]
          ++ (line str_RD).map Event.tx) := by
  induction gaps generalizing m with
  | nil =>
    simp only [List.sum_nil] at hsum
    omega
  | cons g gs ih =>
    have hg : g ≤ 65035 := hgap g (List.mem_cons_self _ _)
    have hgap2 : ∀ g ∈ gs, g ≤ 65035 := fun x hx => hgap x (List.mem_cons_of_mem _ hx)
    have hs : u16_sub m.tick_10ms m.state_timer + (g + gs.sum) > 500 := by
      simpa [List.sum_cons] using hsum
    show (run (List.replicate g Step.tick ++ Step.loop :: rounds gs) m).state = _ ∧
      (run (List.replicate g Step.tick ++ Step.loop :: rounds gs) m).out = _
    rw [run_append, run_cons, run_ticks]
    have hel : u16_sub (if g = 0 then m.tick_10ms else (m.tick_10ms + g) % 65536)
        m.state_timer = u16_sub m.tick_10ms m.state_timer + g := by
      rw [u16_sub_add_ticks]
      exact Nat.mod_eq_of_lt (by omega)
    by_cases hfire : u16_sub m.tick_10ms m.state_timer + g > 500
    · have hq : step Step.loop
          { m with tick_10ms := if g = 0 then m.tick_10ms else (m.tick_10ms + g) % 65536 }
          = _ := main_loop_hold _ hst hsf hrd (by
            show u16_sub (if g = 0 then m.tick_10ms else (m.tick_10ms + g) % 65536)
              m.state_timer > 500
            rw [hel]; exact hfire)
      rw [hq]
      have h := run_rounds_idle gs
        { { m with tick_10ms := if g = 0 then m.tick_10ms else (m.tick_10ms + g) % 65536 }
            with state := STATE_IDLE,
                 out := m.out ++ ([Event.lcd_clear,
                    Event.lcd_write_string (cstr str_System_Ready)]
                    ++ (line str_RD).map Event.tx) } rfl hsf hrd
      exact h
    · have hq : step Step.loop
          { m with tick_10ms := if g = 0 then m.tick_10ms else (m.tick_10ms + g) % 65536 }
          = { m with tick_10ms := if g = 0 then m.tick_10ms else (m.tick_10ms + g) % 65536 } :=
        main_loop_quiet _ hsf hrd
          (Or.inl (by
            show m.state ≠ STATE_CHECKING
            rcases hst with h | h <;> rw [h] <;> decide))
          (Or.inr (Or.inr (by
            show u16_sub (if g = 0 then m.tick_10ms else (m.tick_10ms + g) % 65536)
              m.state_timer ≤ 500
            rw [hel]; omega)))
      rw [hq]
      have h := ih
        { m with tick_10ms := if g = 0 then m.tick_10ms else (m.tick_10ms + g) % 65536 }
        hst hsf hrd
        (by
          show u16_sub (if g = 0 then m.tick_10ms else (m.tick_10ms + g) % 65536)
            m.state_timer ≤ 500
          rw [hel]; omega)
        hgap2
        (by
          show u16_sub (if g = 0 then m.tick_10ms else (m.tick_10ms + g) % 65536)
            m.state_timer + gs.sum > 500
          rw [hel]; omega)
      exact h

theorem rx_bytes_ticks (j : Nat) : rx_bytes (List.replicate j Step.tick) = [] := by
  induction j with
  | zero => rfl
  | succ j ih => exact ih

/-- C13 (end-to-end scenario). From power-on, for every payload `p` of at most 30 bytes
without NUL, carriage return or line feed: a sensor interrupt and a pass of the main loop;
then the bytes 'T', `p`, CR and LF received among at most 1500 timer interrupts, passes of
the main loop running in between, and after the line feed the pass that handles the line;
then more than 500 timer interrupts, a pass of the main loop running after every `g` of
them for the successive `g` of `gaps`, at least once every 65035 timer interrupts.  The
System State has been Idle, Checking, ResultOk and is Idle again; the lines transmitted are
"NG", "CK", "RD"; and the display calls are clear, "Checking...", clear, "Welcome",
`LCD4_gotoxy(2,1)`, `p`, clear, "System Ready". -/
theorem end_to_end (p : List Nat) (a : List Step) (j : Nat) (gaps : List Nat)
    (hp : p.length ≤ 30) (hclean : ∀ b ∈ p, b ≠ 0 ∧ b ≠ 13 ∧ b ≠ 10)
    (ha : ∀ s ∈ a, s ≠ Step.sensor) (hbytes : rx_bytes a = 84 :: p ++ [13])
    (hticks : tick_count a + j ≤ 1500)
    (hgap : ∀ g ∈ gaps, g ≤ 65035) (hsum : gaps.sum > 500) :
    power_on.state = STATE_IDLE ∧
    (run [Step.sensor, Step.loop] power_on).state = STATE_CHECKING ∧
    (run ([Step.sensor, Step.loop] ++ a) power_on).state = STATE_CHECKING ∧
    (run ([Step.sensor, Step.loop] ++ a ++ Step.rx 10 :: List.replicate j Step.tick
      ++ [Step.loop]) power_on).state = STATE_RESULT_OK ∧
    (run ([Step.sensor, Step.loop] ++ a ++ Step.rx 10 :: List.replicate j Step.tick
      ++ [Step.loop] ++ rounds gaps) power_on).state = STATE_IDLE ∧
    (run ([Step.sensor, Step.loop] ++ a ++ Step.rx 10 :: List.replicate j Step.tick
      ++ [Step.loop] ++ rounds gaps) power_on).out
      = (line str_NG ++ line str_CK).map Event.tx
        ++ [Event.lcd_clear, Event.lcd_write_string (cstr str_Checking),
            Event.lcd_clear, Event.lcd_write_string (cstr str_Welcome),
            Event.lcd_gotoxy 2 1, Event.lcd_write_string p,
            Event.lcd_clear, Event.lcd_write_string (cstr str_System_Ready)]
        ++ (line str_RD).map Event.tx ∧
    sent_lines (serial (run ([Step.sensor, Step.loop] ++ a
      ++ Step.rx 10 :: List.replicate j Step.tick ++ [Step.loop] ++ rounds gaps) power_on).out)
      = [cstr str_NG, cstr str_CK, cstr str_RD] ∧
    display (run ([Step.sensor, Step.loop] ++ a
      ++ Step.rx 10 :: List.replicate j Step.tick ++ [Step.loop] ++ rounds gaps) power_on).out
      = [Event.lcd_clear, Event.lcd_write_string (cstr str_Checking),
         Event.lcd_clear, Event.lcd_write_string (cstr str_Welcome),
         Event.lcd_gotoxy 2 1, Event.lcd_write_string p,
         Event.lcd_clear, Event.lcd_write_string (cstr str_System_Ready)] := by
  have hA1 : (run [Step.sensor, Step.loop] power_on).state = STATE_CHECKING := by decide
  have hA2 : (run [Step.sensor, Step.loop] power_on).sensor_flag = 0 := by decide
  have hA3 : (run [Step.sensor, Step.loop] power_on).rx_index = 0 := by decide
  have hA4 : (run [Step.sensor, Step.loop] power_on).rx_buffer.length = BUFFER_SIZE := by
    decide
  have hA5 : (run [Step.sensor, Step.loop] power_on).out
      = (line str_NG ++ line str_CK).map Event.tx
        ++ [Event.lcd_clear, Event.lcd_write_string (cstr str_Checking)] := by decide
  have hA6 : (run [Step.sensor, Step.loop] power_on).string_ready = 0 := by decide
  have hA7 : u16_sub (run [Step.sensor, Step.loop] power_on).tick_10ms
      (run [Step.sensor, Step.loop] power_on).state_timer = 0 := by decide
  -- the bytes up to the carriage return, among timer interrupts and passes
  have hlf : 10 ∉ rx_bytes a := by
    rw [hbytes]
    intro h
    rcases List.mem_cons.mp h with h | h
    · exact absurd h (by decide)
    · rcases List.mem_append.mp h with h | h
      · exact (hclean 10 h).2.2 rfl
      · exact absurd h (by decide)
  obtain ⟨b1, b2, _, b4, _, b6⟩ := run_checking_quiet a (run [Step.sensor, Step.loop] power_on)
    hA1 hA2 hA6 ha hlf (by rw [hA7]; omega)
  rw [hbytes] at b6
  -- the line feed and the timer interrupts before the pass
  have hnl : ∀ s ∈ Step.rx 10 :: List.replicate j Step.tick, s ≠ Step.loop := by
    intro s hs
    rcases List.mem_cons.mp hs with h | h
    · rw [h]; decide
    · rw [(List.mem_replicate.mp h).2]; decide
  have hrt : ∀ s ∈ Step.rx 10 :: List.replicate j Step.tick, rx_or_tick s = true := by
    intro s hs
    rcases List.mem_cons.mp hs with h | h
    · rw [h]; rfl
    · rw [(List.mem_replicate.mp h).2]; rfl
  obtain ⟨c1, c2, c3, c4⟩ := run_rx_tick_frame _ hrt (run a (run [Step.sensor, Step.loop] power_on))
  have c5 := run_no_loop _ hnl (run a (run [Step.sensor, Step.loop] power_on))
  have hrb : rx_bytes (Step.rx 10 :: List.replicate j Step.tick) = [10] := by
    show 10 :: rx_bytes (List.replicate j Step.tick) = [10]
    rw [rx_bytes_ticks]
  rw [hrb] at c5
  have c6 := same_receiver_trans _ _ _ c5 (receive_congr [10] _ _ b6)
  rw [← receive_append] at c6
  obtain ⟨t1, t2⟩ := receive_T_line (run [Step.sensor, Step.loop] power_on) p hA4 hA3 hp hclean
  have hl : (84 :: p ++ [13]) ++ [10] = 84 :: p ++ [13, 10] := by simp
  rw [hl] at c6
  obtain ⟨r1, _, r3⟩ := c6
  have hB := main_loop_success
    (run (Step.rx 10 :: List.replicate j Step.tick)
      (run a (run [Step.sensor, Step.loop] power_on))) p
    (by rw [c1, b1]) (by rw [c2, b2]) (by rw [r3, t1]; decide) (by rw [r1, t2])
  have hrun2 : run ([Step.sensor, Step.loop] ++ a ++ Step.rx 10 :: List.replicate j Step.tick
      ++ [Step.loop]) power_on
      = main_loop (run (Step.rx 10 :: List.replicate j Step.tick)
          (run a (run [Step.sensor, Step.loop] power_on))) := by
    rw [run_append, run_append, run_append]; rfl
  -- the display hold
  have hD := run_rounds_hold gaps
    (main_loop (run (Step.rx 10 :: List.replicate j Step.tick)
      (run a (run [Step.sensor, Step.loop] power_on))))
    (by rw [hB]; exact Or.inl rfl) (by rw [hB]; exact c2.trans b2) (by rw [hB])
    (by rw [hB]; show u16_sub _ _ ≤ 500; rw [u16_sub_self]; omega)
    hgap (by rw [hB]; show u16_sub _ _ + _ > 500; rw [u16_sub_self]; omega)
  have hrun3 : run ([Step.sensor, Step.loop] ++ a ++ Step.rx 10 :: List.replicate j Step.tick
      ++ [Step.loop] ++ rounds gaps) power_on
      = run (rounds gaps) (main_loop (run (Step.rx 10 :: List.replicate j Step.tick)
          (run a (run [Step.sensor, Step.loop] power_on)))) := by
    rw [run_append, hrun2]
  have hout : (run ([Step.sensor, Step.loop] ++ a ++ Step.rx 10 :: List.replicate j Step.tick
      ++ [Step.loop] ++ rounds gaps) power_on).out
      = (line str_NG ++ line str_CK).map Event.tx
        ++ [Event.lcd_clear, Event.lcd_write_string (cstr str_Checking),
            Event.lcd_clear, Event.lcd_write_string (cstr str_Welcome),
            Event.lcd_gotoxy 2 1, Event.lcd_write_string p,
            Event.lcd_clear, Event.lcd_write_string (cstr str_System_Ready)]
        ++ (line str_RD).map Event.tx := by
    rw [hrun3, hD.2, hB]
    simp only [c4, b4, hA5]
    simp
  refine ⟨rfl, hA1, ?_, ?_, ?_, hout, ?_, ?_⟩
  · rw [run_append]; exact b1
  · rw [hrun2, hB]
  · rw [hrun3]; exact hD.1
  · rw [hout]
    simp only [serial_append, serial_map_tx]
    rfl
  · rw [hout]
    simp only [display_append, display_map_tx]
    rfl

/-- Witness for C13: the payload "bob"; timer interrupts and passes of the main loop among
its bytes; and 65536 timer interrupts of display hold with a pass of the main loop after
each of them. -/
theorem end_to_end_witness :
    (run ([Step.sensor, Step.loop]
      ++ [Step.rx 84, Step.tick, Step.loop, Step.rx 98, Step.rx 111, Step.tick, Step.rx 98,
          Step.loop, Step.rx 13, Step.tick]
      ++ Step.rx 10 :: List.replicate 2 Step.tick
      ++ [Step.loop] ++ rounds (List.replicate 65536 1)) power_on).state = STATE_IDLE ∧
    sent_lines (serial (run ([Step.sensor, Step.loop]
      ++ [Step.rx 84, Step.tick, Step.loop, Step.rx 98, Step.rx 111, Step.tick, Step.rx 98,
          Step.loop, Step.rx 13, Step.tick]
      ++ Step.rx 10 :: List.replicate 2 Step.tick
      ++ [Step.loop] ++ rounds (List.replicate 65536 1)) power_on).out)
      = [cstr str_NG, cstr str_CK, cstr str_RD] :=
  have h := end_to_end [98, 111, 98]
    [Step.rx 84, Step.tick, Step.loop, Step.rx 98, Step.rx 111, Step.tick, Step.rx 98,
      Step.loop, Step.rx 13, Step.tick] 2 (List.replicate 65536 1)
    (by decide) (by decide) (by decide) (by decide) (by decide)
    (fun g hg => by rw [(List.mem_replicate.mp hg).2]; decide)
    (by rw [List.sum_replicate]; decide)
  ⟨h.2.2.2.2.1, h.2.2.2.2.2.2.1⟩

/-! ## The line in the buffer and the passes of the main loop -/

theorem kept_length_le (w : List Nat) : (kept w).length ≤ 31 := by
  unfold kept
  simp [List.length_take]

/-- Writing the terminator at cell `k` leaves the string made of the cells before it. -/
theorem cstr_set_zero_take (l : List Nat) (k : Nat) (hk : k < l.length) :
    cstr (l.set k 0) = cstr (l.take k) := by
  induction l generalizing k with
  | nil => simp at hk
  | cons a l ih =>
    cases k with
    | zero => simp [cstr]
    | succ k =>
      have := ih k (by simpa using hk)
      by_cases ha : a = 0
      · simp [cstr, List.takeWhile_cons, ha]
      · simp only [cstr] at this
        simp [cstr, List.takeWhile_cons, ha, this]

/-- One byte other than a line feed extends the kept bytes of the line in the buffer. -/
theorem ISR_USART_RXC_vect_kept (c : Nat) (m : Machine) (bs : List Nat) (hb : rx_bounds m)
    (hc : c ≠ 10) (h : m.rx_buffer.take m.rx_index = kept bs) :
    (ISR_USART_RXC_vect c m).rx_buffer.take (ISR_USART_RXC_vect c m).rx_index
      = kept (bs ++ [c]) := by
  obtain ⟨h32, hi, _⟩ := hb
  have h32 : m.rx_buffer.length = 32 := h32
  have hlen : (kept bs).length = m.rx_index := by
    rw [← h, List.length_take]
    omega
  unfold kept at h hlen ⊢
  rw [List.filter_append]
  unfold ISR_USART_RXC_vect
  split_ifs with h13 hlt
  · subst h13
    simpa using h
  · have hf : List.filter (fun b => b != 13) [c] = [c] := by simp [h13]
    have hlt2 : m.rx_index < 31 := hlt
    rw [hf]
    show List.take ((m.rx_index + 1) % 256) (m.rx_buffer.set m.rx_index c) = _
    rw [Nat.mod_eq_of_lt (by omega), take_set_succ _ _ _ (by omega), h]
    rw [List.length_take] at hlen
    have hF : (List.filter (fun b => b != 13) bs).length = m.rx_index := by omega
    rw [List.take_of_length_le (by omega), List.take_of_length_le (by simp; omega)]
  · have hf : List.filter (fun b => b != 13) [c] = [c] := by simp [h13]
    have hge : ¬ m.rx_index < 31 := hlt
    rw [hf, h]
    rw [List.length_take] at hlen
    rw [List.take_append_of_le_length (by omega)]

/-- A pass of the main loop that starts no check leaves `rx_index` as it is, and leaves
`rx_buffer` as it is when it has no line to consume. -/
theorem main_loop_receiver (m : Machine) (hsf : m.sensor_flag = 0) :
    (main_loop m).rx_index = m.rx_index ∧
    (m.string_ready = 0 → (main_loop m).rx_buffer = m.rx_buffer) := by
  obtain ⟨_, _, ui, _, _⟩ := uart_block_frame m
  obtain ⟨_, _, ci, _, cb⟩ := check_timeout_block_frame (uart_block m)
  obtain ⟨_, _, ri, _, rb, _⟩ := result_timeout_block_frame (check_timeout_block (uart_block m))
  unfold main_loop
  rw [sensor_block_clear m hsf]
  refine ⟨by rw [ri, ci, ui], fun hrd => ?_⟩
  rw [rb, cb, uart_block_clear m hrd]

/-- A pass of the main loop leaves `rx_index` at 0 when it was 0. -/
theorem main_loop_index_zero (m : Machine) (h0 : m.rx_index = 0) :
    (main_loop m).rx_index = 0 := by
  by_cases hsf : m.sensor_flag = 0
  · rw [(main_loop_receiver m hsf).1, h0]
  · rw [main_loop_sensor m hsf, sensor_block_set m hsf]

/-- While a line is being received and left alone by the main loop, the cells of
`rx_buffer` below `rx_index` hold the kept bytes of what has been received of it. -/
theorem run_undisturbed (mid : List Step) (m : Machine) (bs : List Nat) (hb : rx_bounds m)
    (hacc : m.rx_buffer.take m.rx_index = kept bs)
    (hu : undisturbed mid m = true) (hLF : 10 ∉ rx_bytes mid) :
    rx_bounds (run mid m) ∧
    (run mid m).rx_buffer.take (run mid m).rx_index = kept (bs ++ rx_bytes mid) := by
  induction mid generalizing m bs with
  | nil =>
    refine ⟨hb, ?_⟩
    show m.rx_buffer.take m.rx_index = kept (bs ++ [])
    rw [List.append_nil]
    exact hacc
  | cons s mid ih =>
    have hb2 := rx_bounds_step s m hb
    cases s with
    | rx c =>
      have hc : c ≠ 10 := fun h => hLF (by rw [h]; exact List.mem_cons_self _ _)
      have hLF2 : 10 ∉ rx_bytes mid := fun h => hLF (List.mem_cons_of_mem _ h)
      have h := ih (step (Step.rx c) m) (bs ++ [c]) hb2
        (ISR_USART_RXC_vect_kept c m bs hb hc hacc) hu hLF2
      rw [List.append_assoc] at h
      exact h
    | sensor =>
      have hr : (step Step.sensor m).rx_buffer = m.rx_buffer ∧
          (step Step.sensor m).rx_index = m.rx_index := by
        show (ISR_INT0_vect m).rx_buffer = _ ∧ (ISR_INT0_vect m).rx_index = _
        unfold ISR_INT0_vect
        split_ifs <;> exact ⟨rfl, rfl⟩
      exact ih (step Step.sensor m) bs hb2 (by rw [hr.1, hr.2]; exact hacc) hu hLF
    | tick => exact ih (step Step.tick m) bs hb2 hacc hu hLF
    | loop =>
      have hu2 : (m.rx_index == 0 || (m.sensor_flag == 0 && m.string_ready == 0)) = true ∧
          undisturbed mid (main_loop m) = true := by
        have : ((m.rx_index == 0 || (m.sensor_flag == 0 && m.string_ready == 0))
            && undisturbed mid (main_loop m)) = true := hu
        simpa using this
      have hacc2 : (main_loop m).rx_buffer.take (main_loop m).rx_index = kept bs := by
        by_cases h0 : m.rx_index = 0
        · rw [main_loop_index_zero m h0, ← hacc, h0]
          simp
        · have hq : m.sensor_flag = 0 ∧ m.string_ready = 0 := by
            have := hu2.1
            simp [h0] at this
            exact this
          obtain ⟨r1, r2⟩ := main_loop_receiver m hq.1
          rw [r1, r2 hq.2]
          exact hacc
      exact ih (step Step.loop m) bs hb2 hacc2 hu2.2 hLF

/-- Timer interrupts, sensor interrupts and received carriage returns leave the receiver
as it is. -/
theorem run_idle_line (post : List Step) (m : Machine)
    (hpost : ∀ s ∈ post, s = Step.tick ∨ s = Step.rx 13 ∨ s = Step.sensor) :
    same_receiver (run post m) m := by
  induction post generalizing m with
  | nil => exact ⟨rfl, rfl, rfl⟩
  | cons s post ih =>
    have h := ih (step s m) (fun x hx => hpost x (List.mem_cons_of_mem _ hx))
    refine same_receiver_trans _ _ _ h ?_
    rcases hpost s (List.mem_cons_self _ _) with hs | hs | hs
    · rw [hs]; exact ⟨rfl, rfl, rfl⟩
    · rw [hs]; exact ⟨rfl, rfl, rfl⟩
    · rw [hs]
      show same_receiver (ISR_INT0_vect m) m
      unfold ISR_INT0_vect
      split_ifs <;> exact ⟨rfl, rfl, rfl⟩

/-- C15, as stated, fails in three ways.  Bytes of a following line that arrive before the
copy overwrite the unconsumed line: after the line "RUOK" and the bytes "AB" the string the
main loop copies is "ABOK", and the heartbeat is not acknowledged.  A check started while a
line is being received discards the bytes received so far: of the line "RUOK" whose bytes
"RU" precede the start of a check, the string copied is "OK".  And the consume of an
earlier line writes NUL into the first cell of a line being received: after the line "X",
the bytes "AB", a pass of the main loop, and the rest "C" of the line "ABC", the string
copied is empty. -/
theorem unconsumed_line_overwritten :
    cstr (receive [82, 85, 79, 75, 13, 10] power_on).rx_buffer = cstr str_RUOK ∧
    ex_overwritten.string_ready ≠ 0 ∧
    cstr (strcpy ex_overwritten.rx_buffer) = [65, 66, 79, 75] ∧
    cstr (strcpy ex_overwritten.rx_buffer) ≠ cstr str_RUOK ∧
    ex_overwritten.rx_buffer ≠ (receive [82, 85, 79, 75, 13, 10] power_on).rx_buffer ∧
    main_loop_out ex_overwritten = [] ∧
    (run [Step.rx 82, Step.rx 85, Step.sensor, Step.loop, Step.rx 79, Step.rx 75, Step.rx 10]
      power_on).string_ready ≠ 0 ∧
    cstr (strcpy (run [Step.rx 82, Step.rx 85, Step.sensor, Step.loop, Step.rx 79, Step.rx 75,
      Step.rx 10] power_on).rx_buffer) = [79, 75] ∧
    (run [Step.rx 88, Step.rx 10, Step.rx 65, Step.rx 66, Step.loop, Step.rx 67, Step.rx 10]
      power_on).string_ready ≠ 0 ∧
    cstr (strcpy (run [Step.rx 88, Step.rx 10, Step.rx 65, Step.rx 66, Step.loop, Step.rx 67,
      Step.rx 10] power_on).rx_buffer) = [] := by
  decide

/-- C15, amended (command integrity). From power-on, let the atomic steps `pre` be none,
or any steps that end with a received line feed; let the steps `mid` (interrupts and
passes of the main loop, in any order) deliver the bytes of the next line, no pass among
them consuming an earlier line or starting a check while bytes of the line are in the
buffer; let the line feed follow, and after it timer interrupts, sensor interrupts and
carriage returns only.  Then the Ready Flag is set, the string the main loop copies is the
first 31 bytes of the line without its carriage returns, read as a C string (exactly
those bytes when the line holds no NUL), and `rx_buffer` is as the line feed left it. -/
theorem command_integrity (pre mid post : List Step)
    (hpre : pre = [] ∨ ∃ pre0, pre = pre0 ++ [Step.rx 10])
    (hu : undisturbed mid (run pre power_on) = true)
    (hLF : 10 ∉ rx_bytes mid)
    (hpost : ∀ s ∈ post, s = Step.tick ∨ s = Step.rx 13 ∨ s = Step.sensor) :
    (run (pre ++ mid ++ Step.rx 10 :: post) power_on).string_ready ≠ 0 ∧
    cstr (strcpy (run (pre ++ mid ++ Step.rx 10 :: post) power_on).rx_buffer)
      = cstr (kept (rx_bytes mid)) ∧
    (0 ∉ rx_bytes mid →
      cstr (strcpy (run (pre ++ mid ++ Step.rx 10 :: post) power_on).rx_buffer)
        = kept (rx_bytes mid)) ∧
    (run (pre ++ mid ++ Step.rx 10 :: post) power_on).rx_buffer
      = (run (pre ++ mid ++ [Step.rx 10]) power_on).rx_buffer := by
  have h0 : (run pre power_on).rx_index = 0 := by
    rcases hpre with h | ⟨pre0, h⟩
    · rw [h]; rfl
    · rw [h, run_append]
      show (ISR_USART_RXC_vect 10 (run pre0 power_on)).rx_index = 0
      rw [ISR_USART_RXC_vect_lf]
  have hb := rx_bounds_run pre power_on rx_bounds_power_on
  obtain ⟨hb2, hacc⟩ := run_undisturbed mid (run pre power_on) [] hb
    (by rw [h0]; rfl) hu hLF
  rw [List.nil_append] at hacc
  have h32 : (run mid (run pre power_on)).rx_buffer.length = 32 := hb2.1
  have hi := hb2.2.1
  obtain ⟨p1, _, p3⟩ := run_idle_line post (step (Step.rx 10) (run mid (run pre power_on))) hpost
  have hrun : run (pre ++ mid ++ Step.rx 10 :: post) power_on
      = run post (step (Step.rx 10) (run mid (run pre power_on))) := by
    rw [run_append, run_append, run_cons]
  have hrun2 : run (pre ++ mid ++ [Step.rx 10]) power_on
      = step (Step.rx 10) (run mid (run pre power_on)) := by
    rw [run_append, run_append]; rfl
  have hlf : step (Step.rx 10) (run mid (run pre power_on))
      = ISR_USART_RXC_vect 10 (run mid (run pre power_on)) := rfl
  have hcopy : cstr (strcpy (run (pre ++ mid ++ Step.rx 10 :: post) power_on).rx_buffer)
      = cstr (kept (rx_bytes mid)) := by
    rw [hrun, p1, hlf, ISR_USART_RXC_vect_lf, cstr_strcpy]
    show cstr ((run mid (run pre power_on)).rx_buffer.set _ 0) = _
    rw [cstr_set_zero_take _ _ (by omega), hacc]
  refine ⟨?_, hcopy, fun hNUL => ?_, ?_⟩
  · rw [hrun, p3, hlf, ISR_USART_RXC_vect_lf]
    exact Nat.one_ne_zero
  · rw [hcopy]
    apply cstr_of_no_zero
    intro h
    exact hNUL (List.mem_of_mem_filter (List.mem_of_mem_take h))
  · rw [hrun, hrun2, p1]

/-- Witness for the amended C15: an earlier line is consumed before the first byte of the
line "RUOK"; passes of the main loop, a timer and a sensor interrupt fall among its bytes;
and a carriage return follows its line feed. -/
theorem command_integrity_witness :
    cstr (strcpy (run ([Step.rx 88, Step.rx 10] ++
      [Step.loop, Step.rx 82, Step.tick, Step.loop, Step.rx 85, Step.rx 79, Step.sensor,
        Step.rx 75, Step.rx 13] ++ Step.rx 10 :: [Step.rx 13, Step.tick]) power_on).rx_buffer)
      = [82, 85, 79, 75] :=
  (command_integrity [Step.rx 88, Step.rx 10]
    [Step.loop, Step.rx 82, Step.tick, Step.loop, Step.rx 85, Step.rx 79, Step.sensor,
      Step.rx 75, Step.rx 13] [Step.rx 13, Step.tick]
    (Or.inr ⟨[Step.rx 88], rfl⟩) (by decide) (by decide) (by decide)).2.2.1 (by decide)

/-! ## The receiver after the reset that starts a check -/

theorem exec_nil (c : Cpu) : exec [] c = c := rfl

theorem exec_cons (e : Ev) (l : List Ev) (c : Cpu) : exec (e :: l) c = exec l (ev e c) := rfl

theorem exec_append (a b : List Ev) (c : Cpu) : exec (a ++ b) c = exec b (exec a c) := by
  unfold exec
  rw [List.foldl_append]

theorem exec_irqs (l : List Irq) (c : Cpu) : exec (irqs l) c = { c with m := fire l c.m } := by
  induction l generalizing c with
  | nil => rfl
  | cons i l ih =>
    show exec (irqs l) (ev (Ev.irq i) c) = _
    rw [ih]
    rfl

/-- Interrupt handlers keep the bounds of the receiver. -/
theorem irq_bounds (i : Irq) (m : Machine) (h : rx_bounds m) : rx_bounds (irq i m) := by
  cases i with
  | rx c => exact rx_bounds_step (Step.rx c) m h
  | sensor => exact rx_bounds_step Step.sensor m h
  | tick => exact rx_bounds_step Step.tick m h

theorem fire_bounds (l : List Irq) (m : Machine) (h : rx_bounds m) : rx_bounds (fire l m) := by
  induction l generalizing m with
  | nil => exact h
  | cons i l ih =>
    rw [fire_cons]
    exact ih _ (irq_bounds i m h)

theorem fire_length (l : List Irq) (m : Machine) :
    (fire l m).rx_buffer.length = m.rx_buffer.length := by
  induction l generalizing m with
  | nil => rfl
  | cons i l ih =>
    rw [fire_cons, ih]
    cases i with
    | rx c => exact receive_length [c] m
    | sensor =>
      show (ISR_INT0_vect m).rx_buffer.length = _
      unfold ISR_INT0_vect
      split_ifs <;> rfl
    | tick => rfl

/-- A statement outside lines 117-126, executed with the Sensor Flag clear: the flag stays
clear and control stays outside those lines; unless the statement is the protected copy,
the receiver and `cmd` are as before, and the copy is not the next statement when the
Ready Flag is clear; the protected copy leaves the string of `rx_buffer` in `cmd` and
clears the Ready Flag. -/
theorem stmt_off_reset (c : Cpu) (hpc : off_reset c.pc = true) (hsf : c.m.sensor_flag = 0) :
    (stmt c).m.sensor_flag = 0 ∧ off_reset (stmt c).pc = true ∧
    (stmt c).m.rx_index = c.m.rx_index ∧
    (c.pc ≠ Pc.u_copy →
      (stmt c).m.rx_buffer = c.m.rx_buffer ∧ (stmt c).m.string_ready = c.m.string_ready ∧
      (stmt c).cmd = c.cmd ∧ (c.m.string_ready = 0 → (stmt c).pc ≠ Pc.u_copy)) ∧
    (c.pc = Pc.u_copy →
      (stmt c).m.rx_buffer = c.m.rx_buffer.set 0 0 ∧ (stmt c).m.string_ready = 0 ∧
      (stmt c).cmd = strcpy c.m.rx_buffer ∧ (stmt c).pc ≠ Pc.u_copy) := by
  obtain ⟨m, pc, cmd⟩ := c
  cases pc <;> simp only [off_reset] at hpc <;>
    first
    | exact absurd hpc (by decide)
    | (simp only [stmt]
       try split_ifs
       all_goals simp_all [off_reset, UART_SendString_out, LCD4_clear, LCD4_write_string,
         LCD4_gotoxy])

theorem no_latch_cons (e : Ev) (l : List Ev) (c : Cpu) :
    no_latch (e :: l) c = true ↔
      ((e = Ev.irq Irq.sensor → c.m.state ≠ STATE_IDLE) ∧ no_latch l (ev e c) = true) := by
  cases e with
  | irq i => cases i <;> simp [no_latch]
  | stmt => simp [no_latch]

theorem no_latch_append (a b : List Ev) (c : Cpu) (h : no_latch (a ++ b) c = true) :
    no_latch a c = true ∧ no_latch b (exec a c) = true := by
  induction a generalizing c with
  | nil => exact ⟨rfl, h⟩
  | cons e a ih =>
    obtain ⟨h1, h2⟩ := (no_latch_cons e (a ++ b) c).mp h
    obtain ⟨h3, h4⟩ := ih (ev e c) h2
    exact ⟨(no_latch_cons e a c).mpr ⟨h1, h3⟩, h4⟩

/-- One event outside lines 117-126 with the Sensor Flag clear, no sensor interrupt
finding the System State Idle: control stays outside those lines, the flag stays clear and
the bounds of the receiver are kept. -/
theorem ev_off_reset (e : Ev) (c : Cpu) (hpc : off_reset c.pc = true)
    (hsf : c.m.sensor_flag = 0) (hb : rx_bounds c.m)
    (hs : e = Ev.irq Irq.sensor → c.m.state ≠ STATE_IDLE) :
    off_reset (ev e c).pc = true ∧ (ev e c).m.sensor_flag = 0 ∧ rx_bounds (ev e c).m := by
  cases e with
  | irq i =>
    refine ⟨hpc, ?_, irq_bounds i c.m hb⟩
    cases i with
    | rx k => exact ((receive_frame [k] c.m).1).trans hsf
    | sensor =>
      show (ISR_INT0_vect c.m).sensor_flag = 0
      unfold ISR_INT0_vect
      rw [if_neg (fun h => hs rfl h.1)]
      exact hsf
    | tick => exact hsf
  | stmt =>
    obtain ⟨s1, s2, s3, s4, s5⟩ := stmt_off_reset c hpc hsf
    refine ⟨s2, s1, ?_⟩
    show rx_bounds (stmt c).m
    by_cases hc : c.pc = Pc.u_copy
    · obtain ⟨a, b⟩ := rx_bounds_set c.m hb 0 0 (Or.inl rfl)
      unfold rx_bounds
      rw [(s5 hc).1, s3]
      exact ⟨a, hb.2.1, b⟩
    · unfold rx_bounds
      rw [(s4 hc).1, s3]
      exact hb

/-- After the reset, while the bytes of a line are received: whatever statements of the
main loop and interrupts come in between, none of them latching a trigger, the cells of
`rx_buffer` below `rx_index` hold the kept bytes of what has been received. -/
theorem exec_line (ea : List Ev) (c : Cpu) (bs : List Nat)
    (hpc : off_reset c.pc = true) (hsf : c.m.sensor_flag = 0) (hb : rx_bounds c.m)
    (hrd : c.m.string_ready = 0) (hcp : c.pc ≠ Pc.u_copy)
    (hacc : c.m.rx_buffer.take c.m.rx_index = kept bs)
    (hl : no_latch ea c = true) (hLF : 10 ∉ ev_bytes ea) :
    off_reset (exec ea c).pc = true ∧ (exec ea c).m.sensor_flag = 0 ∧
    rx_bounds (exec ea c).m ∧
    (exec ea c).m.rx_buffer.take (exec ea c).m.rx_index = kept (bs ++ ev_bytes ea) := by
  induction ea generalizing c bs with
  | nil =>
    refine ⟨hpc, hsf, hb, ?_⟩
    show c.m.rx_buffer.take c.m.rx_index = kept (bs ++ [])
    rw [List.append_nil]
    exact hacc
  | cons e ea ih =>
    obtain ⟨l1, l2⟩ := (no_latch_cons e ea c).mp hl
    obtain ⟨e1, e2, e3⟩ := ev_off_reset e c hpc hsf hb l1
    rw [exec_cons]
    cases e with
    | irq i =>
      cases i with
      | rx k =>
        have hk : k ≠ 10 := fun h => hLF (by rw [h]; exact List.mem_cons_self _ _)
        have hLF2 : 10 ∉ ev_bytes ea := fun h => hLF (List.mem_cons_of_mem _ h)
        have h := ih (ev (Ev.irq (Irq.rx k)) c) (bs ++ [k]) e1 e2 e3
          ((ISR_USART_RXC_vect_ready k c.m hk).trans hrd) hcp
          (ISR_USART_RXC_vect_kept k c.m bs hb hk hacc) l2 hLF2
        rw [List.append_assoc] at h
        exact h
      | sensor =>
        have hid : ev (Ev.irq Irq.sensor) c = c := by
          show { c with m := ISR_INT0_vect c.m } = c
          unfold ISR_INT0_vect
          rw [if_neg (fun h => l1 rfl h.1)]
        rw [hid] at l2 ⊢
        exact ih c bs hpc hsf hb hrd hcp hacc l2 hLF
      | tick => exact ih (ev (Ev.irq Irq.tick) c) bs e1 e2 e3 hrd hcp hacc l2 hLF
    | stmt =>
      obtain ⟨_, _, s3, s4, _⟩ := stmt_off_reset c hpc hsf
      obtain ⟨t1, t2, _, t4⟩ := s4 hcp
      exact ih (ev Ev.stmt c) bs e1 e2 e3 (t2.trans hrd) (t4 hrd)
        (by
          show (stmt c).m.rx_buffer.take (stmt c).m.rx_index = kept bs
          rw [t1, s3]
          exact hacc) l2 hLF

/-- After the line feed: while only carriage returns are received, the string `K` of the
line stays in `rx_buffer` until the protected copy, and in `cmd` from then on. -/
theorem exec_pending (eb : List Ev) (c : Cpu) (K : List Nat)
    (hpc : off_reset c.pc = true) (hsf : c.m.sensor_flag = 0) (hb : rx_bounds c.m)
    (hB : (c.m.string_ready ≠ 0 ∧ cstr c.m.rx_buffer = K) ∨
      (c.m.string_ready = 0 ∧ cstr c.cmd = K ∧ c.pc ≠ Pc.u_copy))
    (hl : no_latch eb c = true) (hcr : ∀ b ∈ ev_bytes eb, b = 13) :
    ((exec eb c).m.string_ready ≠ 0 ∧ cstr (exec eb c).m.rx_buffer = K) ∨
      ((exec eb c).m.string_ready = 0 ∧ cstr (exec eb c).cmd = K) := by
  induction eb generalizing c with
  | nil =>
    rcases hB with h | h
    · exact Or.inl h
    · exact Or.inr ⟨h.1, h.2.1⟩
  | cons e eb ih =>
    obtain ⟨l1, l2⟩ := (no_latch_cons e eb c).mp hl
    obtain ⟨e1, e2, e3⟩ := ev_off_reset e c hpc hsf hb l1
    rw [exec_cons]
    cases e with
    | irq i =>
      cases i with
      | rx k =>
        have hk : k = 13 := hcr k (List.mem_cons_self _ _)
        have hid : ev (Ev.irq (Irq.rx k)) c = c := by
          rw [hk]
          rfl
        rw [hid] at l2 ⊢
        exact ih c hpc hsf hb hB l2 (fun b h => hcr b (List.mem_cons_of_mem _ h))
      | sensor =>
        have hid : ev (Ev.irq Irq.sensor) c = c := by
          show { c with m := ISR_INT0_vect c.m } = c
          unfold ISR_INT0_vect
          rw [if_neg (fun h => l1 rfl h.1)]
        rw [hid] at l2 ⊢
        exact ih c hpc hsf hb hB l2 hcr
      | tick => exact ih (ev (Ev.irq Irq.tick) c) e1 e2 e3 hB l2 hcr
    | stmt =>
      obtain ⟨_, _, _, s4, s5⟩ := stmt_off_reset c hpc hsf
      refine ih (ev Ev.stmt c) e1 e2 e3 ?_ l2 hcr
      show ((stmt c).m.string_ready ≠ 0 ∧ cstr (stmt c).m.rx_buffer = K) ∨
        ((stmt c).m.string_ready = 0 ∧ cstr (stmt c).cmd = K ∧ (stmt c).pc ≠ Pc.u_copy)
      by_cases hc : c.pc = Pc.u_copy
      · obtain ⟨_, u2, u3, u4⟩ := s5 hc
        rcases hB with h | h
        · exact Or.inr ⟨u2, by rw [u3, cstr_strcpy]; exact h.2, u4⟩
        · exact absurd hc h.2.2
      · obtain ⟨t1, t2, t3, t4⟩ := s4 hc
        rcases hB with h | h
        · exact Or.inl ⟨by rw [t2]; exact h.1, by rw [t1]; exact h.2⟩
        · exact Or.inr ⟨t2.trans h.1, by rw [t3]; exact h.2.1, t4 h.1⟩

/-- The pass that handles a trigger, up to the reset of the receiver: whatever interrupts
are taken before line 116 and between the statements up to the reset, those between lines
117 and 118 not being sensor interrupts, the reset leaves `rx_buffer` all zero, `rx_index`
0, the Ready Flag and the Sensor Flag clear, and control at line 129. -/
theorem exec_to_reset (m : Machine) (cmd0 : List Nat) (i0 i1 i2 i3 i4 : List Irq)
    (hlen : m.rx_buffer.length = BUFFER_SIZE) (hsf : m.sensor_flag ≠ 0)
    (hrace : Irq.sensor ∉ i2) :
    ∃ x : Machine,
      exec (to_reset i0 i1 i2 i3 i4) { m := m, pc := Pc.top, cmd := cmd0 }
        = { m := { x with string_ready := 0, rx_index := 0,
                          rx_buffer := List.replicate BUFFER_SIZE 0 },
            pc := Pc.s_send_NG, cmd := cmd0 } ∧
      x.sensor_flag = 0 := by
  unfold to_reset
  rw [exec_append, exec_irqs, exec_cons, exec_append, exec_irqs, exec_cons, exec_append,
    exec_irqs, exec_cons, exec_append, exec_irqs, exec_cons, exec_append, exec_irqs,
    exec_cons, exec_nil]
  dsimp only [ev]
  -- line 116
  obtain ⟨-, -, -, F0, -, -, -, -⟩ := fire_facts i0 m
  have L0 := fire_length i0 m
  have F0 := F0 hsf
  generalize fire i0 m = x0 at F0 L0 ⊢
  have hx0 : x0.sensor_flag ≠ 0 := by rw [F0]; exact hsf
  rw [stmt_top, if_pos hx0]
  dsimp only
  -- line 117
  have L1 := fire_length i1 x0
  generalize fire i1 x0 = x1 at L1 ⊢
  rw [stmt_s_clear]
  dsimp only
  -- line 118
  have h := fire_facts i2 { x1 with sensor_flag := 0 }
  have L2 := fire_length i2 { x1 with sensor_flag := 0 }
  dsimp only at h L2
  obtain ⟨-, -, -, -, -, F2, -, -⟩ := h
  have F2 := F2 hrace
  generalize fire i2 { x1 with sensor_flag := 0 } = x2 at F2 L2 ⊢
  rw [stmt_s_state]
  dsimp only
  -- line 119
  have h := fire_checking i3 { x2 with state := STATE_CHECKING } rfl
  have L3 := fire_length i3 { x2 with state := STATE_CHECKING }
  dsimp only at h L3
  obtain ⟨S3, F3, -, -, -, -⟩ := h
  generalize fire i3 { x2 with state := STATE_CHECKING } = x3 at S3 F3 L3 ⊢
  rw [stmt_s_timer]
  dsimp only
  -- lines 122-126
  have h := fire_checking i4 { x3 with state_timer := x3.tick_10ms } S3
  have L4 := fire_length i4 { x3 with state_timer := x3.tick_10ms }
  dsimp only at h L4
  obtain ⟨-, F4, -, -, -, -⟩ := h
  generalize fire i4 { x3 with state_timer := x3.tick_10ms } = x4 at F4 L4 ⊢
  rw [stmt_s_reset]
  have hl4 : x4.rx_buffer.length = 32 := by
    rw [L4, L3, L2, L1, L0]; exact hlen
  rw [memset_zero _ hl4]
  exact ⟨x4, rfl, by rw [F4, F3, F2]⟩

/-- C16, as stated, fails for a pass during which bytes are received after the reset.
From the Idle state with the Sensor Flag set that a sensor interrupt leaves after power-on:
when the bytes "AB" are received while "NG" and "CK" are being sent, the pass that handles
the flag ends with `rx_buffer` holding "AB" and `rx_index` 2; when the line "RUOK" is
received then, the pass consumes it and ends with `rx_buffer` holding NUL, 'U', 'O', 'K';
and when the line "F" is received after the test of the Ready Flag, the pass ends with the
Ready Flag set.  A line received after the pass is not the next command either when a
sensor interrupt was taken between lines 117 and 118: the line "F" received after such a
pass is discarded by the next pass, which leaves the System State at Checking, whereas
after a pass without that interrupt it ends the check in ResultFail. -/
theorem trigger_pass_keeps_later_input :
    (ISR_INT0_vect power_on).sensor_flag ≠ 0 ∧
    (pass ex_q_RUOK_during_send (ISR_INT0_vect power_on)).rx_buffer
      = [0, 85, 79, 75] ++ List.replicate 28 0 ∧
    (pass no_irq (receive [70, 10] (pass ex_q_sensor_race (ISR_INT0_vect power_on)))).state
      = STATE_CHECKING ∧
    (pass no_irq (receive [70, 10] (pass ex_q_sensor_race (ISR_INT0_vect power_on)))).rx_buffer
      = List.replicate BUFFER_SIZE 0 ∧
    (pass no_irq (receive [70, 10] (pass no_irq (ISR_INT0_vect power_on)))).state
      = STATE_RESULT_FAIL ∧
    (pass ex_q_AB_during_send (ISR_INT0_vect power_on)).rx_buffer
      = [65, 66] ++ List.replicate 30 0 ∧
    (pass ex_q_AB_during_send (ISR_INT0_vect power_on)).rx_buffer
      ≠ List.replicate BUFFER_SIZE 0 ∧
    (pass ex_q_AB_during_send (ISR_INT0_vect power_on)).rx_index = 2 ∧
    (pass ex_q_F_after_test (ISR_INT0_vect power_on)).string_ready ≠ 0 := by
  decide

/-- C16, amended (starting a check discards earlier serial input). Let the Sensor Flag be
set at line 116, whatever `rx_buffer` holds, and let the pass run to the end of its reset
of the receiver (lines 122-126), any interrupts being taken on the way except a sensor
interrupt between lines 117 and 118.  Right after the reset `rx_buffer` is all zero,
`rx_index` is 0 and the Ready Flag is clear, whatever was received before.  From there let
the main loop go on and interrupts be taken in any order, no sensor interrupt finding the
System State Idle, while the bytes of a line, its line feed, and after it carriage returns
only are received.  Then the command at hand (the string the main loop will copy while the
Ready Flag is set, the string in `cmd` once it has copied) is the first 31 bytes of the
line without its carriage returns, read as a C string: exactly those bytes when the line
holds no NUL.  When no interrupt is taken during the pass, the state after the reset is
the state of the receiver at the end of the pass. -/
theorem check_start_discards_input (m : Machine) (cmd0 : List Nat)
    (i0 i1 i2 i3 i4 : List Irq) (ea eb : List Ev)
    (hlen : m.rx_buffer.length = BUFFER_SIZE) (hsf : m.sensor_flag ≠ 0)
    (hrace : Irq.sensor ∉ i2)
    (hl : no_latch (ea ++ Ev.irq (Irq.rx 10) :: eb)
      (exec (to_reset i0 i1 i2 i3 i4) { m := m, pc := Pc.top, cmd := cmd0 }) = true)
    (hLF : 10 ∉ ev_bytes ea) (hcr : ∀ b ∈ ev_bytes eb, b = 13) :
    (exec (to_reset i0 i1 i2 i3 i4) { m := m, pc := Pc.top, cmd := cmd0 }).pc
      = Pc.s_send_NG ∧
    (exec (to_reset i0 i1 i2 i3 i4) { m := m, pc := Pc.top, cmd := cmd0 }).m.rx_buffer
      = List.replicate BUFFER_SIZE 0 ∧
    (exec (to_reset i0 i1 i2 i3 i4) { m := m, pc := Pc.top, cmd := cmd0 }).m.rx_index = 0 ∧
    (exec (to_reset i0 i1 i2 i3 i4) { m := m, pc := Pc.top, cmd := cmd0 }).m.string_ready
      = 0 ∧
    pending_command (exec (to_reset i0 i1 i2 i3 i4 ++ (ea ++ Ev.irq (Irq.rx 10) :: eb))
      { m := m, pc := Pc.top, cmd := cmd0 }) = cstr (kept (ev_bytes ea)) ∧
    (0 ∉ ev_bytes ea →
      pending_command (exec (to_reset i0 i1 i2 i3 i4 ++ (ea ++ Ev.irq (Irq.rx 10) :: eb))
        { m := m, pc := Pc.top, cmd := cmd0 }) = kept (ev_bytes ea)) ∧
    (pass no_irq m).rx_buffer = List.replicate BUFFER_SIZE 0 ∧
    (pass no_irq m).rx_index = 0 ∧
    (pass no_irq m).string_ready = 0 := by
  obtain ⟨x, hx, fx⟩ := exec_to_reset m cmd0 i0 i1 i2 i3 i4 hlen hsf hrace
  have hpc : (exec (to_reset i0 i1 i2 i3 i4) { m := m, pc := Pc.top, cmd := cmd0 }).pc
      = Pc.s_send_NG := by rw [hx]
  have hbuf : (exec (to_reset i0 i1 i2 i3 i4) { m := m, pc := Pc.top, cmd := cmd0 }).m.rx_buffer
      = List.replicate BUFFER_SIZE 0 := by rw [hx]
  have hidx : (exec (to_reset i0 i1 i2 i3 i4) { m := m, pc := Pc.top, cmd := cmd0 }).m.rx_index
      = 0 := by rw [hx]
  have hrd : (exec (to_reset i0 i1 i2 i3 i4)
      { m := m, pc := Pc.top, cmd := cmd0 }).m.string_ready = 0 := by rw [hx]
  have hfl : (exec (to_reset i0 i1 i2 i3 i4)
      { m := m, pc := Pc.top, cmd := cmd0 }).m.sensor_flag = 0 := by rw [hx]; exact fx
  have hm := sensor_block_set m hsf
  refine ⟨hpc, hbuf, hidx, hrd, ?_⟩
  have hend : (pass no_irq m).rx_buffer = List.replicate BUFFER_SIZE 0 ∧
      (pass no_irq m).rx_index = 0 ∧ (pass no_irq m).string_ready = 0 := by
    rw [pass_uninterrupted, main_loop_sensor m hsf, hm]
    exact ⟨memset_zero _ hlen, rfl, rfl⟩
  rw [exec_append]
  clear hx
  generalize exec (to_reset i0 i1 i2 i3 i4) { m := m, pc := Pc.top, cmd := cmd0 } = c1
    at hl hpc hbuf hidx hrd hfl ⊢
  obtain ⟨la, lb⟩ := no_latch_append ea _ c1 hl
  have hb1 : rx_bounds c1.m :=
    ⟨by rw [hbuf]; simp, by rw [hidx]; omega, by rw [hbuf]; decide⟩
  obtain ⟨a1, a2, a3, a4⟩ := exec_line ea c1 [] (by rw [hpc]; rfl) hfl hb1 hrd
    (by rw [hpc]; decide) (by rw [hidx]; rfl) la hLF
  rw [List.nil_append] at a4
  obtain ⟨l1, l2⟩ := (no_latch_cons _ eb _).mp lb
  obtain ⟨b1, b2, b3⟩ := ev_off_reset _ _ a1 a2 a3 l1
  have h32 : (exec ea c1).m.rx_buffer.length = 32 := a3.1
  have hi := a3.2.1
  have hP := exec_pending eb _ (cstr (kept (ev_bytes ea))) b1 b2 b3
    (Or.inl ⟨by
        show (ISR_USART_RXC_vect 10 _).string_ready ≠ 0
        rw [ISR_USART_RXC_vect_lf]
        exact Nat.one_ne_zero,
      by
        show cstr (ISR_USART_RXC_vect 10 _).rx_buffer = _
        rw [ISR_USART_RXC_vect_lf]
        show cstr (List.set _ _ 0) = _
        rw [cstr_set_zero_take _ _ (by omega), a4]⟩) l2 hcr
  have hcmd : pending_command (exec (ea ++ Ev.irq (Irq.rx 10) :: eb) c1)
      = cstr (kept (ev_bytes ea)) := by
    rw [exec_append, exec_cons]
    unfold pending_command
    rcases hP with h | h
    · rw [if_pos h.1, cstr_strcpy]; exact h.2
    · rw [if_neg (fun hn => hn h.1)]; exact h.2
  refine ⟨hcmd, fun hNUL => ?_, hend⟩
  rw [hcmd]
  apply cstr_of_no_zero
  intro h
  exact hNUL (List.mem_of_mem_filter (List.mem_of_mem_take h))

/-- Witness for the amended C16: the line "RUOK" is pending when the sensor triggers, and
the bytes 'X', a line feed and 'Y' arrive before the reset; the line "F" arrives while
"NG" and "CK" are being sent and the display is cleared, a sensor edge falling in between;
the main loop then goes on to its protected copy and beyond. -/
theorem check_start_discards_input_witness :
    pending_command (exec (to_reset [Irq.tick] [Irq.rx 88] [] [Irq.sensor, Irq.rx 10]
        [Irq.rx 89]
      ++ ([Ev.stmt, Ev.irq (Irq.rx 70), Ev.stmt, Ev.irq Irq.sensor, Ev.irq (Irq.rx 13),
            Ev.stmt]
          ++ Ev.irq (Irq.rx 10) ::
            [Ev.stmt, Ev.stmt, Ev.irq (Irq.rx 13), Ev.stmt, Ev.stmt, Ev.irq Irq.tick, Ev.stmt,
              Ev.stmt, Ev.stmt]))
      { m := ex_triggered_with_RUOK, pc := Pc.top, cmd := [] }) = [70] :=
  (check_start_discards_input ex_triggered_with_RUOK [] [Irq.tick] [Irq.rx 88] []
    [Irq.sensor, Irq.rx 10] [Irq.rx 89]
    [Ev.stmt, Ev.irq (Irq.rx 70), Ev.stmt, Ev.irq Irq.sensor, Ev.irq (Irq.rx 13), Ev.stmt]
    [Ev.stmt, Ev.stmt, Ev.irq (Irq.rx 13), Ev.stmt, Ev.stmt, Ev.irq Irq.tick, Ev.stmt,
      Ev.stmt, Ev.stmt]
    (by decide) (by decide) (by decide) (by decide) (by decide) (by decide)).2.2.2.2.2.1
    (by decide)

end SmartAttendance
